import Mathlib

/-!
# JavaAppAudioDevice: the device adapter and its buffer manager

A shallow embedding of `talk/app/webrtc/java/jni/app_audio_device.{h,cc}`.

* The adapter object is a record of its data members (`JavaAppAudioDevice`).
* Everything the adapter touches outside itself is part of `World`: the C++
  heap, the two `ByteBuffer` fields of the Java device, and the trace of the
  calls that cross the adapter's boundary (device methods, sink methods,
  `new`, `delete`, `SetObjectField`).
* What the surroundings answer during one operation is an `Env`: the values
  the Java methods return, and what `new uint8_t[n]` returns; what the
  attached audio buffer answers on the data path is a `SinkEnv`.
* An operation that can stop abnormally (a failed `RTC_DCHECK` or
  `RTC_DCHECK_EQ`, a write through a null pointer, a `new` that fails) returns
  `Except Fault _`.
* `LOG` and `WEBRTC_TRACE` lines, `ScopedLocalRefFrame` and `jni()` have no
  effect on any of this and are left out.
-/

namespace webrtc_jni

/-! ## Constants (app_audio_device.cc, lines 24-31) -/

/-- Audio data format is PCM 16 bit per sample. -/
def BITS_PER_SAMPLE : Int := 16

/-- Requested size of each recorded buffer provided to the client. -/
def CALLBACK_BUFFER_SIZE_MS : Int := 10

/-- Average number of callbacks per second. -/
def BUFFERS_PER_SECOND : Int := 1000 / CALLBACK_BUFFER_SIZE_MS

/-! ## Machine integers -/

/-- Conversion of an `int` to `uint32_t` (the usual arithmetic conversion
applied to the `int` operand of a mixed `int`/`uint32_t` operation). -/
def toUInt32 (i : Int) : Nat := (i % 2 ^ 32).toNat

/-- Conversion of a `uint32_t` value to `int` (two's complement). -/
def toInt32 (n : Nat) : Int :=
  if n % 2 ^ 32 < 2 ^ 31 then ((n % 2 ^ 32 : Nat) : Int)
  else ((n % 2 ^ 32 : Nat) : Int) - 2 ^ 32

/-- Conversion of an `int` to `size_t` (64 bits on the LP64 hosts the JNI
library is built for). -/
def toSizeT (i : Int) : Nat := (i % 2 ^ 64).toNat

/-- Conversion to `uint16_t`. -/
def toUInt16 (i : Int) : Nat := (i % 2 ^ 16).toNat

/-! ## The boundary: device methods, buffer fields, sink calls, events -/

/-- The methods of the Java device, one per `jmethodID` member resolved by
the constructor (lines 49-134). -/
inductive Method
  | j_init_id_
  | j_terminate_id_
  | j_initialized_id_
  | j_playout_is_available_id_
  | j_init_playout_id_
  | j_playout_is_initialized_id_
  | j_recording_is_available_id_
  | j_init_recording_id_
  | j_recording_is_initialized_id_
  | j_start_playout_id_
  | j_stop_playout_id_
  | j_playing_id_
  | j_start_recording_id_
  | j_stop_recording_id_
  | j_recording_id_
  | j_stereo_playout_is_available_id_
  | j_stereo_recording_is_available_id_
  | j_playout_delay_id_
  | j_recording_delay_id_
  | j_playout_warning_id_
  | j_playout_error_id_
  | j_recording_warning_id_
  | j_recording_error_id_
  | j_clear_playout_warning_id_
  | j_clear_playout_error_id_
  | j_clear_recording_warning_id_
  | j_clear_recording_error_id_
  deriving DecidableEq, Repr

/-- The two `ByteBuffer` fields of the Java device, one per `jfieldID`
member (lines 136-141). -/
inductive BufferField
  | j_recording_buffer_id_
  | j_playout_buffer_id_
  deriving DecidableEq, Repr

/-- Modelled from the spec: `webrtc::AudioDeviceBuffer` is not among the
sources; section 6 lists the sink's methods. These are the calls the adapter
makes on it, with their arguments; a call is recorded, not interpreted. -/
inductive SinkCall
  | SetRecordingSampleRate (fsHz : Nat)
  | SetPlayoutSampleRate (fsHz : Nat)
  | SetRecordingChannels (channels : Nat)
  | SetPlayoutChannels (channels : Nat)
  | SetRecordedBuffer (audioBuffer : Option Nat) (nSamples : Nat)
  | SetVQEData (playDelayMs recDelayMs : Nat) (clockDrift : Int)
  | DeliverRecordedData
  | RequestPlayoutData (nSamples : Nat)
  | GetPlayoutData (audioBuffer : Option Nat)
  deriving DecidableEq, Repr

/-- What crosses the adapter's boundary, in the order it happens. -/
inductive Event
  /-- A call `jni()->Call...Method(*j_device_, methodID)`. -/
  | deviceCall (methodID : Method)
  /-- A method call through `audio_device_buffer_` (the pointer's value). -/
  | sinkCall (sink : Nat) (call : SinkCall)
  /-- The expression `new uint8_t[size]` and the pointer it returned (`none`:
  the allocation failed and the expression returned nothing). -/
  | newArray (size : Nat) (result : Option Nat)
  /-- The statement `delete p`. -/
  | delete (p : Nat)
  /-- The buffer `NewDirectByteBuffer(p, capacity)` stored by `SetObjectField`. -/
  | setObjectField (field : BufferField) (p : Nat) (capacity : Int)
  deriving DecidableEq, Repr

/-- The answers of the surroundings during one operation. No operation calls
the same device method twice, so one answer per method is enough. -/
structure Env where
  /-- The `jint` a device method returns (a call that returns normally). -/
  CallIntMethod : Method → Int
  /-- The `jboolean` a device method returns. -/
  CallBooleanMethod : Method → Bool
  /-- The address of the block `new uint8_t[n]` obtains; `none` when the
  allocation fails. -/
  newArray : Nat → Option Nat

/-! ## Thread-affinity guard -/

/-- Modelled from the spec: `rtc::ThreadChecker` (webrtc/base/thread_checker.h)
is not among the sources. Section 4.3: a token bound to the thread that
currently owns control-path calls; `none` is the detached state. -/
structure ThreadChecker where
  valid_thread_ : Option Nat
  deriving DecidableEq, Repr

/-- Modelled from the spec: `ThreadChecker::CalledOnValidThread` is not among
the sources. Section 4.3: binds implicitly on the first checked call and
then answers whether the caller is the bound thread. -/
def ThreadChecker.CalledOnValidThread (c : ThreadChecker) (current : Nat) :
    Bool × ThreadChecker :=
  match c.valid_thread_ with
  | none => (true, { valid_thread_ := some current })
  | some t => (decide (t = current), c)

/-- Modelled from the spec: the constructor of `rtc::ThreadChecker` is not
among the sources. Section 4.3: the token is bound to the thread that
currently owns control-path calls, and construction detaches "immediately,
since the object may be constructed on a thread different from the one
driving it later"; the comment at lines 145-146 reads "Detach from the calling
thread". A new guard is bound to the thread that constructs it. -/
def ThreadChecker.construct (creator : Nat) : ThreadChecker :=
  { valid_thread_ := some creator }

/-- Modelled from the spec: `ThreadChecker::DetachFromThread` is not among the
sources. Section 4.3: releases the binding, so that a different thread may
bind next. -/
def ThreadChecker.DetachFromThread (_c : ThreadChecker) : ThreadChecker :=
  { valid_thread_ := none }

/-! ## The adapter object and its surroundings -/

/-- The data members of `JavaAppAudioDevice` (app_audio_device.h, lines
212-275). Pointers are `Option Nat`, `none` being NULL. `_critSect`,
`j_device_` and the method and field ids are fixed at construction; the ids
are the constructors of `Method` and `BufferField`. -/
structure JavaAppAudioDevice where
  thread_checker_ : ThreadChecker
  _id : Int
  _AGC : Bool
  _recChannels : Nat
  _playChannels : Nat
  recording_data_ : Option Nat
  playout_data_ : Option Nat
  recording_data_size_ : Nat
  playout_data_size_ : Nat
  rec_frames_per_buffer_ : Nat
  play_frames_per_buffer_ : Nat
  audio_device_buffer_ : Option Nat
  deriving DecidableEq, Repr

/-- A block of the C++ heap obtained from `new uint8_t[size]`. Its bytes are
indeterminate (`none`) until something writes them. -/
structure Block where
  addr : Nat
  size : Nat
  contents : Option (List Nat)
  deriving DecidableEq, Repr

/-- The adapter together with what it acts on. -/
structure World where
  /-- The adapter object. -/
  adapter : JavaAppAudioDevice
  /-- The live blocks of the heap. -/
  heap : List Block
  /-- The Java device's `recordingBuffer` field: address and capacity of
  the direct byte buffer it refers to, `none` while it is null. -/
  recordingBuffer : Option (Nat × Int)
  /-- The Java device's `playoutBuffer` field. -/
  playoutBuffer : Option (Nat × Int)
  /-- The boundary crossings so far. -/
  trace : List Event
  deriving DecidableEq, Repr

/-- The ways an operation stops abnormally. -/
inductive Fault
  /-- A failed `RTC_DCHECK(thread_checker_.CalledOnValidThread())`. -/
  | affinity
  /-- A read or write through a null pointer. -/
  | nullDereference
  /-- Modelled from the spec: the macro `RTC_DCHECK_EQ` (webrtc/base/checks.h)
  is not among the sources. Section 4.1: a sink count that differs from
  frames-per-buffer is an invariant violation to be asserted. This is a failed
  `RTC_DCHECK_EQ(static_cast<size_t>(samples), play_frames_per_buffer_)`. -/
  | countMismatch
  /-- A `new uint8_t[n]` that fails. The expression at line 944 is the plain
  `new`, which does not return NULL on failure: it throws `std::bad_alloc`, and
  no function of the sources catches it. `w` is the world as the failing
  expression leaves it. -/
  | badAlloc (w : World)
  deriving DecidableEq, Repr

/-! ## Primitive steps -/

/-- Modelled from the spec: the macro `RTC_DCHECK` (webrtc/base/checks.h) is
not among the sources. Section 7 (d): a violation is a hard programming-error
fault. This is `RTC_DCHECK(thread_checker_.CalledOnValidThread())`. -/
def RTC_DCHECK_CalledOnValidThread (current : Nat) (w : World) : Except Fault World :=
  match w.adapter.thread_checker_.CalledOnValidThread current with
  | (true, c) => .ok { w with adapter := { w.adapter with thread_checker_ := c } }
  | (false, _) => .error .affinity

/-- The call `jni()->CallIntMethod(*j_device_, methodID)`. -/
def CallIntMethod (env : Env) (methodID : Method) (w : World) : Int × World :=
  (env.CallIntMethod methodID, { w with trace := w.trace ++ [.deviceCall methodID] })

/-- The call `jni()->CallBooleanMethod(*j_device_, methodID)`. -/
def CallBooleanMethod (env : Env) (methodID : Method) (w : World) : Bool × World :=
  (env.CallBooleanMethod methodID, { w with trace := w.trace ++ [.deviceCall methodID] })

/-- The call `jni()->CallVoidMethod(*j_device_, methodID)`. -/
def CallVoidMethod (methodID : Method) (w : World) : World :=
  { w with trace := w.trace ++ [.deviceCall methodID] }

/-- A method call through the pointer `audio_device_buffer_`. -/
def callSink (call : SinkCall) (w : World) : Except Fault World :=
  match w.adapter.audio_device_buffer_ with
  | none => .error .nullDereference
  | some sink => .ok { w with trace := w.trace ++ [.sinkCall sink call] }

/-- The expression `new uint8_t[size]`: the pointer returned and the world
with the new block. When the allocation fails the expression returns nothing
(it throws), so the pointer returned is never NULL. -/
def newArray (env : Env) (size : Nat) (w : World) : Except Fault (Option Nat × World) :=
  match env.newArray size with
  | none => .error (.badAlloc { w with trace := w.trace ++ [.newArray size none] })
  | some p =>
    .ok (some p, { w with heap := w.heap ++ [{ addr := p, size := size, contents := none }],
                          trace := w.trace ++ [.newArray size (some p)] })

/-- The statement `delete p`: the block at `p` is no longer live. -/
def delete (p : Nat) (w : World) : World :=
  { w with heap := w.heap.filter (fun b => b.addr != p),
           trace := w.trace ++ [.delete p] }

/-- The pair `NewDirectByteBuffer(p, capacity)` and
`SetObjectField(*j_device_, field, j_buffer)`. -/
def SetObjectField (field : BufferField) (p : Nat) (capacity : Int) (w : World) : World :=
  match field with
  | .j_recording_buffer_id_ =>
    { w with recordingBuffer := some (p, capacity),
             trace := w.trace ++ [.setObjectField field p capacity] }
  | .j_playout_buffer_id_ =>
    { w with playoutBuffer := some (p, capacity),
             trace := w.trace ++ [.setObjectField field p capacity] }

/-- What a `ByteBuffer` field of the Java device refers to. -/
def World.bufferField (w : World) : BufferField → Option (Nat × Int)
  | .j_recording_buffer_id_ => w.recordingBuffer
  | .j_playout_buffer_id_ => w.playoutBuffer

/-! ### The members `SetupBuffer` reaches through its pointer parameters -/

/-- The targets of a `size_t*`: `&recording_data_size_`, `&playout_data_size_`. -/
inductive SizeField
  | recording_data_size_
  | playout_data_size_
  deriving DecidableEq, Repr

/-- The targets of a `uint8_t**`: `&recording_data_`, `&playout_data_`. -/
inductive DataField
  | recording_data_
  | playout_data_
  deriving DecidableEq, Repr

/-- The targets of a `uint32_t*`: `&rec_frames_per_buffer_`,
`&play_frames_per_buffer_`. -/
inductive FramesField
  | rec_frames_per_buffer_
  | play_frames_per_buffer_
  deriving DecidableEq, Repr

/-- Read `*dataSize`. -/
def JavaAppAudioDevice.loadSize (a : JavaAppAudioDevice) : SizeField → Nat
  | .recording_data_size_ => a.recording_data_size_
  | .playout_data_size_ => a.playout_data_size_

/-- Write `*dataSize = v`. -/
def JavaAppAudioDevice.storeSize (a : JavaAppAudioDevice) (f : SizeField) (v : Nat) :
    JavaAppAudioDevice :=
  match f with
  | .recording_data_size_ => { a with recording_data_size_ := v }
  | .playout_data_size_ => { a with playout_data_size_ := v }

/-- Read `*data`. -/
def JavaAppAudioDevice.loadData (a : JavaAppAudioDevice) : DataField → Option Nat
  | .recording_data_ => a.recording_data_
  | .playout_data_ => a.playout_data_

/-- Write `*data = p`. -/
def JavaAppAudioDevice.storeData (a : JavaAppAudioDevice) (f : DataField) (p : Option Nat) :
    JavaAppAudioDevice :=
  match f with
  | .recording_data_ => { a with recording_data_ := p }
  | .playout_data_ => { a with playout_data_ := p }

/-- Read `*framesPerBuffer`. -/
def JavaAppAudioDevice.loadFrames (a : JavaAppAudioDevice) : FramesField → Nat
  | .rec_frames_per_buffer_ => a.rec_frames_per_buffer_
  | .play_frames_per_buffer_ => a.play_frames_per_buffer_

/-- Write `*framesPerBuffer = v` (a `uint32_t`). -/
def JavaAppAudioDevice.storeFrames (a : JavaAppAudioDevice) (f : FramesField) (v : Nat) :
    JavaAppAudioDevice :=
  match f with
  | .rec_frames_per_buffer_ => { a with rec_frames_per_buffer_ := v % 2 ^ 32 }
  | .play_frames_per_buffer_ => { a with play_frames_per_buffer_ := v % 2 ^ 32 }

/-! ## Construction (lines 37-149) -/

/-- The members the constructor's initialiser list does not mention. They
hold whatever the storage held before. -/
structure Indeterminate where
  rec_frames_per_buffer_ : Nat
  play_frames_per_buffer_ : Nat
  audio_device_buffer_ : Option Nat
  deriving DecidableEq, Repr

/-- The members as the constructor's initialiser list (lines 38-141) leaves
them, on the thread `creator` that runs the constructor. `thread_checker_` is
not in the list, so it is default-constructed there. -/
def JavaAppAudioDevice.initialised (creator : Nat) (id : Int) (junk : Indeterminate) :
    JavaAppAudioDevice :=
  { thread_checker_ := ThreadChecker.construct creator,
    _id := id,
    _AGC := false,
    _recChannels := 1,
    _playChannels := 1,
    recording_data_ := none,
    playout_data_ := none,
    recording_data_size_ := 0,
    playout_data_size_ := 0,
    rec_frames_per_buffer_ := junk.rec_frames_per_buffer_,
    play_frames_per_buffer_ := junk.play_frames_per_buffer_,
    audio_device_buffer_ := junk.audio_device_buffer_ }

/-- The constructor `JavaAppAudioDevice::JavaAppAudioDevice(id, jni, j_device)`
run on thread `creator`: the initialiser list, then the body. -/
def JavaAppAudioDevice.construct (creator : Nat) (id : Int) (junk : Indeterminate) :
    JavaAppAudioDevice :=
  let a := JavaAppAudioDevice.initialised creator id junk
  -- thread_checker_.DetachFromThread();
  { a with thread_checker_ := a.thread_checker_.DetachFromThread }

/-- The world right after `new JavaAppAudioDevice(id, jni, j_device)` on thread
`creator`: nothing allocated by the adapter, nothing published, nothing
called. -/
def World.constructed (creator : Nat) (id : Int) (junk : Indeterminate) : World :=
  { adapter := JavaAppAudioDevice.construct creator id junk,
    heap := [],
    recordingBuffer := none,
    playoutBuffer := none,
    trace := [] }

/-! ## Main initialization and termination (lines 187-212) -/

/-- The operation `int32_t JavaAppAudioDevice::Init()`. -/
def Init (current : Nat) (env : Env) (w : World) : Except Fault (Int × World) :=
  match RTC_DCHECK_CalledOnValidThread current w with
  | .error f => .error f
  | .ok w =>
    let (result, w) := CallIntMethod env .j_init_id_ w
    .ok (result, w)

/-- The operation `int32_t JavaAppAudioDevice::Terminate()`. -/
def Terminate (current : Nat) (env : Env) (w : World) : Except Fault (Int × World) :=
  match RTC_DCHECK_CalledOnValidThread current w with
  | .error f => .error f
  | .ok w =>
    let (result, w) := CallIntMethod env .j_terminate_id_ w
    .ok (result, w)

/-- The operation `bool JavaAppAudioDevice::Initialized() const`. -/
def Initialized (current : Nat) (env : Env) (w : World) : Except Fault (Bool × World) :=
  match RTC_DCHECK_CalledOnValidThread current w with
  | .error f => .error f
  | .ok w =>
    let (result, w) := CallBooleanMethod env .j_initialized_id_ w
    .ok (result, w)

/-! ## Private functions `Available` and `Delay` (lines 900-922) -/

/-- The helper `int32_t JavaAppAudioDevice::Available(bool& available, jmethodID methodID)`.
The reference parameter is passed in and handed back. -/
def Available (env : Env) (available : Bool) (methodID : Method) (w : World) :
    Int × Bool × World :=
  let (result, w) := CallIntMethod env methodID w
  if result < 0 then (-1, available, w)
  else
    let available := decide (result = 1)
    (0, available, w)

/-- The helper `int32_t JavaAppAudioDevice::Delay(uint16_t& delayMS, jmethodID methodID) const`.
The reference parameter is passed in and handed back. -/
def Delay (env : Env) (delayMS : Nat) (methodID : Method) (w : World) :
    Int × Nat × World :=
  let (result, w) := CallIntMethod env methodID w
  if result < 0 then (-1, delayMS, w)
  else
    let delayMS := toUInt16 (Int.land result 0xFFFF)
    (0, delayMS, w)

/-! ## Audio transport initialization (lines 286-332) -/

/-- The operation `int32_t JavaAppAudioDevice::PlayoutIsAvailable(bool& available)`. -/
def PlayoutIsAvailable (current : Nat) (env : Env) (available : Bool) (w : World) :
    Except Fault (Int × Bool × World) :=
  match RTC_DCHECK_CalledOnValidThread current w with
  | .error f => .error f
  | .ok w => .ok (Available env available .j_playout_is_available_id_ w)

/-- The operation `int32_t JavaAppAudioDevice::InitPlayout()`. -/
def InitPlayout (current : Nat) (env : Env) (w : World) : Except Fault (Int × World) :=
  match RTC_DCHECK_CalledOnValidThread current w with
  | .error f => .error f
  | .ok w =>
    let (result, w) := CallIntMethod env .j_init_playout_id_ w
    .ok (result, w)

/-- The operation `bool JavaAppAudioDevice::PlayoutIsInitialized() const`. -/
def PlayoutIsInitialized (current : Nat) (env : Env) (w : World) :
    Except Fault (Bool × World) :=
  match RTC_DCHECK_CalledOnValidThread current w with
  | .error f => .error f
  | .ok w =>
    let (result, w) := CallBooleanMethod env .j_playout_is_initialized_id_ w
    .ok (result, w)

/-- The operation `int32_t JavaAppAudioDevice::RecordingIsAvailable(bool& available)`. -/
def RecordingIsAvailable (current : Nat) (env : Env) (available : Bool) (w : World) :
    Except Fault (Int × Bool × World) :=
  match RTC_DCHECK_CalledOnValidThread current w with
  | .error f => .error f
  | .ok w => .ok (Available env available .j_recording_is_available_id_ w)

/-- The operation `int32_t JavaAppAudioDevice::InitRecording()`. -/
def InitRecording (current : Nat) (env : Env) (w : World) : Except Fault (Int × World) :=
  match RTC_DCHECK_CalledOnValidThread current w with
  | .error f => .error f
  | .ok w =>
    let (result, w) := CallIntMethod env .j_init_recording_id_ w
    .ok (result, w)

/-- The operation `bool JavaAppAudioDevice::RecordingIsInitialized() const`. -/
def RecordingIsInitialized (current : Nat) (env : Env) (w : World) :
    Except Fault (Bool × World) :=
  match RTC_DCHECK_CalledOnValidThread current w with
  | .error f => .error f
  | .ok w =>
    let (result, w) := CallBooleanMethod env .j_recording_is_initialized_id_ w
    .ok (result, w)

/-! ## Audio transport control (lines 338-390) -/

/-- The operation `int32_t JavaAppAudioDevice::StartPlayout()`. -/
def StartPlayout (current : Nat) (env : Env) (w : World) : Except Fault (Int × World) :=
  match RTC_DCHECK_CalledOnValidThread current w with
  | .error f => .error f
  | .ok w =>
    let (result, w) := CallIntMethod env .j_start_playout_id_ w
    .ok (result, w)

/-- The operation `int32_t JavaAppAudioDevice::StopPlayout()`. -/
def StopPlayout (current : Nat) (env : Env) (w : World) : Except Fault (Int × World) :=
  match RTC_DCHECK_CalledOnValidThread current w with
  | .error f => .error f
  | .ok w =>
    let (result, w) := CallIntMethod env .j_stop_playout_id_ w
    .ok (result, w)

/-- The operation `bool JavaAppAudioDevice::Playing() const`. -/
def Playing (current : Nat) (env : Env) (w : World) : Except Fault (Bool × World) :=
  match RTC_DCHECK_CalledOnValidThread current w with
  | .error f => .error f
  | .ok w =>
    let (result, w) := CallBooleanMethod env .j_playing_id_ w
    .ok (result, w)

/-- The operation `int32_t JavaAppAudioDevice::StartRecording()`. -/
def StartRecording (current : Nat) (env : Env) (w : World) : Except Fault (Int × World) :=
  match RTC_DCHECK_CalledOnValidThread current w with
  | .error f => .error f
  | .ok w =>
    let (result, w) := CallIntMethod env .j_start_recording_id_ w
    .ok (result, w)

/-- The operation `int32_t JavaAppAudioDevice::StopRecording()`. -/
def StopRecording (current : Nat) (env : Env) (w : World) : Except Fault (Int × World) :=
  match RTC_DCHECK_CalledOnValidThread current w with
  | .error f => .error f
  | .ok w =>
    let (result, w) := CallIntMethod env .j_stop_recording_id_ w
    .ok (result, w)

/-- The operation `bool JavaAppAudioDevice::Recording() const`. -/
def Recording (current : Nat) (env : Env) (w : World) : Except Fault (Bool × World) :=
  match RTC_DCHECK_CalledOnValidThread current w with
  | .error f => .error f
  | .ok w =>
    let (result, w) := CallBooleanMethod env .j_recording_id_ w
    .ok (result, w)

/-! ## Stereo support (lines 614-677) -/

/-- The operation `int32_t JavaAppAudioDevice::StereoPlayoutIsAvailable(bool& available)`. -/
def StereoPlayoutIsAvailable (current : Nat) (env : Env) (_available : Bool) (w : World) :
    Except Fault (Int × Bool × World) :=
  match RTC_DCHECK_CalledOnValidThread current w with
  | .error f => .error f
  | .ok w =>
    let (result, w) := CallBooleanMethod env .j_stereo_playout_is_available_id_ w
    let available := result
    .ok (0, available, w)

/-- The operation `int32_t JavaAppAudioDevice::SetStereoPlayout(bool enable)`.
It makes no thread check. -/
def SetStereoPlayout (enable : Bool) (w : World) : Int × World :=
  let w : World :=
    if enable then { w with adapter := { w.adapter with _playChannels := 2 } }
    else { w with adapter := { w.adapter with _playChannels := 1 } }
  (0, w)

/-- The operation `int32_t JavaAppAudioDevice::StereoPlayout(bool& enabled) const`. -/
def StereoPlayout (current : Nat) (_enabled : Bool) (w : World) :
    Except Fault (Int × Bool × World) :=
  match RTC_DCHECK_CalledOnValidThread current w with
  | .error f => .error f
  | .ok w =>
    let enabled := decide (w.adapter._playChannels = 2)
    .ok (0, enabled, w)

/-- The operation `int32_t JavaAppAudioDevice::StereoRecordingIsAvailable(bool& available)`. -/
def StereoRecordingIsAvailable (current : Nat) (env : Env) (_available : Bool) (w : World) :
    Except Fault (Int × Bool × World) :=
  match RTC_DCHECK_CalledOnValidThread current w with
  | .error f => .error f
  | .ok w =>
    let (result, w) := CallBooleanMethod env .j_stereo_recording_is_available_id_ w
    let available := result
    .ok (0, available, w)

/-- The operation `int32_t JavaAppAudioDevice::SetStereoRecording(bool enable)`. -/
def SetStereoRecording (current : Nat) (enable : Bool) (w : World) :
    Except Fault (Int × World) :=
  match RTC_DCHECK_CalledOnValidThread current w with
  | .error f => .error f
  | .ok w =>
    let w : World :=
      if enable then { w with adapter := { w.adapter with _recChannels := 2 } }
      else { w with adapter := { w.adapter with _recChannels := 1 } }
    .ok (0, w)

/-- The operation `int32_t JavaAppAudioDevice::StereoRecording(bool& enabled) const`. -/
def StereoRecording (current : Nat) (_enabled : Bool) (w : World) :
    Except Fault (Int × Bool × World) :=
  match RTC_DCHECK_CalledOnValidThread current w with
  | .error f => .error f
  | .ok w =>
    let enabled := decide (w.adapter._recChannels = 2)
    .ok (0, enabled, w)

/-! ## Delay information (lines 697-703) -/

/-- The operation `int32_t JavaAppAudioDevice::PlayoutDelay(uint16_t& delayMS) const`.
It makes no thread check. -/
def PlayoutDelay (env : Env) (delayMS : Nat) (w : World) : Int × Nat × World :=
  Delay env delayMS .j_playout_delay_id_ w

/-- The operation `int32_t JavaAppAudioDevice::RecordingDelay(uint16_t& delayMS) const`.
It makes no thread check. -/
def RecordingDelay (env : Env) (delayMS : Nat) (w : World) : Int × Nat × World :=
  Delay env delayMS .j_recording_delay_id_ w

/-! ## Playout and recording status (lines 762-788) -/

/-- The operation `bool JavaAppAudioDevice::PlayoutWarning() const`. -/
def PlayoutWarning (env : Env) (w : World) : Bool × World :=
  let (warning, w) := CallBooleanMethod env .j_playout_warning_id_ w
  (warning, w)

/-- The operation `bool JavaAppAudioDevice::PlayoutError() const`. -/
def PlayoutError (env : Env) (w : World) : Bool × World :=
  let (error, w) := CallBooleanMethod env .j_playout_error_id_ w
  (error, w)

/-- The operation `bool JavaAppAudioDevice::RecordingWarning() const`. -/
def RecordingWarning (env : Env) (w : World) : Bool × World :=
  let (warning, w) := CallBooleanMethod env .j_recording_warning_id_ w
  (warning, w)

/-- The operation `bool JavaAppAudioDevice::RecordingError() const`. -/
def RecordingError (env : Env) (w : World) : Bool × World :=
  let (error, w) := CallBooleanMethod env .j_recording_error_id_ w
  (error, w)

/-! ## Audio device buffer (lines 818-831) -/

/-- The operation `void JavaAppAudioDevice::AttachAudioBuffer(AudioDeviceBuffer* audioBuffer)`. -/
def AttachAudioBuffer (audioBuffer : Option Nat) (w : World) : Except Fault World :=
  let w : World := { w with adapter := { w.adapter with audio_device_buffer_ := audioBuffer } }
  match callSink (.SetRecordingSampleRate 0) w with
  | .error f => .error f
  | .ok w =>
  match callSink (.SetPlayoutSampleRate 0) w with
  | .error f => .error f
  | .ok w =>
  match callSink (.SetRecordingChannels 1) w with
  | .error f => .error f
  | .ok w => callSink (.SetPlayoutChannels 1) w

/-! ## Buffer sizing and reallocation (lines 924-959) -/

/-- The helper `void JavaAppAudioDevice::SetupBuffer(samplesPerSec, channels,
dataSize, data, framesPerBuffer, bufferField)`.

The three pointer parameters arrive as the addresses of members, so they are
given by the member they point to. `dataSize` is the one the body assigns to
(`dataSize = 0;` at line 941), so inside the body it is a pointer that may be
null. -/
def SetupBuffer (env : Env) (samplesPerSec : Nat) (channels : Int)
    (dataSize : SizeField) (data : DataField) (framesPerBuffer : FramesField)
    (bufferField : BufferField) (w : World) : Except Fault World :=
  -- int bytesPerFrame = channels * (BITS_PER_SAMPLE / 8);
  let bytesPerFrame : Int := channels * (BITS_PER_SAMPLE / 8)
  -- *framesPerBuffer = samplesPerSec / BUFFERS_PER_SECOND;
  let w : World :=
    { w with adapter :=
        w.adapter.storeFrames framesPerBuffer (samplesPerSec / toUInt32 BUFFERS_PER_SECOND) }
  -- int bufferSize = bytesPerFrame * *framesPerBuffer;
  let bufferSize : Int :=
    toInt32 (toUInt32 bytesPerFrame * w.adapter.loadFrames framesPerBuffer)
  -- if (*dataSize != bufferSize)
  if w.adapter.loadSize dataSize ≠ toSizeT bufferSize then
    -- if (*data != NULL) { delete *data; dataSize = 0; }
    let (dataSize, w) : Option SizeField × World :=
      match w.adapter.loadData data with
      | some p => (none, delete p w)
      | none => (some dataSize, w)
    -- *data = new uint8_t[bufferSize];
    match newArray env (toSizeT bufferSize) w with
    | .error f => .error f
    | .ok (p, w) =>
    let w : World := { w with adapter := w.adapter.storeData data p }
    -- if (*data == NULL) { ...; return; }   (`new` has returned, so `p` is a block)
    match p with
    | none => .ok w
    | some p =>
      -- *dataSize = (size_t) bufferSize;
      match dataSize with
      | none => .error .nullDereference
      | some dataSize =>
        let w : World :=
          { w with adapter := w.adapter.storeSize dataSize (toSizeT bufferSize) }
        -- NewDirectByteBuffer(*data, bufferSize); SetObjectField(...)
        .ok (SetObjectField bufferField p bufferSize w)
  else .ok w

/-! ## Native sample rate controls (lines 728-756) -/

/-- The operation `int32_t JavaAppAudioDevice::SetRecordingSampleRate(const uint32_t samplesPerSec)`. -/
def SetRecordingSampleRate (current : Nat) (env : Env) (samplesPerSec : Nat) (w : World) :
    Except Fault (Int × World) :=
  match RTC_DCHECK_CalledOnValidThread current w with
  | .error f => .error f
  | .ok w =>
  match callSink (.SetRecordingSampleRate samplesPerSec) w with
  | .error f => .error f
  | .ok w =>
  match SetupBuffer env samplesPerSec w.adapter._recChannels
      .recording_data_size_ .recording_data_ .rec_frames_per_buffer_
      .j_recording_buffer_id_ w with
  | .error f => .error f
  | .ok w => .ok (0, w)

/-- The operation `int32_t JavaAppAudioDevice::SetPlayoutSampleRate(const uint32_t samplesPerSec)`. -/
def SetPlayoutSampleRate (current : Nat) (env : Env) (samplesPerSec : Nat) (w : World) :
    Except Fault (Int × World) :=
  match RTC_DCHECK_CalledOnValidThread current w with
  | .error f => .error f
  | .ok w =>
  match callSink (.SetPlayoutSampleRate samplesPerSec) w with
  | .error f => .error f
  | .ok w =>
  match SetupBuffer env samplesPerSec w.adapter._playChannels
      .playout_data_size_ .playout_data_ .play_frames_per_buffer_
      .j_playout_buffer_id_ w with
  | .error f => .error f
  | .ok w => .ok (0, w)

/-! ## Reading a trace -/

/-- The number of `new uint8_t[...]` expressions evaluated in a trace. -/
def allocations (trace : List Event) : Nat :=
  (trace.filter (fun e => match e with | .newArray _ _ => true | _ => false)).length

/-- The device methods called in a trace, in order. -/
def deviceCalls : List Event → List Method
  | [] => []
  | .deviceCall m :: es => m :: deviceCalls es
  | _ :: es => deviceCalls es

/-! ## Vocabulary of the statements -/

/-- The world once a checked call made from thread `current` has passed its
`RTC_DCHECK`: the guard is bound to `current`. -/
def World.boundTo (w : World) (current : Nat) : World :=
  { w with adapter := { w.adapter with thread_checker_ := { valid_thread_ := some current } } }

/-- The world after one call of the device method `methodID`, and nothing else. -/
def World.called (w : World) (methodID : Method) : World :=
  { w with trace := w.trace ++ [.deviceCall methodID] }

/-- Modelled from the spec: `AudioDeviceModuleImpl::AttachAudioBuffer()`,
which `JavaAppAudioDeviceModule::Create` calls at line 974, is not among the
sources. Section 6: `attach(bufferSink)` registers the sink before any other
use. This is the adapter as `Create` hands it out (lines 965-984 and
1002-1003): constructed, then attached to the module's audio buffer, the
object at `sink`. -/
def World.created (creator : Nat) (id : Int) (junk : Indeterminate) (sink : Nat) :
    Except Fault World :=
  AttachAudioBuffer (some sink) (World.constructed creator id junk)

/-- An allocator that never fails: block `n` bytes long at `base + n`. -/
def Env.plentiful (base : Nat) (status : Int) (flag : Bool) : Env :=
  { CallIntMethod := fun _ => status,
    CallBooleanMethod := fun _ => flag,
    newArray := fun n => some (base + n) }

/-- An allocator that always fails. -/
def Env.exhausted (status : Int) (flag : Bool) : Env :=
  { CallIntMethod := fun _ => status,
    CallBooleanMethod := fun _ => flag,
    newArray := fun _ => none }

/-- The world of the spec's scenario after its first step: the adapter created
with its audio buffer at address 7, then `SetRecordingSampleRate(16000)` called
from thread 1 in mono, the allocator answering `Env.plentiful 1000`. It holds
a 320-byte recording buffer at address 1320. -/
def World.recording16kMono : World :=
  { adapter :=
      { thread_checker_ := { valid_thread_ := some 1 },
        _id := 0,
        _AGC := false,
        _recChannels := 1,
        _playChannels := 1,
        recording_data_ := some 1320,
        playout_data_ := none,
        recording_data_size_ := 320,
        playout_data_size_ := 0,
        rec_frames_per_buffer_ := 160,
        play_frames_per_buffer_ := 0,
        audio_device_buffer_ := some 7 },
    heap := [{ addr := 1320, size := 320, contents := none }],
    recordingBuffer := some (1320, 320),
    playoutBuffer := none,
    trace :=
      [.sinkCall 7 (.SetRecordingSampleRate 0),
       .sinkCall 7 (.SetPlayoutSampleRate 0),
       .sinkCall 7 (.SetRecordingChannels 1),
       .sinkCall 7 (.SetPlayoutChannels 1),
       .sinkCall 7 (.SetRecordingSampleRate 16000),
       .newArray 320 (some 1320),
       .setObjectField .j_recording_buffer_id_ 1320 320] }

/-! ## Microphone automatic gain control (lines 399-408) -/

/-- The operation `int32_t JavaAppAudioDevice::SetAGC(bool enable)`. The lock
on `_critSect` has no effect on a single caller. -/
def SetAGC (enable : Bool) (w : World) : Int × World :=
  (0, { w with adapter := { w.adapter with _AGC := enable } })

/-- The operation `bool JavaAppAudioDevice::AGC() const`. -/
def AGC (w : World) : Bool × World :=
  (w.adapter._AGC, w)

/-! ## Operations that are not supported (lines 235-280, 414-536, 683-713) -/

/-- The operation `int32_t JavaAppAudioDevice::PlayoutDeviceName(index, name, guid)`. -/
def PlayoutDeviceName (_index : Nat) (_name _guid : List Nat) (w : World) : Int × World :=
  (-1, w)

/-- The operation `int32_t JavaAppAudioDevice::RecordingDeviceName(index, name, guid)`. -/
def RecordingDeviceName (_index : Nat) (_name _guid : List Nat) (w : World) : Int × World :=
  (-1, w)

/-- The overload `int32_t JavaAppAudioDevice::SetPlayoutDevice(AudioDeviceModule::WindowsDeviceType)`.
The enumeration is not among the sources and its value is not used, so it is
a parameter. -/
def SetPlayoutDevice_WindowsDeviceType {WindowsDeviceType : Type}
    (_device : WindowsDeviceType) (w : World) : Int × World :=
  (-1, w)

/-- The overload `int32_t JavaAppAudioDevice::SetRecordingDevice(AudioDeviceModule::WindowsDeviceType)`.
The enumeration is not among the sources and its value is not used, so it is
a parameter. -/
def SetRecordingDevice_WindowsDeviceType {WindowsDeviceType : Type}
    (_device : WindowsDeviceType) (w : World) : Int × World :=
  (-1, w)

/-- The operation `int32_t JavaAppAudioDevice::SetWaveOutVolume(volumeLeft, volumeRight)`. -/
def SetWaveOutVolume (_volumeLeft _volumeRight : Nat) (w : World) : Int × World :=
  (-1, w)

/-- The operation `int32_t JavaAppAudioDevice::WaveOutVolume(uint16_t&, uint16_t&) const`.
The reference parameters are passed in and handed back. -/
def WaveOutVolume (volumeLeft volumeRight : Nat) (w : World) : Int × Nat × Nat × World :=
  (-1, volumeLeft, volumeRight, w)

/-- The operation `int32_t JavaAppAudioDevice::SetSpeakerVolume(uint32_t)`. -/
def SetSpeakerVolume (_volume : Nat) (w : World) : Int × World :=
  (-1, w)

/-- The operation `int32_t JavaAppAudioDevice::SpeakerVolume(uint32_t& volume) const`. -/
def SpeakerVolume (volume : Nat) (w : World) : Int × Nat × World :=
  (-1, volume, w)

/-- The operation `int32_t JavaAppAudioDevice::MaxSpeakerVolume(uint32_t& maxVolume) const`. -/
def MaxSpeakerVolume (maxVolume : Nat) (w : World) : Int × Nat × World :=
  (-1, maxVolume, w)

/-- The operation `int32_t JavaAppAudioDevice::MinSpeakerVolume(uint32_t& minVolume) const`. -/
def MinSpeakerVolume (minVolume : Nat) (w : World) : Int × Nat × World :=
  (-1, minVolume, w)

/-- The operation `int32_t JavaAppAudioDevice::SpeakerVolumeStepSize(uint16_t& stepSize) const`. -/
def SpeakerVolumeStepSize (stepSize : Nat) (w : World) : Int × Nat × World :=
  (-1, stepSize, w)

/-- The operation `int32_t JavaAppAudioDevice::SetMicrophoneVolume(uint32_t)`. -/
def SetMicrophoneVolume (_volume : Nat) (w : World) : Int × World :=
  (-1, w)

/-- The operation `int32_t JavaAppAudioDevice::MicrophoneVolume(uint32_t& volume) const`. -/
def MicrophoneVolume (volume : Nat) (w : World) : Int × Nat × World :=
  (-1, volume, w)

/-- The operation `int32_t JavaAppAudioDevice::MaxMicrophoneVolume(uint32_t& maxVolume) const`. -/
def MaxMicrophoneVolume (maxVolume : Nat) (w : World) : Int × Nat × World :=
  (-1, maxVolume, w)

/-- The operation `int32_t JavaAppAudioDevice::MinMicrophoneVolume(uint32_t& minVolume) const`. -/
def MinMicrophoneVolume (minVolume : Nat) (w : World) : Int × Nat × World :=
  (-1, minVolume, w)

/-- The operation `int32_t JavaAppAudioDevice::MicrophoneVolumeStepSize(uint16_t& stepSize) const`. -/
def MicrophoneVolumeStepSize (stepSize : Nat) (w : World) : Int × Nat × World :=
  (-1, stepSize, w)

/-- The operation `int32_t JavaAppAudioDevice::SetPlayoutBuffer(type, sizeMS)`.
The enumeration `AudioDeviceModule::BufferType` is not among the sources and
its value is not used, so it is a parameter. -/
def SetPlayoutBuffer {BufferType : Type} (_type : BufferType) (_sizeMS : Nat) (w : World) :
    Int × World :=
  (-1, w)

/-- The operation `int32_t JavaAppAudioDevice::PlayoutBuffer(type, sizeMS) const`.
The reference parameters are passed in and handed back. -/
def PlayoutBuffer {BufferType : Type} (type : BufferType) (sizeMS : Nat) (w : World) :
    Int × BufferType × Nat × World :=
  (-1, type, sizeMS, w)

/-- The operation `int32_t JavaAppAudioDevice::CPULoad(uint16_t& load) const`. -/
def CPULoad (load : Nat) (w : World) : Int × Nat × World :=
  (-1, load, w)

/-! ## Mute and boost setters (lines 548-554, 572-578, 596-602) -/

/-- The operation `int32_t JavaAppAudioDevice::SetSpeakerMute(bool enable)`. -/
def SetSpeakerMute (enable : Bool) (w : World) : Int × World :=
  if !enable then (0, w)
  else (-1, w)

/-- The operation `int32_t JavaAppAudioDevice::SetMicrophoneMute(bool enable)`. -/
def SetMicrophoneMute (enable : Bool) (w : World) : Int × World :=
  if !enable then (0, w)
  else (-1, w)

/-- The operation `int32_t JavaAppAudioDevice::SetMicrophoneBoost(bool enable)`. -/
def SetMicrophoneBoost (enable : Bool) (w : World) : Int × World :=
  if !enable then (0, w)
  else (-1, w)

/-! ## Clearing the status flags (lines 790-812) -/

/-- The operation `void JavaAppAudioDevice::ClearPlayoutWarning()`. -/
def ClearPlayoutWarning (w : World) : World :=
  CallVoidMethod .j_clear_playout_warning_id_ w

/-- The operation `void JavaAppAudioDevice::ClearPlayoutError()`. -/
def ClearPlayoutError (w : World) : World :=
  CallVoidMethod .j_clear_playout_error_id_ w

/-- The operation `void JavaAppAudioDevice::ClearRecordingWarning()`. -/
def ClearRecordingWarning (w : World) : World :=
  CallVoidMethod .j_clear_recording_warning_id_ w

/-- The operation `void JavaAppAudioDevice::ClearRecordingError()`. -/
def ClearRecordingError (w : World) : World :=
  CallVoidMethod .j_clear_recording_error_id_ w

/-! ## The real-time data path (lines 839-894) -/

/-- Modelled from the spec: `webrtc::AudioDeviceBuffer` is not among the
sources. Section 6: `sink.deliverRecordedData() -> status`,
`sink.requestPlayoutData(frameCount) -> sampleCount` and
`sink.getPlayoutData(bytes) -> sampleCount`. These are the answers of the
sink during one operation; `GetPlayoutData` also gives the bytes the sink
copies to the address it is handed. -/
structure SinkEnv where
  DeliverRecordedData : Int
  RequestPlayoutData : Nat → Int
  GetPlayoutData : Int × List Nat

/-- Modelled from the spec: the copy inside `AudioDeviceBuffer::GetPlayoutData`
is not among the sources. Section 4.1: the delivered samples are copied into
the Sample Buffer memory. The block at `p` takes `bytes` as its contents; a
copy of at least one byte to NULL is a fault. -/
def copyToBuffer (p : Option Nat) (bytes : List Nat) (w : World) : Except Fault World :=
  match p with
  | none => if bytes = [] then .ok w else .error .nullDereference
  | some a =>
    .ok { w with
          heap := List.map
            (fun b => if b.addr = a then { b with contents := some bytes } else b) w.heap }

/-- The operation `void JavaAppAudioDevice::DataIsRecorded()`. It makes no
thread check. -/
def DataIsRecorded (env : Env) (sinkEnv : SinkEnv) (w : World) : Except Fault World :=
  -- if (!audio_device_buffer_) return;
  match w.adapter.audio_device_buffer_ with
  | none => .ok w
  | some _ =>
  -- audio_device_buffer_->SetRecordedBuffer(recording_data_, rec_frames_per_buffer_);
  match callSink (.SetRecordedBuffer w.adapter.recording_data_
      w.adapter.rec_frames_per_buffer_) w with
  | .error f => .error f
  | .ok w =>
  -- uint16_t playDelay(0); if (PlayoutDelay(playDelay) == -1) return;
  let playDelay : Nat := 0
  let (status, playDelay, w) := PlayoutDelay env playDelay w
  if status = -1 then .ok w
  else
  -- uint16_t recDelay(0); if (RecordingDelay(recDelay) == -1) return;
  let recDelay : Nat := 0
  let (status, recDelay, w) := RecordingDelay env recDelay w
  if status = -1 then .ok w
  else
  -- audio_device_buffer_->SetVQEData(playDelay, recDelay, 0);
  match callSink (.SetVQEData playDelay recDelay 0) w with
  | .error f => .error f
  | .ok w =>
  -- if (audio_device_buffer_->DeliverRecordedData() == -1) { trace }
  match callSink .DeliverRecordedData w with
  | .error f => .error f
  | .ok w =>
    if sinkEnv.DeliverRecordedData = -1 then .ok w
    else .ok w

/-- The operation `void JavaAppAudioDevice::GetPlayoutData()`. It makes no
thread check. -/
def GetPlayoutData (sinkEnv : SinkEnv) (w : World) : Except Fault World :=
  -- if (!audio_device_buffer_) return;
  match w.adapter.audio_device_buffer_ with
  | none => .ok w
  | some _ =>
  -- int samples = audio_device_buffer_->RequestPlayoutData(play_frames_per_buffer_);
  match callSink (.RequestPlayoutData w.adapter.play_frames_per_buffer_) w with
  | .error f => .error f
  | .ok w =>
  let samples : Int := sinkEnv.RequestPlayoutData w.adapter.play_frames_per_buffer_
  -- if (samples <= 0) return;
  if samples ≤ 0 then .ok w
  else
  -- RTC_DCHECK_EQ(static_cast<size_t>(samples), play_frames_per_buffer_);
  if toSizeT samples ≠ w.adapter.play_frames_per_buffer_ then .error .countMismatch
  else
  -- samples = audio_device_buffer_->GetPlayoutData(playout_data_);
  match callSink (.GetPlayoutData w.adapter.playout_data_) w with
  | .error f => .error f
  | .ok w =>
  match copyToBuffer w.adapter.playout_data_ sinkEnv.GetPlayoutData.2 w with
  | .error f => .error f
  | .ok w =>
  let samples : Int := sinkEnv.GetPlayoutData.1
  -- RTC_DCHECK_EQ(static_cast<size_t>(samples), play_frames_per_buffer_);
  if toSizeT samples ≠ w.adapter.play_frames_per_buffer_ then .error .countMismatch
  else .ok w

/-! ## More vocabulary of the statements -/

/-- The sink calls made in a trace, in order. -/
def sinkCalls : List Event → List SinkCall
  | [] => []
  | .sinkCall _ c :: es => c :: sinkCalls es
  | _ :: es => sinkCalls es

/-- The contents of the heap block at `p`, when there is one. -/
def World.contentsAt (w : World) (p : Nat) : Option (Option (List Nat)) :=
  (w.heap.find? (fun b => b.addr = p)).map (fun b => b.contents)

/-- A sink whose delivery succeeds, that offers `offered` samples and copies
`copied` samples, the bytes `bytes`. -/
def SinkEnv.offering (offered copied : Int) (bytes : List Nat) : SinkEnv :=
  { DeliverRecordedData := 0,
    RequestPlayoutData := fun _ => offered,
    GetPlayoutData := (copied, bytes) }

/-- The world of the spec's scenario with both directions configured: from
`World.recording16kMono`, `SetPlayoutSampleRate(16000)` called from thread 1
in mono, the allocator answering `Env.plentiful 2000`. It also holds a
320-byte playout buffer at address 2320. -/
def World.duplex16kMono : World :=
  { adapter :=
      { thread_checker_ := { valid_thread_ := some 1 },
        _id := 0,
        _AGC := false,
        _recChannels := 1,
        _playChannels := 1,
        recording_data_ := some 1320,
        playout_data_ := some 2320,
        recording_data_size_ := 320,
        playout_data_size_ := 320,
        rec_frames_per_buffer_ := 160,
        play_frames_per_buffer_ := 160,
        audio_device_buffer_ := some 7 },
    heap := [{ addr := 1320, size := 320, contents := none },
             { addr := 2320, size := 320, contents := none }],
    recordingBuffer := some (1320, 320),
    playoutBuffer := some (2320, 320),
    trace :=
      [.sinkCall 7 (.SetRecordingSampleRate 0),
       .sinkCall 7 (.SetPlayoutSampleRate 0),
       .sinkCall 7 (.SetRecordingChannels 1),
       .sinkCall 7 (.SetPlayoutChannels 1),
       .sinkCall 7 (.SetRecordingSampleRate 16000),
       .newArray 320 (some 1320),
       .setObjectField .j_recording_buffer_id_ 1320 320,
       .sinkCall 7 (.SetPlayoutSampleRate 16000),
       .newArray 320 (some 2320),
       .setObjectField .j_playout_buffer_id_ 2320 320] }

/-! ## Destruction (lines 151-172) -/

/-- The destructor `JavaAppAudioDevice::~JavaAppAudioDevice()`, run on thread
`current`: detach the guard, `Terminate()`, release both buffers. -/
def destructor (current : Nat) (env : Env) (w : World) : Except Fault World :=
  -- thread_checker_.DetachFromThread();
  let w : World :=
    { w with adapter :=
        { w.adapter with thread_checker_ := w.adapter.thread_checker_.DetachFromThread } }
  -- Terminate();
  match Terminate current env w with
  | .error f => .error f
  | .ok (_, w) =>
    -- if (playout_data_) { delete [] playout_data_; playout_data_ = NULL; }
    let w : World :=
      match w.adapter.playout_data_ with
      | some p =>
        let w := delete p w
        { w with adapter := { w.adapter with playout_data_ := none } }
      | none => w
    -- if (recording_data_) { delete [] recording_data_; recording_data_ = NULL; }
    let w : World :=
      match w.adapter.recording_data_ with
      | some p =>
        let w := delete p w
        { w with adapter := { w.adapter with recording_data_ := none } }
      | none => w
    .ok w

/-! ## The reference-counted module and the JNI exports (lines 965-1031) -/

/-- Modelled from the spec: `webrtc::RefCountImpl`
(webrtc/system_wrappers/include/ref_count.h) is not among the sources.
Sections 3 and 4.4: a count incremented by every retaining owner and
decremented on release; the module is destroyed when the count reaches zero.
`destroyed` counts how often the destructive path has run. -/
structure RefCountImpl where
  ref_count_ : Int
  destroyed : Nat
  deriving DecidableEq, Repr

/-- Modelled from the spec: `RefCountImpl::AddRef` is not among the sources.
Section 4.4: `AddRef` increments; it returns the new count. -/
def RefCountImpl.AddRef (m : RefCountImpl) : Int × RefCountImpl :=
  (m.ref_count_ + 1, { m with ref_count_ := m.ref_count_ + 1 })

/-- Modelled from the spec: `RefCountImpl::Release` is not among the sources.
Section 4.4: `Release` decrements and returns the post-decrement count;
section 3: the module is destroyed when the count reaches zero. -/
def RefCountImpl.Release (m : RefCountImpl) : Int × RefCountImpl :=
  let count := m.ref_count_ - 1
  if count = 0 then (count, { ref_count_ := count, destroyed := m.destroyed + 1 })
  else (count, { m with ref_count_ := count })

/-- The statement `delete module`: the destructive path, run directly. -/
def RefCountImpl.delete (m : RefCountImpl) : RefCountImpl :=
  { m with destroyed := m.destroyed + 1 }

/-- The factory `JavaAppAudioDeviceModule::Create(id, device)`, as far as the
count goes: a new module that nobody retains yet, or NULL when the attach
step reports -1 (`attachStatus` is what `AudioDeviceModuleImpl::AttachAudioBuffer()`,
which is not among the sources, returns). -/
def JavaAppAudioDeviceModule_Create (attachStatus : Int) : Option RefCountImpl :=
  let audioDevice : RefCountImpl := { ref_count_ := 0, destroyed := 0 }
  if attachStatus = -1 then none
  else some audioDevice

/-- Modelled from the spec: `rtc::scoped_refptr` (webrtc/base/scoped_ref_ptr.h)
is not among the sources. Section 3: the count is incremented by every
retaining owner; the smart pointer built from the raw pointer is the creator's
retaining owner. -/
def scoped_refptr (m : RefCountImpl) : RefCountImpl :=
  (m.AddRef).2

/-- The export `AppAudioDeviceModule_nativeWrapAppAudioDeviceModule`, as far
as the count goes. `module.release()` gives the raw pointer to Java and keeps
the creator's reference. -/
def nativeWrapAppAudioDeviceModule (attachStatus : Int) : Except Fault RefCountImpl :=
  match JavaAppAudioDeviceModule_Create attachStatus with
  | none => .error .nullDereference
  | some m =>
    let module := scoped_refptr m
    -- module->AddRef();
    let (_, module) := module.AddRef
    -- int32_t count = module->Release();
    let (_, module) := module.Release
    -- return (jlong) module.release();
    .ok module

/-- The message of the `java/lang/RuntimeException` that
`freeWrappedAppAudioDeviceModule` throws (lines 1021-1023). -/
def activeReferencesMessage : String :=
  "This AppAudioDeviceModule has active references to it and cannot be safely " ++
  "deleted. This is most probably because a PeerConnectionFactory is holding " ++
  "a reference to it. The factory must be disposed before disposing the ADM."

/-- The export `AppAudioDeviceModule_freeWrappedAppAudioDeviceModule`: the
Java exception it leaves pending, if any, and the module afterwards. -/
def freeWrappedAppAudioDeviceModule (module : RefCountImpl) : Option String × RefCountImpl :=
  -- module->AddRef();
  let (_, module) := module.AddRef
  -- if (module->Release() > 1) { jni->ThrowNew(...); return; }
  let (count, module) := module.Release
  if count > 1 then (some activeReferencesMessage, module)
  else
    -- delete module;
    (none, module.delete)

/-- The module after `n` more calls of `AddRef`. -/
def RefCountImpl.addRefs : Nat → RefCountImpl → RefCountImpl
  | 0, m => m
  | n + 1, m => RefCountImpl.addRefs n (m.AddRef).2

/-- The module after `n` more calls of `Release`. -/
def RefCountImpl.releases : Nat → RefCountImpl → RefCountImpl
  | 0, m => m
  | n + 1, m => RefCountImpl.releases n (m.Release).2

/-! ## Sequences of calls on the adapter -/

/-- The operations of the adapter that can change the world (the guard, a
member, the heap, a Java field or the trace), with their arguments. The
operations left out hand the world back as it is: the unsupported stubs, the
mute and boost setters, `AGC`, and the fixed answers of the mixer and device
enumeration. -/
inductive Call
  | Init
  | Terminate
  | Initialized
  | PlayoutIsAvailable (available : Bool)
  | InitPlayout
  | PlayoutIsInitialized
  | RecordingIsAvailable (available : Bool)
  | InitRecording
  | RecordingIsInitialized
  | StartPlayout
  | StopPlayout
  | Playing
  | StartRecording
  | StopRecording
  | Recording
  | SetAGC (enable : Bool)
  | StereoPlayoutIsAvailable (available : Bool)
  | SetStereoPlayout (enable : Bool)
  | StereoPlayout (enabled : Bool)
  | StereoRecordingIsAvailable (available : Bool)
  | SetStereoRecording (enable : Bool)
  | StereoRecording (enabled : Bool)
  | PlayoutDelay (delayMS : Nat)
  | RecordingDelay (delayMS : Nat)
  | SetRecordingSampleRate (samplesPerSec : Nat)
  | SetPlayoutSampleRate (samplesPerSec : Nat)
  | PlayoutWarning
  | PlayoutError
  | RecordingWarning
  | RecordingError
  | ClearPlayoutWarning
  | ClearPlayoutError
  | ClearRecordingWarning
  | ClearRecordingError
  | AttachAudioBuffer (audioBuffer : Option Nat)
  | DataIsRecorded
  | GetPlayoutData
  deriving DecidableEq, Repr

/-- The world after a call made from thread `current`, the surroundings
answering `env` and `sinkEnv`. -/
def Call.run (current : Nat) (env : Env) (sinkEnv : SinkEnv) :
    Call → World → Except Fault World
  | .Init, w => (webrtc_jni.Init current env w).map (·.2)
  | .Terminate, w => (webrtc_jni.Terminate current env w).map (·.2)
  | .Initialized, w => (webrtc_jni.Initialized current env w).map (·.2)
  | .PlayoutIsAvailable a, w => (webrtc_jni.PlayoutIsAvailable current env a w).map (·.2.2)
  | .InitPlayout, w => (webrtc_jni.InitPlayout current env w).map (·.2)
  | .PlayoutIsInitialized, w => (webrtc_jni.PlayoutIsInitialized current env w).map (·.2)
  | .RecordingIsAvailable a, w =>
    (webrtc_jni.RecordingIsAvailable current env a w).map (·.2.2)
  | .InitRecording, w => (webrtc_jni.InitRecording current env w).map (·.2)
  | .RecordingIsInitialized, w => (webrtc_jni.RecordingIsInitialized current env w).map (·.2)
  | .StartPlayout, w => (webrtc_jni.StartPlayout current env w).map (·.2)
  | .StopPlayout, w => (webrtc_jni.StopPlayout current env w).map (·.2)
  | .Playing, w => (webrtc_jni.Playing current env w).map (·.2)
  | .StartRecording, w => (webrtc_jni.StartRecording current env w).map (·.2)
  | .StopRecording, w => (webrtc_jni.StopRecording current env w).map (·.2)
  | .Recording, w => (webrtc_jni.Recording current env w).map (·.2)
  | .SetAGC e, w => .ok (webrtc_jni.SetAGC e w).2
  | .StereoPlayoutIsAvailable a, w =>
    (webrtc_jni.StereoPlayoutIsAvailable current env a w).map (·.2.2)
  | .SetStereoPlayout e, w => .ok (webrtc_jni.SetStereoPlayout e w).2
  | .StereoPlayout e, w => (webrtc_jni.StereoPlayout current e w).map (·.2.2)
  | .StereoRecordingIsAvailable a, w =>
    (webrtc_jni.StereoRecordingIsAvailable current env a w).map (·.2.2)
  | .SetStereoRecording e, w => (webrtc_jni.SetStereoRecording current e w).map (·.2)
  | .StereoRecording e, w => (webrtc_jni.StereoRecording current e w).map (·.2.2)
  | .PlayoutDelay d, w => .ok (webrtc_jni.PlayoutDelay env d w).2.2
  | .RecordingDelay d, w => .ok (webrtc_jni.RecordingDelay env d w).2.2
  | .SetRecordingSampleRate r, w => (webrtc_jni.SetRecordingSampleRate current env r w).map (·.2)
  | .SetPlayoutSampleRate r, w => (webrtc_jni.SetPlayoutSampleRate current env r w).map (·.2)
  | .PlayoutWarning, w => .ok (webrtc_jni.PlayoutWarning env w).2
  | .PlayoutError, w => .ok (webrtc_jni.PlayoutError env w).2
  | .RecordingWarning, w => .ok (webrtc_jni.RecordingWarning env w).2
  | .RecordingError, w => .ok (webrtc_jni.RecordingError env w).2
  | .ClearPlayoutWarning, w => .ok (webrtc_jni.ClearPlayoutWarning w)
  | .ClearPlayoutError, w => .ok (webrtc_jni.ClearPlayoutError w)
  | .ClearRecordingWarning, w => .ok (webrtc_jni.ClearRecordingWarning w)
  | .ClearRecordingError, w => .ok (webrtc_jni.ClearRecordingError w)
  | .AttachAudioBuffer b, w => webrtc_jni.AttachAudioBuffer b w
  | .DataIsRecorded, w => webrtc_jni.DataIsRecorded env sinkEnv w
  | .GetPlayoutData, w => webrtc_jni.GetPlayoutData sinkEnv w

/-- One call of a sequence: the operation, the calling thread and what the
surroundings answer during it. -/
structure Invocation where
  call : Call
  current : Nat
  env : Env
  sinkEnv : SinkEnv

/-- The world after a sequence of calls, each of which has to complete. -/
def runCalls : List Invocation → World → Except Fault World
  | [], w => .ok w
  | i :: is, w =>
    match i.call.run i.current i.env i.sinkEnv w with
    | .error f => .error f
    | .ok w => runCalls is w

/-- The world with the guard replaced by `guard`. -/
def World.withGuard (w : World) (guard : ThreadChecker) : World :=
  { w with adapter := { w.adapter with thread_checker_ := guard } }

/-! ## Arithmetic of the sizing formula -/

theorem toUInt32_BUFFERS_PER_SECOND : toUInt32 BUFFERS_PER_SECOND = 100 := by
  decide

theorem bytesPerFrame_exact (c : Nat) (hc : c = 1 ∨ c = 2) :
    toUInt32 ((c : Int) * (BITS_PER_SAMPLE / 8)) = c * 2 := by
  rcases hc with rfl | rfl <;> decide

theorem toInt32_of_lt (n : Nat) (h : n < 2 ^ 31) : toInt32 n = (n : Int) := by
  have h1 : n % 2 ^ 32 = n := Nat.mod_eq_of_lt (by omega)
  unfold toInt32
  rw [h1, if_pos h]

theorem toSizeT_natCast (n : Nat) (h : n < 2 ^ 64) : toSizeT (n : Int) = n := by
  unfold toSizeT
  have h2 : ((n : Int) % 2 ^ 64) = (n : Int) := Int.emod_eq_of_lt (by omega) (by exact_mod_cast h)
  rw [h2]
  simp

/-- For a 32-bit rate and one or two channels the `int bufferSize` of
`SetupBuffer` is the exact product. -/
theorem bufferSize_exact (r c : Nat) (hr : r < 2 ^ 32) (hc : c = 1 ∨ c = 2) :
    toInt32 (toUInt32 ((c : Int) * (BITS_PER_SAMPLE / 8)) * (r / 100 % 2 ^ 32)) =
      ((r / 100 * c * 2 : Nat) : Int) := by
  rw [bytesPerFrame_exact c hc]
  have h1 : r / 100 % 2 ^ 32 = r / 100 := Nat.mod_eq_of_lt (by omega)
  rw [h1]
  have h2 : c * 2 * (r / 100) = r / 100 * c * 2 := by ring
  rw [h2]
  apply toInt32_of_lt
  rcases hc with rfl | rfl <;> omega

theorem byteSize_lt (r c : Nat) (hr : r < 2 ^ 32) (hc : c = 1 ∨ c = 2) :
    r / 100 * c * 2 < 2 ^ 64 := by
  rcases hc with rfl | rfl <;> omega

/-! ## Reading and writing members through the pointer parameters -/

@[simp] theorem loadFrames_storeFrames (a : JavaAppAudioDevice) (f : FramesField) (v : Nat) :
    (a.storeFrames f v).loadFrames f = v % 2 ^ 32 := by
  cases f <;> rfl

@[simp] theorem loadSize_storeFrames (a : JavaAppAudioDevice) (f : FramesField) (v : Nat)
    (g : SizeField) : (a.storeFrames f v).loadSize g = a.loadSize g := by
  cases f <;> cases g <;> rfl

@[simp] theorem loadData_storeFrames (a : JavaAppAudioDevice) (f : FramesField) (v : Nat)
    (g : DataField) : (a.storeFrames f v).loadData g = a.loadData g := by
  cases f <;> cases g <;> rfl

@[simp] theorem loadData_storeData (a : JavaAppAudioDevice) (f : DataField) (p : Option Nat) :
    (a.storeData f p).loadData f = p := by
  cases f <;> rfl

@[simp] theorem loadSize_storeData (a : JavaAppAudioDevice) (f : DataField) (p : Option Nat)
    (g : SizeField) : (a.storeData f p).loadSize g = a.loadSize g := by
  cases f <;> cases g <;> rfl

@[simp] theorem loadFrames_storeData (a : JavaAppAudioDevice) (f : DataField) (p : Option Nat)
    (g : FramesField) : (a.storeData f p).loadFrames g = a.loadFrames g := by
  cases f <;> cases g <;> rfl

@[simp] theorem loadSize_storeSize (a : JavaAppAudioDevice) (f : SizeField) (v : Nat) :
    (a.storeSize f v).loadSize f = v := by
  cases f <;> rfl

@[simp] theorem loadData_storeSize (a : JavaAppAudioDevice) (f : SizeField) (v : Nat)
    (g : DataField) : (a.storeSize f v).loadData g = a.loadData g := by
  cases f <;> cases g <;> rfl

@[simp] theorem loadFrames_storeSize (a : JavaAppAudioDevice) (f : SizeField) (v : Nat)
    (g : FramesField) : (a.storeSize f v).loadFrames g = a.loadFrames g := by
  cases f <;> cases g <;> rfl

/-! ## The body of `SetupBuffer` in exact arithmetic -/

/-- The body of `SetupBuffer` for a 32-bit rate and one or two channels, with
the byte size written as the exact product `r / 100 * c * 2`. -/
theorem SetupBuffer_eq (env : Env) (r c : Nat) (dataSize : SizeField) (data : DataField)
    (framesPerBuffer : FramesField) (bufferField : BufferField) (w : World)
    (hr : r < 2 ^ 32) (hc : c = 1 ∨ c = 2) :
    SetupBuffer env r c dataSize data framesPerBuffer bufferField w =
      (let w1 : World := { w with adapter := w.adapter.storeFrames framesPerBuffer (r / 100) }
       if w.adapter.loadSize dataSize ≠ r / 100 * c * 2 then
         match w.adapter.loadData data, env.newArray (r / 100 * c * 2) with
         | none, none =>
           .error (.badAlloc
             { w1 with trace := w.trace ++ [.newArray (r / 100 * c * 2) none] })
         | some q, none =>
           .error (.badAlloc
             { w1 with heap := w.heap.filter (fun b => b.addr != q),
                       trace := w.trace ++ [.delete q, .newArray (r / 100 * c * 2) none] })
         | some _, some _ => .error .nullDereference
         | none, some p =>
           .ok (SetObjectField bufferField p ((r / 100 * c * 2 : Nat) : Int)
             { w1 with
               adapter := (w1.adapter.storeData data (some p)).storeSize dataSize (r / 100 * c * 2),
               heap := w.heap ++ [{ addr := p, size := r / 100 * c * 2, contents := none }],
               trace := w.trace ++ [.newArray (r / 100 * c * 2) (some p)] })
       else .ok w1) := by
  unfold SetupBuffer
  simp only [toUInt32_BUFFERS_PER_SECOND, loadFrames_storeFrames, loadSize_storeFrames,
    loadData_storeFrames, bufferSize_exact r c hr hc, toSizeT_natCast _ (byteSize_lt r c hr hc)]
  by_cases hsize : w.adapter.loadSize dataSize = r / 100 * c * 2
  · simp [hsize]
  · simp only [ne_eq, hsize, not_false_eq_true, if_true]
    cases hd : w.adapter.loadData data <;> cases hn : env.newArray (r / 100 * c * 2) <;>
      simp [newArray, delete, hn]

/-! ## The thread check -/

/-- A check that passes leaves the guard bound to the caller. -/
theorem RTC_DCHECK_passes (current : Nat) (w : World)
    (hvalid : (w.adapter.thread_checker_.CalledOnValidThread current).1 = true) :
    RTC_DCHECK_CalledOnValidThread current w = .ok (w.boundTo current) := by
  unfold RTC_DCHECK_CalledOnValidThread World.boundTo
  unfold ThreadChecker.CalledOnValidThread at hvalid ⊢
  rcases w with ⟨⟨⟨_ | t⟩, _, _, _, _, _, _, _, _, _, _, _⟩, _, _, _, _⟩
  · rfl
  · have ht : t = current := by simpa using hvalid
    subst ht
    simp

/-- The caller is accepted by a guard bound to it. -/
theorem boundTo_valid (current : Nat) (w : World) :
    ((w.boundTo current).adapter.thread_checker_.CalledOnValidThread current).1 = true := by
  simp [World.boundTo, ThreadChecker.CalledOnValidThread]

/-- A detached guard accepts every caller. -/
theorem detached_valid (current : Nat) (w : World)
    (h : w.adapter.thread_checker_.valid_thread_ = none) :
    (w.adapter.thread_checker_.CalledOnValidThread current).1 = true := by
  simp [ThreadChecker.CalledOnValidThread, h]

/-! ## Delay queries (C6, C7) -/

/-- The 16-bit mask of `Delay` on a non-negative response. -/
theorem land_mask16 (d : Nat) : toUInt16 (Int.land (d : Int) 0xFFFF) = d % 65536 := by
  have h : Int.land (d : Int) 0xFFFF = ((d &&& 65535 : Nat) : Int) := rfl
  rw [h]
  have h2 : d &&& 65535 = d % 65536 := Nat.and_pow_two_sub_one_eq_mod d 16
  rw [h2]
  unfold toUInt16
  omega

/-- C6: for every negative raw response of the device's playoutDelay /
recordingDelay method, PlayoutDelay / RecordingDelay returns the failure status
-1 and hands delayMS back with the value it had before the call (the world
only gains the one device call). -/
theorem delay_negative_response_fails (env : Env) (delayMS : Nat) (w : World) :
    (env.CallIntMethod .j_playout_delay_id_ < 0 →
      PlayoutDelay env delayMS w = (-1, delayMS, w.called .j_playout_delay_id_)) ∧
    (env.CallIntMethod .j_recording_delay_id_ < 0 →
      RecordingDelay env delayMS w = (-1, delayMS, w.called .j_recording_delay_id_)) := by
  constructor <;> intro h <;>
    simp [PlayoutDelay, RecordingDelay, Delay, CallIntMethod, World.called, h]

/-- C6 at a concrete input: the device answers -7 to both delay methods while
delayMS holds 42. -/
theorem delay_negative_response_fails_witness :
    PlayoutDelay (Env.plentiful 0 (-7) false) 42 (World.constructed 9 0 ⟨0, 0, none⟩) =
      (-1, 42, (World.constructed 9 0 ⟨0, 0, none⟩).called .j_playout_delay_id_) ∧
    RecordingDelay (Env.plentiful 0 (-7) false) 42 (World.constructed 9 0 ⟨0, 0, none⟩) =
      (-1, 42, (World.constructed 9 0 ⟨0, 0, none⟩).called .j_recording_delay_id_) :=
  ⟨(delay_negative_response_fails _ _ _).1 (by decide),
   (delay_negative_response_fails _ _ _).2 (by decide)⟩

/-- C7: for every non-negative raw response d of the device's delay method,
PlayoutDelay / RecordingDelay returns 0 and sets delayMS to d mod 65536; so
every d up to 65535 comes back exactly, and a larger one is reported as
success with the wrapped value. -/
theorem delay_nonnegative_response_masks (env : Env) (delayMS : Nat) (w : World) (d : Nat) :
    (env.CallIntMethod .j_playout_delay_id_ = (d : Int) →
      PlayoutDelay env delayMS w = (0, d % 65536, w.called .j_playout_delay_id_) ∧
      (d ≤ 65535 → (PlayoutDelay env delayMS w).2.1 = d)) ∧
    (env.CallIntMethod .j_recording_delay_id_ = (d : Int) →
      RecordingDelay env delayMS w = (0, d % 65536, w.called .j_recording_delay_id_) ∧
      (d ≤ 65535 → (RecordingDelay env delayMS w).2.1 = d)) := by
  have hnn : ¬ ((d : Int) < 0) := by omega
  constructor <;> intro h
  · have hp : PlayoutDelay env delayMS w = (0, d % 65536, w.called .j_playout_delay_id_) := by
      simp only [PlayoutDelay, Delay, CallIntMethod, World.called, h, hnn, if_false, land_mask16]
    refine ⟨hp, fun hd => ?_⟩
    rw [hp]
    exact Nat.mod_eq_of_lt (by omega)
  · have hp : RecordingDelay env delayMS w =
        (0, d % 65536, w.called .j_recording_delay_id_) := by
      simp only [RecordingDelay, Delay, CallIntMethod, World.called, h, hnn, if_false,
        land_mask16]
    refine ⟨hp, fun hd => ?_⟩
    rw [hp]
    exact Nat.mod_eq_of_lt (by omega)

/-- C7 at concrete inputs: the response 250 comes back as 250, the response
65537 comes back as 1, both with status 0. -/
theorem delay_nonnegative_response_masks_witness :
    (PlayoutDelay (Env.plentiful 0 250 false) 42 (World.constructed 9 0 ⟨0, 0, none⟩) =
        (0, 250 % 65536, (World.constructed 9 0 ⟨0, 0, none⟩).called .j_playout_delay_id_) ∧
      (PlayoutDelay (Env.plentiful 0 250 false) 42 (World.constructed 9 0 ⟨0, 0, none⟩)).2.1
        = 250) ∧
    (RecordingDelay (Env.plentiful 0 65537 false) 42 (World.constructed 9 0 ⟨0, 0, none⟩) =
        (0, 65537 % 65536, (World.constructed 9 0 ⟨0, 0, none⟩).called .j_recording_delay_id_)) :=
  ⟨⟨((delay_nonnegative_response_masks (Env.plentiful 0 250 false) 42 _ 250).1 rfl).1,
    ((delay_nonnegative_response_masks (Env.plentiful 0 250 false) 42 _ 250).1 rfl).2
      (by decide)⟩,
   ((delay_nonnegative_response_masks (Env.plentiful 0 65537 false) 42 _ 65537).2 rfl).1⟩

/-! ## Availability queries (C8) -/

/-- C8: for every integer response s of the device's playoutIsAvailable /
recordingIsAvailable method, PlayoutIsAvailable / RecordingIsAvailable, called
on the thread the guard accepts, returns -1 and leaves the flag as it was when
s < 0, and otherwise returns 0 and sets the flag to true exactly when s = 1. -/
theorem available_normalises_response (current : Nat) (env : Env) (available : Bool)
    (w : World)
    (hvalid : (w.adapter.thread_checker_.CalledOnValidThread current).1 = true) :
    PlayoutIsAvailable current env available w =
      .ok (if env.CallIntMethod .j_playout_is_available_id_ < 0 then (-1 : Int) else 0,
           if env.CallIntMethod .j_playout_is_available_id_ < 0 then available
           else decide (env.CallIntMethod .j_playout_is_available_id_ = 1),
           (w.boundTo current).called .j_playout_is_available_id_) ∧
    RecordingIsAvailable current env available w =
      .ok (if env.CallIntMethod .j_recording_is_available_id_ < 0 then (-1 : Int) else 0,
           if env.CallIntMethod .j_recording_is_available_id_ < 0 then available
           else decide (env.CallIntMethod .j_recording_is_available_id_ = 1),
           (w.boundTo current).called .j_recording_is_available_id_) := by
  constructor
  · simp only [PlayoutIsAvailable, RTC_DCHECK_passes current w hvalid, Available,
      CallIntMethod, World.called]
    split <;> rfl
  · simp only [RecordingIsAvailable, RTC_DCHECK_passes current w hvalid, Available,
      CallIntMethod, World.called]
    split <;> rfl

/-- C8 at concrete inputs, on a newly constructed adapter whose flag holds
true: the response -3 gives (-1, true), the response 2 gives (0, false). -/
theorem available_normalises_response_witness :
    (PlayoutIsAvailable 1 (Env.plentiful 0 (-3) false) true
        (World.constructed 9 0 ⟨0, 0, none⟩) =
      .ok (-1, true,
        ((World.constructed 9 0 ⟨0, 0, none⟩).boundTo 1).called .j_playout_is_available_id_)) ∧
    (RecordingIsAvailable 1 (Env.plentiful 0 2 false) true
        (World.constructed 9 0 ⟨0, 0, none⟩) =
      .ok (0, false,
        ((World.constructed 9 0 ⟨0, 0, none⟩).boundTo 1).called
          .j_recording_is_available_id_)) :=
  ⟨(available_normalises_response 1 (Env.plentiful 0 (-3) false) true
      (World.constructed 9 0 ⟨0, 0, none⟩) (by decide)).1,
   (available_normalises_response 1 (Env.plentiful 0 2 false) true
      (World.constructed 9 0 ⟨0, 0, none⟩) (by decide)).2⟩

/-! ## One-to-one delegation (C9) -/

/-- C9: for every response of the device, each 1:1 delegated operation, called
on the thread the guard accepts, makes exactly one call of its device method
(the trace gains that one call, never a second) and returns what the device
answered, unchanged: the integer status for Init, Terminate, InitPlayout,
InitRecording, StartPlayout, StopPlayout, StartRecording, StopRecording, and
the boolean for Initialized, PlayoutIsInitialized, RecordingIsInitialized,
Playing, Recording, PlayoutWarning, PlayoutError, RecordingWarning,
RecordingError (the last four make no thread check). -/
theorem delegation_one_call_verbatim (current : Nat) (env : Env) (w : World)
    (hvalid : (w.adapter.thread_checker_.CalledOnValidThread current).1 = true) :
    Init current env w =
      .ok (env.CallIntMethod .j_init_id_, (w.boundTo current).called .j_init_id_) ∧
    Terminate current env w =
      .ok (env.CallIntMethod .j_terminate_id_,
        (w.boundTo current).called .j_terminate_id_) ∧
    InitPlayout current env w =
      .ok (env.CallIntMethod .j_init_playout_id_,
        (w.boundTo current).called .j_init_playout_id_) ∧
    InitRecording current env w =
      .ok (env.CallIntMethod .j_init_recording_id_,
        (w.boundTo current).called .j_init_recording_id_) ∧
    StartPlayout current env w =
      .ok (env.CallIntMethod .j_start_playout_id_,
        (w.boundTo current).called .j_start_playout_id_) ∧
    StopPlayout current env w =
      .ok (env.CallIntMethod .j_stop_playout_id_,
        (w.boundTo current).called .j_stop_playout_id_) ∧
    StartRecording current env w =
      .ok (env.CallIntMethod .j_start_recording_id_,
        (w.boundTo current).called .j_start_recording_id_) ∧
    StopRecording current env w =
      .ok (env.CallIntMethod .j_stop_recording_id_,
        (w.boundTo current).called .j_stop_recording_id_) ∧
    Initialized current env w =
      .ok (env.CallBooleanMethod .j_initialized_id_,
        (w.boundTo current).called .j_initialized_id_) ∧
    PlayoutIsInitialized current env w =
      .ok (env.CallBooleanMethod .j_playout_is_initialized_id_,
        (w.boundTo current).called .j_playout_is_initialized_id_) ∧
    RecordingIsInitialized current env w =
      .ok (env.CallBooleanMethod .j_recording_is_initialized_id_,
        (w.boundTo current).called .j_recording_is_initialized_id_) ∧
    Playing current env w =
      .ok (env.CallBooleanMethod .j_playing_id_, (w.boundTo current).called .j_playing_id_) ∧
    Recording current env w =
      .ok (env.CallBooleanMethod .j_recording_id_,
        (w.boundTo current).called .j_recording_id_) ∧
    PlayoutWarning env w =
      (env.CallBooleanMethod .j_playout_warning_id_, w.called .j_playout_warning_id_) ∧
    PlayoutError env w =
      (env.CallBooleanMethod .j_playout_error_id_, w.called .j_playout_error_id_) ∧
    RecordingWarning env w =
      (env.CallBooleanMethod .j_recording_warning_id_, w.called .j_recording_warning_id_) ∧
    RecordingError env w =
      (env.CallBooleanMethod .j_recording_error_id_, w.called .j_recording_error_id_) := by
  have h := RTC_DCHECK_passes current w hvalid
  refine ⟨?_, ?_, ?_, ?_, ?_, ?_, ?_, ?_, ?_, ?_, ?_, ?_, ?_, ?_, ?_, ?_, ?_⟩
  · simp only [Init, h, CallIntMethod, World.called]
  · simp only [Terminate, h, CallIntMethod, World.called]
  · simp only [InitPlayout, h, CallIntMethod, World.called]
  · simp only [InitRecording, h, CallIntMethod, World.called]
  · simp only [StartPlayout, h, CallIntMethod, World.called]
  · simp only [StopPlayout, h, CallIntMethod, World.called]
  · simp only [StartRecording, h, CallIntMethod, World.called]
  · simp only [StopRecording, h, CallIntMethod, World.called]
  · simp only [Initialized, h, CallBooleanMethod, World.called]
  · simp only [PlayoutIsInitialized, h, CallBooleanMethod, World.called]
  · simp only [RecordingIsInitialized, h, CallBooleanMethod, World.called]
  · simp only [Playing, h, CallBooleanMethod, World.called]
  · simp only [Recording, h, CallBooleanMethod, World.called]
  · rfl
  · rfl
  · rfl
  · rfl

/-- C9 at a concrete input: a device that answers -1 and true, asked through
StartPlayout and Playing on a newly constructed adapter from thread 1. -/
theorem delegation_one_call_verbatim_witness :
    StartPlayout 1 (Env.plentiful 0 (-1) true) (World.constructed 9 0 ⟨0, 0, none⟩) =
      .ok (-1, ((World.constructed 9 0 ⟨0, 0, none⟩).boundTo 1).called .j_start_playout_id_) ∧
    Playing 1 (Env.plentiful 0 (-1) true) (World.constructed 9 0 ⟨0, 0, none⟩) =
      .ok (true, ((World.constructed 9 0 ⟨0, 0, none⟩).boundTo 1).called .j_playing_id_) :=
  ⟨(delegation_one_call_verbatim 1 (Env.plentiful 0 (-1) true)
      (World.constructed 9 0 ⟨0, 0, none⟩) (by decide)).2.2.2.2.1,
   (delegation_one_call_verbatim 1 (Env.plentiful 0 (-1) true)
      (World.constructed 9 0 ⟨0, 0, none⟩) (by decide)).2.2.2.2.2.2.2.2.2.2.2.1⟩

/-! ## The status convention (C10) -/

/-- C10 fails as stated: a device whose init method answers 5 makes Init
return 5, which is neither 0 nor -1. -/
theorem status_convention_counterexample :
    Init 1 (Env.plentiful 0 5 false) (World.constructed 9 0 ⟨0, 0, none⟩) =
      .ok (5, ((World.constructed 9 0 ⟨0, 0, none⟩).boundTo 1).called .j_init_id_) ∧
    (5 : Int) ≠ 0 ∧ (5 : Int) ≠ -1 :=
  ⟨rfl, by decide, by decide⟩

/-- C10 as amended: called on the thread the guard accepts, the operations
that normalise the device's answer (PlayoutIsAvailable, RecordingIsAvailable,
PlayoutDelay, RecordingDelay, StereoPlayoutIsAvailable,
StereoRecordingIsAvailable) return only 0 or -1 for every response of the
device, while Init, Terminate, InitPlayout, InitRecording, StartPlayout,
StopPlayout, StartRecording and StopRecording return the device's integer
response itself, so they return 0 or -1 exactly when the device does. -/
theorem status_convention_amended (current : Nat) (env : Env) (available : Bool)
    (delayMS : Nat) (w : World)
    (hvalid : (w.adapter.thread_checker_.CalledOnValidThread current).1 = true) :
    (∃ s a w', PlayoutIsAvailable current env available w = .ok (s, a, w') ∧
      (s = 0 ∨ s = -1)) ∧
    (∃ s a w', RecordingIsAvailable current env available w = .ok (s, a, w') ∧
      (s = 0 ∨ s = -1)) ∧
    ((PlayoutDelay env delayMS w).1 = 0 ∨ (PlayoutDelay env delayMS w).1 = -1) ∧
    ((RecordingDelay env delayMS w).1 = 0 ∨ (RecordingDelay env delayMS w).1 = -1) ∧
    (∃ a w', StereoPlayoutIsAvailable current env available w = .ok (0, a, w')) ∧
    (∃ a w', StereoRecordingIsAvailable current env available w = .ok (0, a, w')) ∧
    (∃ w', Init current env w = .ok (env.CallIntMethod .j_init_id_, w')) ∧
    (∃ w', Terminate current env w = .ok (env.CallIntMethod .j_terminate_id_, w')) ∧
    (∃ w', InitPlayout current env w = .ok (env.CallIntMethod .j_init_playout_id_, w')) ∧
    (∃ w', InitRecording current env w =
      .ok (env.CallIntMethod .j_init_recording_id_, w')) ∧
    (∃ w', StartPlayout current env w =
      .ok (env.CallIntMethod .j_start_playout_id_, w')) ∧
    (∃ w', StopPlayout current env w = .ok (env.CallIntMethod .j_stop_playout_id_, w')) ∧
    (∃ w', StartRecording current env w =
      .ok (env.CallIntMethod .j_start_recording_id_, w')) ∧
    (∃ w', StopRecording current env w =
      .ok (env.CallIntMethod .j_stop_recording_id_, w')) := by
  have h := RTC_DCHECK_passes current w hvalid
  refine ⟨?_, ?_, ?_, ?_, ?_, ?_, ?_, ?_, ?_, ?_, ?_, ?_, ?_, ?_⟩
  · simp only [PlayoutIsAvailable, h, Available, CallIntMethod]
    by_cases hs : env.CallIntMethod .j_playout_is_available_id_ < 0
    · exact ⟨-1, _, _, by rw [if_pos hs], Or.inr rfl⟩
    · exact ⟨0, _, _, by rw [if_neg hs], Or.inl rfl⟩
  · simp only [RecordingIsAvailable, h, Available, CallIntMethod]
    by_cases hs : env.CallIntMethod .j_recording_is_available_id_ < 0
    · exact ⟨-1, _, _, by rw [if_pos hs], Or.inr rfl⟩
    · exact ⟨0, _, _, by rw [if_neg hs], Or.inl rfl⟩
  · simp only [PlayoutDelay, Delay, CallIntMethod]
    by_cases hs : env.CallIntMethod .j_playout_delay_id_ < 0
    · rw [if_pos hs]; exact Or.inr rfl
    · rw [if_neg hs]; exact Or.inl rfl
  · simp only [RecordingDelay, Delay, CallIntMethod]
    by_cases hs : env.CallIntMethod .j_recording_delay_id_ < 0
    · rw [if_pos hs]; exact Or.inr rfl
    · rw [if_neg hs]; exact Or.inl rfl
  · exact ⟨env.CallBooleanMethod .j_stereo_playout_is_available_id_,
      (w.boundTo current).called .j_stereo_playout_is_available_id_,
      by simp only [StereoPlayoutIsAvailable, h, CallBooleanMethod, World.called]⟩
  · exact ⟨env.CallBooleanMethod .j_stereo_recording_is_available_id_,
      (w.boundTo current).called .j_stereo_recording_is_available_id_,
      by simp only [StereoRecordingIsAvailable, h, CallBooleanMethod, World.called]⟩
  · exact ⟨(w.boundTo current).called .j_init_id_,
      by simp only [Init, h, CallIntMethod, World.called]⟩
  · exact ⟨(w.boundTo current).called .j_terminate_id_,
      by simp only [Terminate, h, CallIntMethod, World.called]⟩
  · exact ⟨(w.boundTo current).called .j_init_playout_id_,
      by simp only [InitPlayout, h, CallIntMethod, World.called]⟩
  · exact ⟨(w.boundTo current).called .j_init_recording_id_,
      by simp only [InitRecording, h, CallIntMethod, World.called]⟩
  · exact ⟨(w.boundTo current).called .j_start_playout_id_,
      by simp only [StartPlayout, h, CallIntMethod, World.called]⟩
  · exact ⟨(w.boundTo current).called .j_stop_playout_id_,
      by simp only [StopPlayout, h, CallIntMethod, World.called]⟩
  · exact ⟨(w.boundTo current).called .j_start_recording_id_,
      by simp only [StartRecording, h, CallIntMethod, World.called]⟩
  · exact ⟨(w.boundTo current).called .j_stop_recording_id_,
      by simp only [StopRecording, h, CallIntMethod, World.called]⟩

/-- C10 as amended, at a concrete input: with a device that answers 5 to
every integer method, PlayoutIsAvailable still returns 0 or -1 while
StopRecording returns the 5. -/
theorem status_convention_amended_witness :
    (∃ s a w', PlayoutIsAvailable 1 (Env.plentiful 0 5 false) true
        (World.constructed 9 0 ⟨0, 0, none⟩) = .ok (s, a, w') ∧ (s = 0 ∨ s = -1)) ∧
    (∃ w', StopRecording 1 (Env.plentiful 0 5 false) (World.constructed 9 0 ⟨0, 0, none⟩) =
      .ok (5, w')) :=
  ⟨(status_convention_amended 1 (Env.plentiful 0 5 false) true 0
      (World.constructed 9 0 ⟨0, 0, none⟩) (by decide)).1,
   (status_convention_amended 1 (Env.plentiful 0 5 false) true 0
      (World.constructed 9 0 ⟨0, 0, none⟩) (by decide)).2.2.2.2.2.2.2.2.2.2.2.2.2⟩

/-! ## Sample-rate configuration through the public operations -/

theorem allocations_append (t u : List Event) :
    allocations (t ++ u) = allocations t + allocations u := by
  simp [allocations, List.filter_append]

/-- The adapter handed out by `Create`: detached guard, sink attached, mono,
no buffer in either direction, nothing allocated. -/
theorem created_ok (creator : Nat) (id : Int) (junk : Indeterminate) (sink : Nat) :
    ∃ w0, World.created creator id junk sink = .ok w0 ∧
      w0.adapter.thread_checker_.valid_thread_ = none ∧
      w0.adapter.audio_device_buffer_ = some sink ∧
      w0.adapter._recChannels = 1 ∧ w0.adapter._playChannels = 1 ∧
      w0.adapter.recording_data_ = none ∧ w0.adapter.playout_data_ = none ∧
      w0.adapter.recording_data_size_ = 0 ∧ w0.adapter.playout_data_size_ = 0 ∧
      allocations w0.trace = 0 :=
  ⟨_, rfl, rfl, rfl, rfl, rfl, rfl, rfl, rfl, rfl, rfl⟩

/-- The operation `SetStereoRecording` on the thread the guard accepts. -/
theorem SetStereoRecording_eq (current : Nat) (enable : Bool) (w : World)
    (hvalid : (w.adapter.thread_checker_.CalledOnValidThread current).1 = true) :
    SetStereoRecording current enable w =
      .ok (0, { w.boundTo current with
                adapter := { (w.boundTo current).adapter with
                             _recChannels := if enable then 2 else 1 } }) := by
  unfold SetStereoRecording
  rw [RTC_DCHECK_passes current w hvalid]
  cases enable <;> rfl

/-- The operation `SetStereoPlayout`. -/
theorem SetStereoPlayout_eq (enable : Bool) (w : World) :
    SetStereoPlayout enable w =
      (0, { w with adapter := { w.adapter with _playChannels := if enable then 2 else 1 } }) := by
  cases enable <;> rfl

/-- The operation `SetRecordingSampleRate` once its thread check has passed
and the sink has been told: what remains is `SetupBuffer` on the recording
members. -/
theorem SetRecordingSampleRate_eq (current : Nat) (env : Env) (r : Nat) (w : World)
    (sink : Nat)
    (hvalid : (w.adapter.thread_checker_.CalledOnValidThread current).1 = true)
    (hsink : w.adapter.audio_device_buffer_ = some sink) :
    SetRecordingSampleRate current env r w =
      match SetupBuffer env r w.adapter._recChannels .recording_data_size_ .recording_data_
          .rec_frames_per_buffer_ .j_recording_buffer_id_
          { w.boundTo current with
            trace := w.trace ++ [.sinkCall sink (.SetRecordingSampleRate r)] } with
      | .error f => .error f
      | .ok w' => .ok (0, w') := by
  unfold SetRecordingSampleRate
  rw [RTC_DCHECK_passes current w hvalid]
  have hs : (w.boundTo current).adapter.audio_device_buffer_ = some sink := hsink
  simp only [callSink, hs]
  rfl

/-- The operation `SetPlayoutSampleRate` once its thread check has passed and
the sink has been told: what remains is `SetupBuffer` on the playout members. -/
theorem SetPlayoutSampleRate_eq (current : Nat) (env : Env) (r : Nat) (w : World)
    (sink : Nat)
    (hvalid : (w.adapter.thread_checker_.CalledOnValidThread current).1 = true)
    (hsink : w.adapter.audio_device_buffer_ = some sink) :
    SetPlayoutSampleRate current env r w =
      match SetupBuffer env r w.adapter._playChannels .playout_data_size_ .playout_data_
          .play_frames_per_buffer_ .j_playout_buffer_id_
          { w.boundTo current with
            trace := w.trace ++ [.sinkCall sink (.SetPlayoutSampleRate r)] } with
      | .error f => .error f
      | .ok w' => .ok (0, w') := by
  unfold SetPlayoutSampleRate
  rw [RTC_DCHECK_passes current w hvalid]
  have hs : (w.boundTo current).adapter.audio_device_buffer_ = some sink := hsink
  simp only [callSink, hs]
  rfl

/-- First configuration of the recording direction. -/
theorem SetRecordingSampleRate_first (current : Nat) (env : Env) (r c sink p : Nat)
    (w : World)
    (hvalid : (w.adapter.thread_checker_.CalledOnValidThread current).1 = true)
    (hsink : w.adapter.audio_device_buffer_ = some sink)
    (hch : w.adapter._recChannels = c) (hr : r < 2 ^ 32) (hc : c = 1 ∨ c = 2)
    (hdata : w.adapter.recording_data_ = none) (hsz : w.adapter.recording_data_size_ = 0)
    (hp : env.newArray (r / 100 * c * 2) = some p) :
    ∃ w', SetRecordingSampleRate current env r w = .ok (0, w') ∧
      w'.adapter.rec_frames_per_buffer_ = r / 100 ∧
      w'.adapter.recording_data_size_ = r / 100 * c * 2 ∧
      w'.adapter._recChannels = c ∧
      w'.adapter.audio_device_buffer_ = some sink ∧
      (w'.adapter.thread_checker_.CalledOnValidThread current).1 = true ∧
      allocations w'.trace =
        allocations w.trace + (if r / 100 * c * 2 = 0 then 0 else 1) := by
  have hlt : r / 100 % 2 ^ 32 = r / 100 := Nat.mod_eq_of_lt (by omega)
  rw [SetRecordingSampleRate_eq current env r w sink hvalid hsink, hch,
    SetupBuffer_eq env r c _ _ _ _ _ hr hc]
  by_cases hb : r / 100 * c * 2 = 0
  · simp [World.boundTo, JavaAppAudioDevice.loadSize, JavaAppAudioDevice.storeFrames, hsz, hb,
      hlt, hch, hsink, ThreadChecker.CalledOnValidThread, allocations_append, allocations]
    omega
  · have hb' : ¬ (0 = r / 100 * c * 2) := fun h => hb h.symm
    simp [World.boundTo, JavaAppAudioDevice.loadSize, JavaAppAudioDevice.loadData,
      JavaAppAudioDevice.storeFrames, JavaAppAudioDevice.storeData,
      JavaAppAudioDevice.storeSize, SetObjectField, hsz, hb, hb', hdata, hp,
      hlt, hch, hsink, ThreadChecker.CalledOnValidThread, allocations_append, allocations]
    omega

/-- First configuration of the playout direction. -/
theorem SetPlayoutSampleRate_first (current : Nat) (env : Env) (r c sink p : Nat)
    (w : World)
    (hvalid : (w.adapter.thread_checker_.CalledOnValidThread current).1 = true)
    (hsink : w.adapter.audio_device_buffer_ = some sink)
    (hch : w.adapter._playChannels = c) (hr : r < 2 ^ 32) (hc : c = 1 ∨ c = 2)
    (hdata : w.adapter.playout_data_ = none) (hsz : w.adapter.playout_data_size_ = 0)
    (hp : env.newArray (r / 100 * c * 2) = some p) :
    ∃ w', SetPlayoutSampleRate current env r w = .ok (0, w') ∧
      w'.adapter.play_frames_per_buffer_ = r / 100 ∧
      w'.adapter.playout_data_size_ = r / 100 * c * 2 ∧
      w'.adapter._playChannels = c ∧
      w'.adapter.audio_device_buffer_ = some sink ∧
      (w'.adapter.thread_checker_.CalledOnValidThread current).1 = true ∧
      allocations w'.trace =
        allocations w.trace + (if r / 100 * c * 2 = 0 then 0 else 1) := by
  have hlt : r / 100 % 2 ^ 32 = r / 100 := Nat.mod_eq_of_lt (by omega)
  rw [SetPlayoutSampleRate_eq current env r w sink hvalid hsink, hch,
    SetupBuffer_eq env r c _ _ _ _ _ hr hc]
  by_cases hb : r / 100 * c * 2 = 0
  · simp [World.boundTo, JavaAppAudioDevice.loadSize, JavaAppAudioDevice.storeFrames, hsz, hb,
      hlt, hch, hsink, ThreadChecker.CalledOnValidThread, allocations_append, allocations]
    omega
  · have hb' : ¬ (0 = r / 100 * c * 2) := fun h => hb h.symm
    simp [World.boundTo, JavaAppAudioDevice.loadSize, JavaAppAudioDevice.loadData,
      JavaAppAudioDevice.storeFrames, JavaAppAudioDevice.storeData,
      JavaAppAudioDevice.storeSize, SetObjectField, hsz, hb, hb', hdata, hp,
      hlt, hch, hsink, ThreadChecker.CalledOnValidThread, allocations_append, allocations]
    omega

/-- Configuring the recording direction again with the size it already has. -/
theorem SetRecordingSampleRate_repeat (current : Nat) (env : Env) (r c sink : Nat)
    (w : World)
    (hvalid : (w.adapter.thread_checker_.CalledOnValidThread current).1 = true)
    (hsink : w.adapter.audio_device_buffer_ = some sink)
    (hch : w.adapter._recChannels = c) (hr : r < 2 ^ 32) (hc : c = 1 ∨ c = 2)
    (hsz : w.adapter.recording_data_size_ = r / 100 * c * 2) :
    ∃ w', SetRecordingSampleRate current env r w = .ok (0, w') ∧
      w'.adapter.recording_data_ = w.adapter.recording_data_ ∧
      allocations w'.trace = allocations w.trace := by
  rw [SetRecordingSampleRate_eq current env r w sink hvalid hsink, hch,
    SetupBuffer_eq env r c _ _ _ _ _ hr hc]
  simp [World.boundTo, JavaAppAudioDevice.loadSize, JavaAppAudioDevice.storeFrames, hsz,
    allocations_append, allocations]

/-- Configuring the playout direction again with the size it already has. -/
theorem SetPlayoutSampleRate_repeat (current : Nat) (env : Env) (r c sink : Nat)
    (w : World)
    (hvalid : (w.adapter.thread_checker_.CalledOnValidThread current).1 = true)
    (hsink : w.adapter.audio_device_buffer_ = some sink)
    (hch : w.adapter._playChannels = c) (hr : r < 2 ^ 32) (hc : c = 1 ∨ c = 2)
    (hsz : w.adapter.playout_data_size_ = r / 100 * c * 2) :
    ∃ w', SetPlayoutSampleRate current env r w = .ok (0, w') ∧
      w'.adapter.playout_data_ = w.adapter.playout_data_ ∧
      allocations w'.trace = allocations w.trace := by
  rw [SetPlayoutSampleRate_eq current env r w sink hvalid hsink, hch,
    SetupBuffer_eq env r c _ _ _ _ _ hr hc]
  simp [World.boundTo, JavaAppAudioDevice.loadSize, JavaAppAudioDevice.storeFrames, hsz,
    allocations_append, allocations]

/-- The example world is what the scenario's first step produces. -/
theorem recording16kMono_reached :
    ∃ w0, World.created 9 0 ⟨0, 0, none⟩ 7 = .ok w0 ∧
      SetRecordingSampleRate 1 (Env.plentiful 1000 0 false) 16000 w0 =
        .ok (0, World.recording16kMono) :=
  ⟨_, rfl, rfl⟩

/-! ## Sizing on a fresh adapter (C1) -/

/-- C1: for every 32-bit sample rate r and every channel count c in {1, 2},
configuring a direction of a freshly created adapter (SetRecordingSampleRate /
SetPlayoutSampleRate, through SetupBuffer, the allocation succeeding) sets that
direction's frames-per-buffer to r / 100 and its recorded byte size to
(r / 100) * c * 2. The channel count is the one a preceding SetStereoRecording /
SetStereoPlayout leaves. -/
theorem fresh_configuration_sizes (creator : Nat) (id : Int) (junk : Indeterminate) (sink current : Nat)
    (env : Env) (r c : Nat) (hr : r < 2 ^ 32) (hc : c = 1 ∨ c = 2)
    (halloc : (env.newArray (r / 100 * c * 2)).isSome) :
    (∃ w0 w1 w2, World.created creator id junk sink = .ok w0 ∧
      SetStereoRecording current (decide (c = 2)) w0 = .ok (0, w1) ∧
      SetRecordingSampleRate current env r w1 = .ok (0, w2) ∧
      w2.adapter.rec_frames_per_buffer_ = r / 100 ∧
      w2.adapter.recording_data_size_ = r / 100 * c * 2) ∧
    (∃ w0 w1 w2, World.created creator id junk sink = .ok w0 ∧
      SetStereoPlayout (decide (c = 2)) w0 = (0, w1) ∧
      SetPlayoutSampleRate current env r w1 = .ok (0, w2) ∧
      w2.adapter.play_frames_per_buffer_ = r / 100 ∧
      w2.adapter.playout_data_size_ = r / 100 * c * 2) := by
  obtain ⟨p, hp⟩ := Option.isSome_iff_exists.mp halloc
  obtain ⟨w0, h0, hth, hsk, hrc, hpc, hrd, hpd, hrs, hps, _⟩ := created_ok creator id junk sink
  have hv0 := detached_valid current w0 hth
  have hch : (if decide (c = 2) = true then 2 else 1) = c := by
    rcases hc with rfl | rfl <;> rfl
  constructor
  · obtain ⟨w2, h2, hf, hs, _⟩ :=
      SetRecordingSampleRate_first current env r c sink p
        { w0.boundTo current with
          adapter := { (w0.boundTo current).adapter with
                       _recChannels := if decide (c = 2) then 2 else 1 } }
        (boundTo_valid current w0) hsk hch hr hc hrd hrs hp
    exact ⟨w0, _, w2, h0, SetStereoRecording_eq current _ w0 hv0, h2, hf, hs⟩
  · obtain ⟨w2, h2, hf, hs, _⟩ :=
      SetPlayoutSampleRate_first current env r c sink p
        { w0 with adapter := { w0.adapter with
                               _playChannels := if decide (c = 2) then 2 else 1 } }
        hv0 hsk hch hr hc hpd hps hp
    exact ⟨w0, _, w2, h0, SetStereoPlayout_eq _ w0, h2, hf, hs⟩

/-- C1 at the claim's own input: 16000 Hz mono gives 160 frames and 320
bytes, in either direction. -/
theorem fresh_configuration_sizes_witness :
    (∃ w0 w1 w2, World.created 9 0 ⟨0, 0, none⟩ 7 = .ok w0 ∧
      SetStereoRecording 1 false w0 = .ok (0, w1) ∧
      SetRecordingSampleRate 1 (Env.plentiful 1000 0 false) 16000 w1 = .ok (0, w2) ∧
      w2.adapter.rec_frames_per_buffer_ = 160 ∧
      w2.adapter.recording_data_size_ = 320) ∧
    (∃ w0 w1 w2, World.created 9 0 ⟨0, 0, none⟩ 7 = .ok w0 ∧
      SetStereoPlayout false w0 = (0, w1) ∧
      SetPlayoutSampleRate 1 (Env.plentiful 1000 0 false) 16000 w1 = .ok (0, w2) ∧
      w2.adapter.play_frames_per_buffer_ = 160 ∧
      w2.adapter.playout_data_size_ = 320) :=
  fresh_configuration_sizes 9 0 ⟨0, 0, none⟩ 7 1 (Env.plentiful 1000 0 false) 16000 1
    (by decide) (by decide) (by decide)

/-! ## Repeated configuration (C3) -/

/-- C3 fails as stated: at 50 Hz mono the computed byte size is 0, the size a
fresh direction already records, so neither of the two calls allocates. -/
theorem repeated_configuration_counterexample :
    ∃ w0 w1 w2, World.created 9 0 ⟨0, 0, none⟩ 7 = .ok w0 ∧
      SetRecordingSampleRate 1 (Env.plentiful 1000 0 false) 50 w0 = .ok (0, w1) ∧
      SetRecordingSampleRate 1 (Env.plentiful 1000 0 false) 50 w1 = .ok (0, w2) ∧
      allocations w2.trace = 0 ∧ w2.adapter.recording_data_ = none :=
  ⟨_, _, _, rfl, rfl, rfl, rfl, rfl⟩

/-- C3 as amended: when a direction of a freshly created adapter is configured
twice consecutively with the same (sampleRate, channels), the allocation
succeeding, the memory handle is allocated exactly once over the two calls
(by the first call, not by the second) if sampleRate is at least 100, and not
at all if sampleRate is below 100; in both cases the second call leaves the
handle as the first call left it. -/
theorem repeated_configuration_allocations (creator : Nat) (id : Int) (junk : Indeterminate)
    (sink current : Nat) (env env' : Env) (r c : Nat) (hr : r < 2 ^ 32)
    (hc : c = 1 ∨ c = 2) (halloc : (env.newArray (r / 100 * c * 2)).isSome) :
    (∃ w0 w1 w2 w3, World.created creator id junk sink = .ok w0 ∧
      SetStereoRecording current (decide (c = 2)) w0 = .ok (0, w1) ∧
      SetRecordingSampleRate current env r w1 = .ok (0, w2) ∧
      SetRecordingSampleRate current env' r w2 = .ok (0, w3) ∧
      allocations w1.trace = 0 ∧
      allocations w2.trace = (if r < 100 then 0 else 1) ∧
      allocations w3.trace = allocations w2.trace ∧
      w3.adapter.recording_data_ = w2.adapter.recording_data_) ∧
    (∃ w0 w1 w2 w3, World.created creator id junk sink = .ok w0 ∧
      SetStereoPlayout (decide (c = 2)) w0 = (0, w1) ∧
      SetPlayoutSampleRate current env r w1 = .ok (0, w2) ∧
      SetPlayoutSampleRate current env' r w2 = .ok (0, w3) ∧
      allocations w1.trace = 0 ∧
      allocations w2.trace = (if r < 100 then 0 else 1) ∧
      allocations w3.trace = allocations w2.trace ∧
      w3.adapter.playout_data_ = w2.adapter.playout_data_) := by
  obtain ⟨p, hp⟩ := Option.isSome_iff_exists.mp halloc
  obtain ⟨w0, h0, hth, hsk, hrc, hpc, hrd, hpd, hrs, hps, ha0⟩ := created_ok creator id junk sink
  have hv0 := detached_valid current w0 hth
  have hch : (if decide (c = 2) = true then 2 else 1) = c := by
    rcases hc with rfl | rfl <;> rfl
  have hcount : (if r / 100 * c * 2 = 0 then 0 else 1) = (if r < 100 then 0 else 1) := by
    by_cases h : r < 100
    · have h' : r / 100 * c * 2 = 0 := by
        have : r / 100 = 0 := by omega
        simp [this]
      rw [if_pos h, if_pos h']
    · have h' : ¬ (r / 100 * c * 2 = 0) := by
        have h1 : 1 ≤ r / 100 := by omega
        have h2 : 1 ≤ c := by rcases hc with rfl | rfl <;> omega
        have h3 : 1 ≤ r / 100 * c := Nat.mul_le_mul h1 h2
        omega
      rw [if_neg h, if_neg h']
  constructor
  · obtain ⟨w2, h2, _, hs2, hc2, hk2, hv2, ha2⟩ :=
      SetRecordingSampleRate_first current env r c sink p
        { w0.boundTo current with
          adapter := { (w0.boundTo current).adapter with
                       _recChannels := if decide (c = 2) then 2 else 1 } }
        (boundTo_valid current w0) hsk hch hr hc hrd hrs hp
    obtain ⟨w3, h3, hd3, ha3⟩ :=
      SetRecordingSampleRate_repeat current env' r c sink w2 hv2 hk2 hc2 hr hc hs2
    have ha1 : allocations w0.trace = 0 := ha0
    refine ⟨w0, _, w2, w3, h0, SetStereoRecording_eq current _ w0 hv0, h2, h3, ha0, ?_,
      ha3, hd3⟩
    rw [ha2, hcount]
    show allocations w0.trace + _ = _
    rw [ha1, Nat.zero_add]
  · obtain ⟨w2, h2, _, hs2, hc2, hk2, hv2, ha2⟩ :=
      SetPlayoutSampleRate_first current env r c sink p
        { w0 with adapter := { w0.adapter with
                               _playChannels := if decide (c = 2) then 2 else 1 } }
        hv0 hsk hch hr hc hpd hps hp
    obtain ⟨w3, h3, hd3, ha3⟩ :=
      SetPlayoutSampleRate_repeat current env' r c sink w2 hv2 hk2 hc2 hr hc hs2
    have ha1 : allocations w0.trace = 0 := ha0
    refine ⟨w0, _, w2, w3, h0, SetStereoPlayout_eq _ w0, h2, h3, ha0, ?_, ha3, hd3⟩
    rw [ha2, hcount]
    show allocations w0.trace + _ = _
    rw [ha1, Nat.zero_add]

/-- C3 as amended, at 16000 Hz mono: one allocation, made by the first call. -/
theorem repeated_configuration_allocations_witness :
    ∃ w0 w1 w2 w3, World.created 9 0 ⟨0, 0, none⟩ 7 = .ok w0 ∧
      SetStereoRecording 1 false w0 = .ok (0, w1) ∧
      SetRecordingSampleRate 1 (Env.plentiful 1000 0 false) 16000 w1 = .ok (0, w2) ∧
      SetRecordingSampleRate 1 (Env.exhausted 0 false) 16000 w2 = .ok (0, w3) ∧
      allocations w1.trace = 0 ∧
      allocations w2.trace = 1 ∧
      allocations w3.trace = allocations w2.trace ∧
      w3.adapter.recording_data_ = w2.adapter.recording_data_ :=
  (repeated_configuration_allocations 9 0 ⟨0, 0, none⟩ 7 1 (Env.plentiful 1000 0 false)
    (Env.exhausted 0 false) 16000 1 (by decide) (by decide) (by decide)).1

/-! ## Unchanged size (C4) -/

/-- C4: for every state and every configuration (r, c) whose byte size
(r / 100) * c * 2 equals the direction's recorded byte size, SetupBuffer
performs no allocation, no release and no write to the device's buffer field
(the trace and the heap are as before), the buffer handle, the recorded size
and both published references are unchanged, and only frames-per-buffer is
rewritten, to r / 100. -/
theorem SetupBuffer_same_size_is_inert (env : Env) (r c : Nat) (dataSize : SizeField)
    (data : DataField) (framesPerBuffer : FramesField) (bufferField : BufferField)
    (w : World) (hr : r < 2 ^ 32) (hc : c = 1 ∨ c = 2)
    (hsize : w.adapter.loadSize dataSize = r / 100 * c * 2) :
    ∃ w', SetupBuffer env r c dataSize data framesPerBuffer bufferField w = .ok w' ∧
      w'.trace = w.trace ∧
      w'.heap = w.heap ∧
      w'.adapter.loadData data = w.adapter.loadData data ∧
      w'.adapter.loadSize dataSize = w.adapter.loadSize dataSize ∧
      w'.recordingBuffer = w.recordingBuffer ∧
      w'.playoutBuffer = w.playoutBuffer ∧
      w'.adapter.loadFrames framesPerBuffer = r / 100 ∧
      w'.adapter = w.adapter.storeFrames framesPerBuffer (r / 100) := by
  have hlt : r / 100 % 2 ^ 32 = r / 100 := Nat.mod_eq_of_lt (by omega)
  rw [SetupBuffer_eq env r c dataSize data framesPerBuffer bufferField w hr hc]
  refine ⟨{ w with adapter := w.adapter.storeFrames framesPerBuffer (r / 100) }, ?_, rfl, rfl,
    ?_, ?_, rfl, rfl, ?_, rfl⟩
  · simp [hsize]
  · simp
  · simp
  · rw [loadFrames_storeFrames, hlt]

/-- C4 at the claim's own input: 16000 Hz mono configured a second time on
the world that holds the 320-byte recording buffer. -/
theorem SetupBuffer_same_size_is_inert_witness :
    ∃ w', SetupBuffer (Env.plentiful 1000 0 false) 16000 (1 : Nat) .recording_data_size_
        .recording_data_ .rec_frames_per_buffer_ .j_recording_buffer_id_
        World.recording16kMono = .ok w' ∧
      w'.trace = World.recording16kMono.trace ∧
      w'.heap = World.recording16kMono.heap ∧
      w'.adapter.loadData .recording_data_ = some 1320 ∧
      w'.adapter.loadSize .recording_data_size_ = 320 ∧
      w'.recordingBuffer = some (1320, 320) ∧
      w'.playoutBuffer = none ∧
      w'.adapter.loadFrames .rec_frames_per_buffer_ = 160 ∧
      w'.adapter =
        World.recording16kMono.adapter.storeFrames .rec_frames_per_buffer_ 160 :=
  SetupBuffer_same_size_is_inert (Env.plentiful 1000 0 false) 16000 1 .recording_data_size_
    .recording_data_ .rec_frames_per_buffer_ .j_recording_buffer_id_ World.recording16kMono
    (by decide) (by decide) (by decide)

/-! ## Resizing a held buffer (C2) -/

/-- C2 on the code: when the direction holds a buffer and the byte size
(r / 100) * c * 2 differs from the recorded one, a successful allocation is
followed by a write through the parameter `dataSize`, which line 941 has set
to null: SetupBuffer stops with a null dereference instead of recording the
size and publishing the new reference. -/
theorem SetupBuffer_resize_of_held_buffer_faults (env : Env) (r c q : Nat)
    (dataSize : SizeField) (data : DataField) (framesPerBuffer : FramesField)
    (bufferField : BufferField) (w : World) (hr : r < 2 ^ 32) (hc : c = 1 ∨ c = 2)
    (hheld : w.adapter.loadData data = some q)
    (hdiff : w.adapter.loadSize dataSize ≠ r / 100 * c * 2)
    (halloc : (env.newArray (r / 100 * c * 2)).isSome) :
    SetupBuffer env r c dataSize data framesPerBuffer bufferField w =
      .error .nullDereference := by
  obtain ⟨p, hp⟩ := Option.isSome_iff_exists.mp halloc
  rw [SetupBuffer_eq env r c dataSize data framesPerBuffer bufferField w hr hc]
  simp [hdiff, hheld, hp]

/-- C2 at the claim's own input: the recording direction holds 320 bytes
(16000 Hz mono) and is reconfigured to 48000 Hz stereo (1920 bytes), the
allocator succeeding. SetupBuffer faults, and so does the public operation
SetRecordingSampleRate(48000) after SetStereoRecording(true). -/
theorem SetupBuffer_resize_of_held_buffer_faults_witness :
    SetupBuffer (Env.plentiful 1000 0 false) 48000 (2 : Nat) .recording_data_size_
        .recording_data_ .rec_frames_per_buffer_ .j_recording_buffer_id_
        World.recording16kMono = .error .nullDereference ∧
    (∃ w1, SetStereoRecording 1 true World.recording16kMono = .ok (0, w1) ∧
      SetRecordingSampleRate 1 (Env.plentiful 1000 0 false) 48000 w1 =
        .error .nullDereference) :=
  ⟨SetupBuffer_resize_of_held_buffer_faults (Env.plentiful 1000 0 false) 48000 2 1320
      .recording_data_size_ .recording_data_ .rec_frames_per_buffer_ .j_recording_buffer_id_
      World.recording16kMono (by decide) (by decide) rfl (by decide) (by decide),
   ⟨_, rfl, rfl⟩⟩

/-! ## Allocation failure (C5) -/

/-- C5 fails as stated: the recording direction holds the live 320-byte block
at address 1320, published to the device; a reconfiguration to 48000 Hz
stereo whose allocation fails has by then released that block (`delete` at
line 940 comes before `new` at line 944): the block is no longer live, while
the handle and the published reference still hold its address. -/
theorem allocation_failure_counterexample :
    World.recording16kMono.adapter.recording_data_ = some 1320 ∧
    World.recording16kMono.contentsAt 1320 = some none ∧
    ∃ w', SetupBuffer (Env.exhausted 0 false) 48000 (2 : Nat) .recording_data_size_
        .recording_data_ .rec_frames_per_buffer_ .j_recording_buffer_id_
        World.recording16kMono = .error (.badAlloc w') ∧
      w'.adapter.recording_data_ = some 1320 ∧
      w'.recordingBuffer = some (1320, 320) ∧
      w'.contentsAt 1320 = none ∧
      w'.heap = [] ∧
      w'.trace = World.recording16kMono.trace ++ [.delete 1320, .newArray 1920 none] :=
  ⟨rfl, rfl, _, rfl, rfl, rfl, rfl, rfl, rfl⟩

/-- C5 as amended: if the allocation of the new buffer fails during a
reconfiguration (the `new` of line 944, reached when the computed size differs
from the recorded one), SetupBuffer stops there: the device's buffer fields
are not written, so the published references are those of before the call,
and the direction's memory handle and recorded byte size are those of before
the call. A direction that held no buffer has had nothing released. A
direction that held a buffer has had that buffer released before the
allocation was attempted, so the handle refers to a block that is no longer
live. -/
theorem SetupBuffer_allocation_failure (env : Env) (r c : Nat) (dataSize : SizeField)
    (data : DataField) (framesPerBuffer : FramesField) (bufferField : BufferField)
    (w : World) (hr : r < 2 ^ 32) (hc : c = 1 ∨ c = 2)
    (hdiff : w.adapter.loadSize dataSize ≠ r / 100 * c * 2)
    (hfail : env.newArray (r / 100 * c * 2) = none) :
    ∃ w', SetupBuffer env r c dataSize data framesPerBuffer bufferField w =
        .error (.badAlloc w') ∧
      w'.recordingBuffer = w.recordingBuffer ∧
      w'.playoutBuffer = w.playoutBuffer ∧
      w'.adapter.loadData data = w.adapter.loadData data ∧
      w'.adapter.loadSize dataSize = w.adapter.loadSize dataSize ∧
      (w.adapter.loadData data = none →
        w'.heap = w.heap ∧
        w'.trace = w.trace ++ [.newArray (r / 100 * c * 2) none]) ∧
      (∀ q, w.adapter.loadData data = some q →
        w'.heap = w.heap.filter (fun b => b.addr != q) ∧
        w'.contentsAt q = none ∧
        w'.trace = w.trace ++ [.delete q, .newArray (r / 100 * c * 2) none]) := by
  rw [SetupBuffer_eq env r c dataSize data framesPerBuffer bufferField w hr hc]
  cases hd : w.adapter.loadData data with
  | none =>
    refine ⟨{ w with
              adapter := w.adapter.storeFrames framesPerBuffer (r / 100),
              trace := w.trace ++ [.newArray (r / 100 * c * 2) none] }, ?_, rfl, rfl, ?_, ?_,
      fun _ => ⟨rfl, rfl⟩, fun q hq => ?_⟩
    · simp only [ne_eq, hdiff, not_false_eq_true, if_true, hfail]
    · simp [hd]
    · simp
    · simp at hq
  | some q =>
    refine ⟨{ w with
              adapter := w.adapter.storeFrames framesPerBuffer (r / 100),
              heap := w.heap.filter (fun b => b.addr != q),
              trace := w.trace ++ [.delete q, .newArray (r / 100 * c * 2) none] }, ?_, rfl,
      rfl, ?_, ?_, fun h => ?_, fun q' hq => ?_⟩
    · simp only [ne_eq, hdiff, not_false_eq_true, if_true, hfail]
    · simp [hd]
    · simp
    · simp at h
    · have hqq : q = q' := by simpa using hq
      subst hqq
      refine ⟨rfl, ?_, rfl⟩
      simp [World.contentsAt, List.find?_filter]

/-- C5 as amended, at concrete inputs: a failed first configuration of the
playout direction (nothing held), and a failed reconfiguration of the
recording direction (320 bytes held at 1320). -/
theorem SetupBuffer_allocation_failure_witness :
    (∃ w', SetupBuffer (Env.exhausted 0 false) 48000 (2 : Nat) .playout_data_size_
        .playout_data_ .play_frames_per_buffer_ .j_playout_buffer_id_
        World.recording16kMono = .error (.badAlloc w') ∧
      w'.playoutBuffer = none ∧
      w'.adapter.loadData .playout_data_ = none ∧
      w'.adapter.loadSize .playout_data_size_ = 0 ∧
      w'.heap = World.recording16kMono.heap) ∧
    (∃ w', SetupBuffer (Env.exhausted 0 false) 48000 (2 : Nat) .recording_data_size_
        .recording_data_ .rec_frames_per_buffer_ .j_recording_buffer_id_
        World.recording16kMono = .error (.badAlloc w') ∧
      w'.recordingBuffer = some (1320, 320) ∧
      w'.adapter.loadData .recording_data_ = some 1320 ∧
      w'.adapter.loadSize .recording_data_size_ = 320 ∧
      w'.heap = World.recording16kMono.heap.filter (fun b => b.addr != 1320) ∧
      w'.contentsAt 1320 = none) := by
  obtain ⟨w1, h1, _, hb1, hd1, hs1, hn1, _⟩ :=
    SetupBuffer_allocation_failure (Env.exhausted 0 false) 48000 2 .playout_data_size_
      .playout_data_ .play_frames_per_buffer_ .j_playout_buffer_id_ World.recording16kMono
      (by decide) (by decide) (by decide) rfl
  obtain ⟨w2, h2, hb2, _, hd2, hs2, _, hq2⟩ :=
    SetupBuffer_allocation_failure (Env.exhausted 0 false) 48000 2 .recording_data_size_
      .recording_data_ .rec_frames_per_buffer_ .j_recording_buffer_id_ World.recording16kMono
      (by decide) (by decide) (by decide) rfl
  exact ⟨⟨w1, h1, hb1, hd1, hs1, (hn1 rfl).1⟩,
    ⟨w2, h2, hb2, hd2, hs2, (hq2 1320 rfl).1, (hq2 1320 rfl).2.1⟩⟩

/-! ## Operations that are not supported (C11) -/

/-- C11: each permanently unsupported stub returns -1 for every input and in
every state, and hands the world back as it was (no device call is added to
the trace, no member of the adapter changes, reference parameters keep their
values): PlayoutDeviceName, RecordingDeviceName,
SetPlayoutDevice(WindowsDeviceType), SetRecordingDevice(WindowsDeviceType),
SetWaveOutVolume, WaveOutVolume, SetSpeakerVolume, SpeakerVolume,
MaxSpeakerVolume, MinSpeakerVolume, SpeakerVolumeStepSize,
SetMicrophoneVolume, MicrophoneVolume, MaxMicrophoneVolume,
MinMicrophoneVolume, MicrophoneVolumeStepSize, SetPlayoutBuffer,
PlayoutBuffer, CPULoad. -/
theorem unsupported_stubs_fail_inertly {WindowsDeviceType BufferType : Type}
    (device : WindowsDeviceType) (type : BufferType) (index a b : Nat)
    (name guid : List Nat) (w : World) :
    PlayoutDeviceName index name guid w = (-1, w) ∧
    RecordingDeviceName index name guid w = (-1, w) ∧
    SetPlayoutDevice_WindowsDeviceType device w = (-1, w) ∧
    SetRecordingDevice_WindowsDeviceType device w = (-1, w) ∧
    SetWaveOutVolume a b w = (-1, w) ∧
    WaveOutVolume a b w = (-1, a, b, w) ∧
    SetSpeakerVolume a w = (-1, w) ∧
    SpeakerVolume a w = (-1, a, w) ∧
    MaxSpeakerVolume a w = (-1, a, w) ∧
    MinSpeakerVolume a w = (-1, a, w) ∧
    SpeakerVolumeStepSize a w = (-1, a, w) ∧
    SetMicrophoneVolume a w = (-1, w) ∧
    MicrophoneVolume a w = (-1, a, w) ∧
    MaxMicrophoneVolume a w = (-1, a, w) ∧
    MinMicrophoneVolume a w = (-1, a, w) ∧
    MicrophoneVolumeStepSize a w = (-1, a, w) ∧
    SetPlayoutBuffer type a w = (-1, w) ∧
    PlayoutBuffer type a w = (-1, type, a, w) ∧
    CPULoad a w = (-1, a, w) :=
  ⟨rfl, rfl, rfl, rfl, rfl, rfl, rfl, rfl, rfl, rfl, rfl, rfl, rfl, rfl, rfl, rfl, rfl, rfl,
    rfl⟩

/-! ## Mute and boost setters (C12) -/

/-- C12 fails as stated: asked to switch the feature off (enable = false),
SetSpeakerMute, SetMicrophoneMute and SetMicrophoneBoost return 0, not -1. -/
theorem mute_boost_setters_counterexample :
    SetSpeakerMute false World.recording16kMono = (0, World.recording16kMono) ∧
    SetMicrophoneMute false World.recording16kMono = (0, World.recording16kMono) ∧
    SetMicrophoneBoost false World.recording16kMono = (0, World.recording16kMono) ∧
    (0 : Int) ≠ -1 :=
  ⟨rfl, rfl, rfl, by decide⟩

/-- C12 as amended: SetSpeakerMute, SetMicrophoneMute and SetMicrophoneBoost
each return the failure sentinel -1 when enable = true and 0 when
enable = false, and in both cases hand the world back as it was. -/
theorem mute_boost_setters_refuse_enabling (enable : Bool) (w : World) :
    SetSpeakerMute enable w = (if enable then -1 else 0, w) ∧
    SetMicrophoneMute enable w = (if enable then -1 else 0, w) ∧
    SetMicrophoneBoost enable w = (if enable then -1 else 0, w) := by
  cases enable <;> exact ⟨rfl, rfl, rfl⟩

/-! ## The data path without a sink (C13) -/

/-- With the sink pointer null, both data-path operations return at once and
hand the world back as it was. -/
theorem data_path_null_sink (env : Env) (sinkEnv : SinkEnv) (w : World)
    (hnull : w.adapter.audio_device_buffer_ = none) :
    DataIsRecorded env sinkEnv w = .ok w ∧ GetPlayoutData sinkEnv w = .ok w := by
  unfold DataIsRecorded GetPlayoutData
  simp [hnull]

/-- C13 on the code: the constructor's initialiser list leaves
`audio_device_buffer_` indeterminate. On a constructed, never attached
adapter whose storage held the non-null value 57005 there, DataIsRecorded
passes the test of line 841 and calls three sink methods through that value
and both delay methods of the device, and GetPlayoutData calls
RequestPlayoutData through it. -/
theorem unattached_data_path_calls_through_junk :
    (∃ w', DataIsRecorded (Env.plentiful 0 5 false) (SinkEnv.offering 0 0 [])
        (World.constructed 9 0 ⟨3, 4, some 57005⟩) = .ok w' ∧
      w'.trace =
        [.sinkCall 57005 (.SetRecordedBuffer none 3),
         .deviceCall .j_playout_delay_id_,
         .deviceCall .j_recording_delay_id_,
         .sinkCall 57005 (.SetVQEData 5 5 0),
         .sinkCall 57005 .DeliverRecordedData]) ∧
    (∃ w', GetPlayoutData (SinkEnv.offering 0 0 [])
        (World.constructed 9 0 ⟨3, 4, some 57005⟩) = .ok w' ∧
      w'.trace = [.sinkCall 57005 (.RequestPlayoutData 4)]) :=
  ⟨⟨_, rfl, rfl⟩, ⟨_, rfl, rfl⟩⟩

/-! ## The capture path with a sink attached (C14, C15) -/

/-- The 16-bit mask of `Delay`, written with the bitwise and of the claim. -/
theorem land_mask16_and (d : Nat) : toUInt16 (Int.land (d : Int) 0xFFFF) = d &&& 0xFFFF := by
  rw [land_mask16]
  exact (Nat.and_pow_two_sub_one_eq_mod d 16).symm

theorem sinkCalls_append (t u : List Event) :
    sinkCalls (t ++ u) = sinkCalls t ++ sinkCalls u := by
  induction t with
  | nil => rfl
  | cons e t ih => cases e <;> simp [sinkCalls, ih]

/-- C14: with a sink attached, if the playout-delay query or the
recording-delay query made inside DataIsRecorded fails (negative device
response), DataIsRecorded returns without fault having called, after
SetRecordedBuffer, only the delay methods up to the failing one: neither
SetVQEData nor DeliverRecordedData is invoked, and the adapter and the heap
are as before. -/
theorem DataIsRecorded_delay_failure_delivers_nothing (env : Env) (sinkEnv : SinkEnv)
    (w : World) (sink : Nat)
    (hsink : w.adapter.audio_device_buffer_ = some sink)
    (hfail : env.CallIntMethod .j_playout_delay_id_ < 0 ∨
      env.CallIntMethod .j_recording_delay_id_ < 0) :
    ∃ w', DataIsRecorded env sinkEnv w = .ok w' ∧
      w'.adapter = w.adapter ∧ w'.heap = w.heap ∧
      w'.trace = w.trace ++
        (if env.CallIntMethod .j_playout_delay_id_ < 0 then
          [.sinkCall sink (.SetRecordedBuffer w.adapter.recording_data_
              w.adapter.rec_frames_per_buffer_),
           .deviceCall .j_playout_delay_id_]
         else
          [.sinkCall sink (.SetRecordedBuffer w.adapter.recording_data_
              w.adapter.rec_frames_per_buffer_),
           .deviceCall .j_playout_delay_id_,
           .deviceCall .j_recording_delay_id_]) ∧
      sinkCalls w'.trace = sinkCalls w.trace ++
        [.SetRecordedBuffer w.adapter.recording_data_ w.adapter.rec_frames_per_buffer_] := by
  unfold DataIsRecorded
  by_cases hp : env.CallIntMethod .j_playout_delay_id_ < 0
  · simp [hsink, callSink, PlayoutDelay, Delay, CallIntMethod, hp, sinkCalls_append,
      sinkCalls]
  · have hq : env.CallIntMethod .j_recording_delay_id_ < 0 := by
      rcases hfail with h | h
      · exact absurd h hp
      · exact h
    simp [hsink, callSink, PlayoutDelay, RecordingDelay, Delay, CallIntMethod, hp, hq,
      sinkCalls_append, sinkCalls]

/-- C14 at concrete inputs, on the world with both directions configured:
the playout-delay query answers -1; and the playout-delay query answers 40
while the recording-delay query answers -1. -/
theorem DataIsRecorded_delay_failure_delivers_nothing_witness :
    (∃ w', DataIsRecorded (Env.plentiful 0 (-1) false) (SinkEnv.offering 0 0 [])
        World.duplex16kMono = .ok w' ∧
      w'.trace = World.duplex16kMono.trace ++
        [.sinkCall 7 (.SetRecordedBuffer (some 1320) 160),
         .deviceCall .j_playout_delay_id_]) ∧
    (∃ w', DataIsRecorded
        { Env.plentiful 0 40 false with
          CallIntMethod := fun m => if m = .j_recording_delay_id_ then -1 else 40 }
        (SinkEnv.offering 0 0 []) World.duplex16kMono = .ok w' ∧
      w'.trace = World.duplex16kMono.trace ++
        [.sinkCall 7 (.SetRecordedBuffer (some 1320) 160),
         .deviceCall .j_playout_delay_id_,
         .deviceCall .j_recording_delay_id_]) := by
  obtain ⟨w1, h1, _, _, t1, _⟩ :=
    DataIsRecorded_delay_failure_delivers_nothing (Env.plentiful 0 (-1) false)
      (SinkEnv.offering 0 0 []) World.duplex16kMono 7 rfl (Or.inl (by decide))
  obtain ⟨w2, h2, _, _, t2, _⟩ :=
    DataIsRecorded_delay_failure_delivers_nothing
      { Env.plentiful 0 40 false with
        CallIntMethod := fun m => if m = .j_recording_delay_id_ then -1 else 40 }
      (SinkEnv.offering 0 0 []) World.duplex16kMono 7 rfl (Or.inr (by decide))
  exact ⟨⟨w1, h1, t1⟩, ⟨w2, h2, t2⟩⟩

/-- C15: with a sink attached and both delay queries succeeding with raw
values p and q (p, q ≥ 0), DataIsRecorded returns normally having made, in
this order, the sink call SetRecordedBuffer(recording buffer, recording
frames-per-buffer), the two delay calls on the device, and the sink calls
SetVQEData(p & 0xFFFF, q & 0xFFFF, 0) and DeliverRecordedData, each once;
this is so whatever DeliverRecordedData returns, and nothing else changes. -/
theorem DataIsRecorded_delivers_once (env : Env) (sinkEnv : SinkEnv) (w : World)
    (sink p q : Nat)
    (hsink : w.adapter.audio_device_buffer_ = some sink)
    (hp : env.CallIntMethod .j_playout_delay_id_ = (p : Int))
    (hq : env.CallIntMethod .j_recording_delay_id_ = (q : Int)) :
    DataIsRecorded env sinkEnv w =
      .ok { w with trace := w.trace ++
              [.sinkCall sink (.SetRecordedBuffer w.adapter.recording_data_
                  w.adapter.rec_frames_per_buffer_),
               .deviceCall .j_playout_delay_id_,
               .deviceCall .j_recording_delay_id_,
               .sinkCall sink (.SetVQEData (p &&& 0xFFFF) (q &&& 0xFFFF) 0),
               .sinkCall sink .DeliverRecordedData] } ∧
    ∀ w', DataIsRecorded env sinkEnv w = .ok w' →
      sinkCalls w'.trace = sinkCalls w.trace ++
        [.SetRecordedBuffer w.adapter.recording_data_ w.adapter.rec_frames_per_buffer_,
         .SetVQEData (p &&& 0xFFFF) (q &&& 0xFFFF) 0,
         .DeliverRecordedData] := by
  have hpn : ¬ ((p : Int) < 0) := by omega
  have hqn : ¬ ((q : Int) < 0) := by omega
  have hmain : DataIsRecorded env sinkEnv w =
      .ok { w with trace := w.trace ++
              [.sinkCall sink (.SetRecordedBuffer w.adapter.recording_data_
                  w.adapter.rec_frames_per_buffer_),
               .deviceCall .j_playout_delay_id_,
               .deviceCall .j_recording_delay_id_,
               .sinkCall sink (.SetVQEData (p &&& 0xFFFF) (q &&& 0xFFFF) 0),
               .sinkCall sink .DeliverRecordedData] } := by
    unfold DataIsRecorded
    simp [hsink, callSink, PlayoutDelay, RecordingDelay, Delay, CallIntMethod, hp, hq, hpn,
      hqn, land_mask16_and]
  refine ⟨hmain, fun w' hw' => ?_⟩
  rw [hmain] at hw'
  cases hw'
  simp [sinkCalls_append, sinkCalls]

/-- C15 at concrete inputs, on the world with both directions configured:
the device answers 65537 to both delay methods and the sink's delivery
returns -1. -/
theorem DataIsRecorded_delivers_once_witness :
    DataIsRecorded (Env.plentiful 0 65537 false)
        { SinkEnv.offering 0 0 [] with DeliverRecordedData := -1 } World.duplex16kMono =
      .ok { World.duplex16kMono with trace := World.duplex16kMono.trace ++
              [.sinkCall 7 (.SetRecordedBuffer (some 1320) 160),
               .deviceCall .j_playout_delay_id_,
               .deviceCall .j_recording_delay_id_,
               .sinkCall 7 (.SetVQEData 1 1 0),
               .sinkCall 7 .DeliverRecordedData] } :=
  (DataIsRecorded_delivers_once (Env.plentiful 0 65537 false)
    { SinkEnv.offering 0 0 [] with DeliverRecordedData := -1 } World.duplex16kMono
    7 65537 65537 rfl rfl rfl).1

/-! ## The playout path with a sink attached (C16, C17) -/

/-- C16: with a sink attached, GetPlayoutData asks the sink for exactly
play_frames_per_buffer_ samples; if the sink reports 0 samples or a negative
count, that request is the only thing that happens: the sink's copy operation
GetPlayoutData(bytes) is not invoked, the heap (so the contents of the playout
buffer) and the adapter are unchanged, and the call returns normally. When the
sink instead reports and copies exactly that count, the same request is
followed by the one copy into the playout buffer. -/
theorem GetPlayoutData_underrun_leaves_buffer (sinkEnv : SinkEnv) (w : World) (sink : Nat)
    (hsink : w.adapter.audio_device_buffer_ = some sink) :
    (sinkEnv.RequestPlayoutData w.adapter.play_frames_per_buffer_ ≤ 0 →
      GetPlayoutData sinkEnv w =
        .ok { w with trace := w.trace ++
                [.sinkCall sink (.RequestPlayoutData w.adapter.play_frames_per_buffer_)] }) ∧
    (∀ p, w.adapter.playout_data_ = some p →
      sinkEnv.RequestPlayoutData w.adapter.play_frames_per_buffer_ =
        (w.adapter.play_frames_per_buffer_ : Int) →
      sinkEnv.GetPlayoutData.1 = (w.adapter.play_frames_per_buffer_ : Int) →
      0 < w.adapter.play_frames_per_buffer_ → w.adapter.play_frames_per_buffer_ < 2 ^ 32 →
      GetPlayoutData sinkEnv w =
        .ok { w with
              heap := List.map
                (fun b => if b.addr = p then { b with contents := some sinkEnv.GetPlayoutData.2 }
                  else b) w.heap,
              trace := w.trace ++
                [.sinkCall sink (.RequestPlayoutData w.adapter.play_frames_per_buffer_),
                 .sinkCall sink (.GetPlayoutData (some p))] }) := by
  constructor
  · intro hzero
    unfold GetPlayoutData
    simp [hsink, callSink, hzero]
  · intro p hp hreq hcopy hpos hlt
    have hsz : toSizeT (w.adapter.play_frames_per_buffer_ : Int) =
        w.adapter.play_frames_per_buffer_ := toSizeT_natCast _ (by omega)
    have hnz : ¬ ((w.adapter.play_frames_per_buffer_ : Int) ≤ 0) := by omega
    unfold GetPlayoutData
    simp [hsink, callSink, hreq, hcopy, hsz, hnz, hp, copyToBuffer]

/-- C16 at concrete inputs, on the world with both directions configured
(160 playout frames, buffer at 2320): the sink reports 0 samples; and the sink
reports and copies 160 samples. -/
theorem GetPlayoutData_underrun_leaves_buffer_witness :
    GetPlayoutData (SinkEnv.offering 0 0 [9, 9]) World.duplex16kMono =
      .ok { World.duplex16kMono with trace := World.duplex16kMono.trace ++
              [.sinkCall 7 (.RequestPlayoutData 160)] } ∧
    GetPlayoutData (SinkEnv.offering 160 160 [9, 9]) World.duplex16kMono =
      .ok { World.duplex16kMono with
            heap := [{ addr := 1320, size := 320, contents := none },
                     { addr := 2320, size := 320, contents := some [9, 9] }],
            trace := World.duplex16kMono.trace ++
              [.sinkCall 7 (.RequestPlayoutData 160),
               .sinkCall 7 (.GetPlayoutData (some 2320))] } :=
  ⟨(GetPlayoutData_underrun_leaves_buffer (SinkEnv.offering 0 0 [9, 9])
      World.duplex16kMono 7 rfl).1 (by decide),
   (GetPlayoutData_underrun_leaves_buffer (SinkEnv.offering 160 160 [9, 9])
      World.duplex16kMono 7 rfl).2 2320 rfl rfl rfl (by decide) (by decide)⟩

/-- C17 fails as stated: with 160 playout frames requested and the sink
reporting 100 samples, GetPlayoutData does not return as on an underrun; it
stops at the assertion of line 887. -/
theorem GetPlayoutData_short_count_counterexample :
    World.duplex16kMono.adapter.play_frames_per_buffer_ = 160 ∧
    GetPlayoutData (SinkEnv.offering 100 100 [9, 9]) World.duplex16kMono =
      .error .countMismatch :=
  ⟨rfl, rfl⟩

/-- C17 as amended: with a sink attached, if sink.RequestPlayoutData yields a
positive sample count that is fewer than the requested playout
frames-per-buffer, GetPlayoutData stops with the assertion fault of line 887
(RTC_DCHECK_EQ on the count), which is reached before the sink's copy
operation. -/
theorem GetPlayoutData_short_count_asserts (sinkEnv : SinkEnv) (w : World) (sink : Nat)
    (hsink : w.adapter.audio_device_buffer_ = some sink)
    (hpos : 0 < sinkEnv.RequestPlayoutData w.adapter.play_frames_per_buffer_)
    (hshort : sinkEnv.RequestPlayoutData w.adapter.play_frames_per_buffer_ <
      (w.adapter.play_frames_per_buffer_ : Int)) :
    GetPlayoutData sinkEnv w = .error .countMismatch := by
  have hnz : ¬ (sinkEnv.RequestPlayoutData w.adapter.play_frames_per_buffer_ ≤ 0) := by omega
  have hne : toSizeT (sinkEnv.RequestPlayoutData w.adapter.play_frames_per_buffer_) ≠
      w.adapter.play_frames_per_buffer_ := by
    obtain ⟨n, hn⟩ := Int.eq_ofNat_of_zero_le hpos.le
    rw [hn] at hshort ⊢
    have hcast : ((n : Int) % 2 ^ 64) = ((n % 2 ^ 64 : Nat) : Int) := by norm_cast
    have hval : toSizeT (n : Int) = n % 2 ^ 64 := by
      unfold toSizeT
      rw [hcast]
      exact Int.toNat_natCast _
    have hle := Nat.mod_le n (2 ^ 64)
    rw [hval]
    omega
  unfold GetPlayoutData
  simp [hsink, callSink, hnz, hne]

/-- C17 as amended, at the counterexample's input: 100 samples offered for
160 requested. -/
theorem GetPlayoutData_short_count_asserts_witness :
    GetPlayoutData (SinkEnv.offering 100 100 [9, 9]) World.duplex16kMono =
      .error .countMismatch :=
  GetPlayoutData_short_count_asserts (SinkEnv.offering 100 100 [9, 9]) World.duplex16kMono 7
    rfl (by decide) (by decide)

/-! ## What a configuration call does to a direction -/

/-- The second example world is what configuring playout on the first gives. -/
theorem duplex16kMono_reached :
    SetPlayoutSampleRate 1 (Env.plentiful 2000 0 false) 16000 World.recording16kMono =
      .ok (0, World.duplex16kMono) :=
  rfl

/-- First configuration of the playout direction with a non-zero size: the
direction then holds the block the allocator returned. -/
theorem SetPlayoutSampleRate_first_holds (current : Nat) (env : Env) (r c sink p : Nat)
    (w : World)
    (hvalid : (w.adapter.thread_checker_.CalledOnValidThread current).1 = true)
    (hsink : w.adapter.audio_device_buffer_ = some sink)
    (hch : w.adapter._playChannels = c) (hr : r < 2 ^ 32) (hc : c = 1 ∨ c = 2)
    (hdata : w.adapter.playout_data_ = none) (hsz : w.adapter.playout_data_size_ = 0)
    (hb : r / 100 * c * 2 ≠ 0)
    (hp : env.newArray (r / 100 * c * 2) = some p) :
    ∃ w', SetPlayoutSampleRate current env r w = .ok (0, w') ∧
      w'.adapter.playout_data_ = some p ∧
      w'.adapter.playout_data_size_ = r / 100 * c * 2 ∧
      w'.adapter.play_frames_per_buffer_ = r / 100 ∧
      w'.adapter._playChannels = c ∧
      w'.adapter.audio_device_buffer_ = some sink ∧
      (w'.adapter.thread_checker_.CalledOnValidThread current).1 = true := by
  have hlt : r / 100 % 2 ^ 32 = r / 100 := Nat.mod_eq_of_lt (by omega)
  have hb' : ¬ (0 = r / 100 * c * 2) := fun h => hb h.symm
  rw [SetPlayoutSampleRate_eq current env r w sink hvalid hsink, hch,
    SetupBuffer_eq env r c _ _ _ _ _ hr hc]
  simp [World.boundTo, JavaAppAudioDevice.loadSize, JavaAppAudioDevice.loadData,
    JavaAppAudioDevice.storeFrames, JavaAppAudioDevice.storeData,
    JavaAppAudioDevice.storeSize, SetObjectField, hsz, hb, hb', hdata, hp,
    hlt, hch, hsink, ThreadChecker.CalledOnValidThread]
  omega

/-- Reconfiguring a playout direction that holds a buffer of another size,
the allocation succeeding, stops at the null write. -/
theorem SetPlayoutSampleRate_resize_faults (current : Nat) (env : Env) (r c sink p q : Nat)
    (w : World)
    (hvalid : (w.adapter.thread_checker_.CalledOnValidThread current).1 = true)
    (hsink : w.adapter.audio_device_buffer_ = some sink)
    (hch : w.adapter._playChannels = c) (hr : r < 2 ^ 32) (hc : c = 1 ∨ c = 2)
    (hdata : w.adapter.playout_data_ = some q)
    (hsz : w.adapter.playout_data_size_ ≠ r / 100 * c * 2)
    (hp : env.newArray (r / 100 * c * 2) = some p) :
    SetPlayoutSampleRate current env r w = .error .nullDereference := by
  rw [SetPlayoutSampleRate_eq current env r w sink hvalid hsink, hch,
    SetupBuffer_eq env r c _ _ _ _ _ hr hc]
  simp [World.boundTo, JavaAppAudioDevice.loadSize, JavaAppAudioDevice.loadData, hsz, hdata,
    hp]

/-! ## Toggling stereo playout (C18) -/

/-- C18 on the code: on a freshly created adapter, after SetStereoPlayout(true)
and SetPlayoutSampleRate(r) with r at least 100 the playout direction holds a
buffer of (r / 100) * 2 * 2 bytes; after SetStereoPlayout(false) the channel
count is 1, but the second SetPlayoutSampleRate(r), which has to resize to
(r / 100) * 2 bytes, stops at the null write of line 950 instead of recording
the mono size (the allocations succeeding). -/
theorem stereo_toggle_reconfiguration_faults (creator : Nat) (id : Int) (junk : Indeterminate)
    (sink current : Nat) (env env' : Env) (r : Nat) (hr : r < 2 ^ 32) (h100 : 100 ≤ r)
    (halloc : (env.newArray (r / 100 * 2 * 2)).isSome)
    (halloc' : (env'.newArray (r / 100 * 1 * 2)).isSome) :
    ∃ w0 w1 w2 w3, World.created creator id junk sink = .ok w0 ∧
      SetStereoPlayout true w0 = (0, w1) ∧
      SetPlayoutSampleRate current env r w1 = .ok (0, w2) ∧
      w2.adapter.playout_data_size_ = r / 100 * 2 * 2 ∧
      SetStereoPlayout false w2 = (0, w3) ∧
      w3.adapter._playChannels = 1 ∧
      SetPlayoutSampleRate current env' r w3 = .error .nullDereference := by
  obtain ⟨p, hp⟩ := Option.isSome_iff_exists.mp halloc
  obtain ⟨p', hp'⟩ := Option.isSome_iff_exists.mp halloc'
  obtain ⟨w0, h0, hth, hsk, _, _, _, hpd, _, hps, _⟩ := created_ok creator id junk sink
  have hv0 := detached_valid current w0 hth
  have h1 : 1 ≤ r / 100 := by omega
  obtain ⟨w2, h2, hd2, hs2, _, _, hk2, hv2⟩ :=
    SetPlayoutSampleRate_first_holds current env r 2 sink p
      { w0 with adapter := { w0.adapter with _playChannels := 2 } }
      hv0 hsk rfl hr (Or.inr rfl) hpd hps (by omega) hp
  refine ⟨w0, _, w2, { w2 with adapter := { w2.adapter with _playChannels := 1 } }, h0, rfl,
    h2, hs2, rfl, rfl, ?_⟩
  exact SetPlayoutSampleRate_resize_faults current env' r 1 sink p' p
    { w2 with adapter := { w2.adapter with _playChannels := 1 } }
    hv2 hk2 rfl hr (Or.inl rfl) hd2
    (by show w2.adapter.playout_data_size_ ≠ _; rw [hs2]; omega) hp'

/-- C18 at 16000 Hz: 640 bytes are recorded for stereo, and the second
configuration, in mono, faults. -/
theorem stereo_toggle_reconfiguration_faults_witness :
    ∃ w0 w1 w2 w3, World.created 9 0 ⟨0, 0, none⟩ 7 = .ok w0 ∧
      SetStereoPlayout true w0 = (0, w1) ∧
      SetPlayoutSampleRate 1 (Env.plentiful 1000 0 false) 16000 w1 = .ok (0, w2) ∧
      w2.adapter.playout_data_size_ = 640 ∧
      SetStereoPlayout false w2 = (0, w3) ∧
      w3.adapter._playChannels = 1 ∧
      SetPlayoutSampleRate 1 (Env.plentiful 1000 0 false) 16000 w3 =
        .error .nullDereference :=
  stereo_toggle_reconfiguration_faults 9 0 ⟨0, 0, none⟩ 7 1 (Env.plentiful 1000 0 false)
    (Env.plentiful 1000 0 false) 16000 (by decide) (by decide) (by decide) (by decide)

/-! ## The size invariant (C19) -/

/-- A check made from a thread other than the bound one fails. -/
theorem RTC_DCHECK_fails (current T : Nat) (w : World)
    (hbound : w.adapter.thread_checker_.valid_thread_ = some T) (hne : current ≠ T) :
    RTC_DCHECK_CalledOnValidThread current w = .error .affinity := by
  have hne' : ¬ (T = current) := fun h => hne h.symm
  unfold RTC_DCHECK_CalledOnValidThread ThreadChecker.CalledOnValidThread
  simp [hbound, hne']

/-- C20 fails as stated: with the guard bound to thread 1, Init called from
thread 2 raises the affinity fault, but the delay queries and the
warning/error queries and clears have no calling thread to check: they make no
`RTC_DCHECK` and complete, with their one device call. -/
theorem affinity_check_counterexample :
    World.duplex16kMono.adapter.thread_checker_.valid_thread_ = some 1 ∧
    Init 2 (Env.plentiful 0 25 true) World.duplex16kMono = .error .affinity ∧
    PlayoutDelay (Env.plentiful 0 25 true) 0 World.duplex16kMono =
      (0, 25, World.duplex16kMono.called .j_playout_delay_id_) ∧
    RecordingDelay (Env.plentiful 0 25 true) 0 World.duplex16kMono =
      (0, 25, World.duplex16kMono.called .j_recording_delay_id_) ∧
    PlayoutWarning (Env.plentiful 0 25 true) World.duplex16kMono =
      (true, World.duplex16kMono.called .j_playout_warning_id_) ∧
    ClearRecordingError World.duplex16kMono =
      World.duplex16kMono.called .j_clear_recording_error_id_ :=
  ⟨rfl, rfl, rfl, rfl, rfl, rfl⟩

/-- C20 as amended: once the guard is bound to a thread T, these operations
raise the affinity fault when invoked from another thread: Init, Terminate,
Initialized, PlayoutIsAvailable, InitPlayout, PlayoutIsInitialized,
RecordingIsAvailable, InitRecording, RecordingIsInitialized, StartPlayout,
StopPlayout, Playing, StartRecording, StopRecording, Recording,
StereoPlayoutIsAvailable, StereoRecordingIsAvailable, and of the channel-count
bookkeeping StereoPlayout, SetStereoRecording and StereoRecording. The
warning/error queries and clears, the delay queries, SetAGC, AGC and
SetStereoPlayout make no affinity check: whatever the binding, they complete
and leave the guard as it is. -/
theorem affinity_check_coverage (current T : Nat) (env : Env) (flag : Bool) (delayMS : Nat)
    (w : World)
    (hbound : w.adapter.thread_checker_.valid_thread_ = some T) (hne : current ≠ T) :
    (Init current env w = .error .affinity ∧
     Terminate current env w = .error .affinity ∧
     Initialized current env w = .error .affinity ∧
     PlayoutIsAvailable current env flag w = .error .affinity ∧
     InitPlayout current env w = .error .affinity ∧
     PlayoutIsInitialized current env w = .error .affinity ∧
     RecordingIsAvailable current env flag w = .error .affinity ∧
     InitRecording current env w = .error .affinity ∧
     RecordingIsInitialized current env w = .error .affinity ∧
     StartPlayout current env w = .error .affinity ∧
     StopPlayout current env w = .error .affinity ∧
     Playing current env w = .error .affinity ∧
     StartRecording current env w = .error .affinity ∧
     StopRecording current env w = .error .affinity ∧
     Recording current env w = .error .affinity ∧
     StereoPlayoutIsAvailable current env flag w = .error .affinity ∧
     StereoRecordingIsAvailable current env flag w = .error .affinity) ∧
    (StereoPlayout current flag w = .error .affinity ∧
     SetStereoRecording current flag w = .error .affinity ∧
     StereoRecording current flag w = .error .affinity) ∧
    (PlayoutWarning env w =
       (env.CallBooleanMethod .j_playout_warning_id_, w.called .j_playout_warning_id_) ∧
     PlayoutError env w =
       (env.CallBooleanMethod .j_playout_error_id_, w.called .j_playout_error_id_) ∧
     RecordingWarning env w =
       (env.CallBooleanMethod .j_recording_warning_id_, w.called .j_recording_warning_id_) ∧
     RecordingError env w =
       (env.CallBooleanMethod .j_recording_error_id_, w.called .j_recording_error_id_) ∧
     ClearPlayoutWarning w = w.called .j_clear_playout_warning_id_ ∧
     ClearPlayoutError w = w.called .j_clear_playout_error_id_ ∧
     ClearRecordingWarning w = w.called .j_clear_recording_warning_id_ ∧
     ClearRecordingError w = w.called .j_clear_recording_error_id_ ∧
     (PlayoutDelay env delayMS w).2.2 = w.called .j_playout_delay_id_ ∧
     (RecordingDelay env delayMS w).2.2 = w.called .j_recording_delay_id_) ∧
    (SetAGC flag w = (0, { w with adapter := { w.adapter with _AGC := flag } }) ∧
     AGC w = (w.adapter._AGC, w) ∧
     SetStereoPlayout flag w =
       (0, { w with adapter := { w.adapter with _playChannels := if flag then 2 else 1 } })) := by
  have h := RTC_DCHECK_fails current T w hbound hne
  refine ⟨⟨?_, ?_, ?_, ?_, ?_, ?_, ?_, ?_, ?_, ?_, ?_, ?_, ?_, ?_, ?_, ?_, ?_⟩, ⟨?_, ?_, ?_⟩,
    ⟨rfl, rfl, rfl, rfl, rfl, rfl, rfl, rfl, ?_, ?_⟩, ⟨rfl, rfl, SetStereoPlayout_eq flag w⟩⟩
  · simp only [Init, h]
  · simp only [Terminate, h]
  · simp only [Initialized, h]
  · simp only [PlayoutIsAvailable, h]
  · simp only [InitPlayout, h]
  · simp only [PlayoutIsInitialized, h]
  · simp only [RecordingIsAvailable, h]
  · simp only [InitRecording, h]
  · simp only [RecordingIsInitialized, h]
  · simp only [StartPlayout, h]
  · simp only [StopPlayout, h]
  · simp only [Playing, h]
  · simp only [StartRecording, h]
  · simp only [StopRecording, h]
  · simp only [Recording, h]
  · simp only [StereoPlayoutIsAvailable, h]
  · simp only [StereoRecordingIsAvailable, h]
  · simp only [StereoPlayout, h]
  · simp only [SetStereoRecording, h]
  · simp only [StereoRecording, h]
  · simp only [PlayoutDelay, Delay, CallIntMethod, World.called]
    split <;> rfl
  · simp only [RecordingDelay, Delay, CallIntMethod, World.called]
    split <;> rfl

/-- C20 as amended, at a concrete input: the guard of the world with both
directions configured is bound to thread 1 and the caller is thread 2;
StartPlayout faults, SetStereoRecording faults, PlayoutError completes. -/
theorem affinity_check_coverage_witness :
    StartPlayout 2 (Env.plentiful 0 25 true) World.duplex16kMono = .error .affinity ∧
    SetStereoRecording 2 true World.duplex16kMono = .error .affinity ∧
    PlayoutError (Env.plentiful 0 25 true) World.duplex16kMono =
      (true, World.duplex16kMono.called .j_playout_error_id_) :=
  ⟨(affinity_check_coverage 2 1 (Env.plentiful 0 25 true) true 0 World.duplex16kMono rfl
      (by decide)).1.2.2.2.2.2.2.2.2.2.1,
   (affinity_check_coverage 2 1 (Env.plentiful 0 25 true) true 0 World.duplex16kMono rfl
      (by decide)).2.1.2.1,
   (affinity_check_coverage 2 1 (Env.plentiful 0 25 true) true 0 World.duplex16kMono rfl
      (by decide)).2.2.1.2.1⟩

/-! ## The two detach points of the guard (C22) -/

theorem deviceCalls_append (t u : List Event) :
    deviceCalls (t ++ u) = deviceCalls t ++ deviceCalls u := by
  induction t with
  | nil => rfl
  | cons e t ih => cases e <;> simp [deviceCalls, ih]

/-- C22: (1) the constructor run on any thread `creator` finds the guard bound
to that thread (a check from `current` would pass there only when `current` is
`creator`) and detaches it, so after construction the guard is unbound and the
thread check of the first checked call passes from any thread `current` and
binds the guard to that thread (shown on the check itself, which every checked
operation starts with, and on Init); (2) the destructor, run from any thread
and whatever thread the guard is bound to, detaches before it calls Terminate,
so it never stops at the affinity fault: it completes, having called the
device's terminate once and released both buffers. -/
theorem guard_detach_points (creator : Nat) (id : Int) (junk : Indeterminate)
    (current : Nat) (env : Env) (w : World) :
    ((JavaAppAudioDevice.initialised creator id junk).thread_checker_.valid_thread_ =
        some creator ∧
      ((JavaAppAudioDevice.initialised creator id junk).thread_checker_.CalledOnValidThread
        current).1 = decide (creator = current) ∧
      (World.constructed creator id junk).adapter.thread_checker_.valid_thread_ = none ∧
      RTC_DCHECK_CalledOnValidThread current (World.constructed creator id junk) =
        .ok ((World.constructed creator id junk).boundTo current) ∧
      Init current env (World.constructed creator id junk) =
        .ok (env.CallIntMethod .j_init_id_,
          ((World.constructed creator id junk).boundTo current).called .j_init_id_)) ∧
    (Terminate current env (w.withGuard w.adapter.thread_checker_.DetachFromThread) =
        .ok (env.CallIntMethod .j_terminate_id_,
          (w.boundTo current).called .j_terminate_id_) ∧
      ∃ w', destructor current env w = .ok w' ∧
        w'.adapter.thread_checker_.valid_thread_ = some current ∧
        w'.adapter.playout_data_ = none ∧ w'.adapter.recording_data_ = none ∧
        deviceCalls w'.trace = deviceCalls w.trace ++ [.j_terminate_id_]) := by
  have hterm : Terminate current env (w.withGuard w.adapter.thread_checker_.DetachFromThread) =
      .ok (env.CallIntMethod .j_terminate_id_,
        (w.boundTo current).called .j_terminate_id_) := by
    simp [Terminate, RTC_DCHECK_CalledOnValidThread, ThreadChecker.CalledOnValidThread,
      ThreadChecker.DetachFromThread, World.withGuard, CallIntMethod, World.boundTo,
      World.called]
  refine ⟨⟨rfl, rfl, rfl, rfl, rfl⟩, hterm, ?_⟩
  have hdet : ({ w with adapter :=
      { w.adapter with thread_checker_ := w.adapter.thread_checker_.DetachFromThread } } : World)
      = w.withGuard w.adapter.thread_checker_.DetachFromThread := rfl
  unfold destructor
  simp only [hdet, hterm]
  cases hp : w.adapter.playout_data_ <;> cases hr : w.adapter.recording_data_ <;>
    simp [World.boundTo, World.called, delete, hp, hr, deviceCalls_append, deviceCalls]

/-! ## AGC flag storage (C25) -/

/-- C25: a freshly constructed adapter reports AGC() = false; for every
boolean e, SetAGC(e) returns 0 and a following AGC() returns e; neither
operation takes a calling thread or makes a thread check, so both succeed
whatever the guard's binding; the world after SetAGC differs from the one
before in the flag only, and AGC hands the world back as it is (no device
call, no other state). -/
theorem AGC_flag_storage (creator : Nat) (id : Int) (junk : Indeterminate) (e : Bool) (w : World) :
    (AGC (World.constructed creator id junk)).1 = false ∧
    SetAGC e w = (0, { w with adapter := { w.adapter with _AGC := e } }) ∧
    AGC (SetAGC e w).2 = (e, (SetAGC e w).2) ∧
    AGC w = (w.adapter._AGC, w) ∧
    (SetAGC e w).2.trace = w.trace ∧
    (SetAGC e w).2.adapter.thread_checker_ = w.adapter.thread_checker_ :=
  ⟨rfl, rfl, rfl, rfl, rfl, rfl⟩

/-! ## Attaching the audio buffer (C26) -/

/-- C26: AttachAudioBuffer(sink) stores the sink pointer, which is the one
the data path then calls through, and makes exactly four calls on the sink:
SetRecordingSampleRate(0), SetPlayoutSampleRate(0), SetRecordingChannels(1),
SetPlayoutChannels(1). This is so whatever the adapter's own channel counts
and buffers are; apart from the pointer, the adapter, the heap and the Java
fields are unchanged. -/
theorem AttachAudioBuffer_registers_and_resets (sink : Nat) (sinkEnv : SinkEnv) (w : World) :
    AttachAudioBuffer (some sink) w =
      .ok { w with
            adapter := { w.adapter with audio_device_buffer_ := some sink },
            trace := w.trace ++
              [.sinkCall sink (.SetRecordingSampleRate 0),
               .sinkCall sink (.SetPlayoutSampleRate 0),
               .sinkCall sink (.SetRecordingChannels 1),
               .sinkCall sink (.SetPlayoutChannels 1)] } ∧
    ∃ w1 w2, AttachAudioBuffer (some sink) w = .ok w1 ∧
      GetPlayoutData { sinkEnv with RequestPlayoutData := fun _ => 0 } w1 = .ok w2 ∧
      w2.trace = w1.trace ++
        [.sinkCall sink (.RequestPlayoutData w.adapter.play_frames_per_buffer_)] := by
  have h : AttachAudioBuffer (some sink) w =
      .ok { w with
            adapter := { w.adapter with audio_device_buffer_ := some sink },
            trace := w.trace ++
              [.sinkCall sink (.SetRecordingSampleRate 0),
               .sinkCall sink (.SetPlayoutSampleRate 0),
               .sinkCall sink (.SetRecordingChannels 1),
               .sinkCall sink (.SetPlayoutChannels 1)] } := by
    simp [AttachAudioBuffer, callSink]
  refine ⟨h, _, { w with
      adapter := { w.adapter with audio_device_buffer_ := some sink },
      trace := (w.trace ++
        [.sinkCall sink (.SetRecordingSampleRate 0),
         .sinkCall sink (.SetPlayoutSampleRate 0),
         .sinkCall sink (.SetRecordingChannels 1),
         .sinkCall sink (.SetPlayoutChannels 1)]) ++
        [.sinkCall sink (.RequestPlayoutData w.adapter.play_frames_per_buffer_)] }, h, ?_, rfl⟩
  simp [GetPlayoutData, callSink]

/-! ## Teardown of the wrapped module (C23) -/

/-- C23: freeWrappedAppAudioDeviceModule, called on a module whose reference
count is n ≥ 1 and which has not been destroyed, refuses iff n > 1: it then
leaves the RuntimeException pending, does not destroy the module and leaves
the count at n; when n = 1 it raises nothing and destroys the module exactly
once. The count n = 1 is the one nativeWrapAppAudioDeviceModule leaves. -/
theorem freeWrapped_refuses_iff_shared (n : Int) (hn : 1 ≤ n) :
    (1 < n →
      freeWrappedAppAudioDeviceModule { ref_count_ := n, destroyed := 0 } =
        (some activeReferencesMessage, { ref_count_ := n, destroyed := 0 })) ∧
    (n = 1 →
      freeWrappedAppAudioDeviceModule { ref_count_ := n, destroyed := 0 } =
        (none, { ref_count_ := 1, destroyed := 1 })) ∧
    ((freeWrappedAppAudioDeviceModule { ref_count_ := n, destroyed := 0 }).1.isSome ↔ 1 < n) ∧
    (∀ attachStatus, attachStatus ≠ -1 →
      nativeWrapAppAudioDeviceModule attachStatus = .ok { ref_count_ := 1, destroyed := 0 }) := by
  have hstep : ∀ k : Int, 1 ≤ k →
      freeWrappedAppAudioDeviceModule { ref_count_ := k, destroyed := 0 } =
        if k > 1 then (some activeReferencesMessage, { ref_count_ := k, destroyed := 0 })
        else (none, { ref_count_ := k, destroyed := 1 }) := by
    intro k hk
    have h0 : ¬ (k = 0) := by omega
    simp [freeWrappedAppAudioDeviceModule, RefCountImpl.AddRef, RefCountImpl.Release,
      RefCountImpl.delete, h0]
  refine ⟨fun h => ?_, fun h => ?_, ?_, fun a ha => ?_⟩
  · rw [hstep n hn, if_pos h]
  · subst h
    rw [hstep 1 hn]
    rfl
  · rw [hstep n hn]
    by_cases h : n > 1
    · simp [h]
    · simp [h]
  · simp [nativeWrapAppAudioDeviceModule, JavaAppAudioDeviceModule_Create, ha, scoped_refptr,
      RefCountImpl.AddRef, RefCountImpl.Release]

/-- C23 at concrete inputs: a module with three references is refused, the
wrapped module with its one reference is destroyed. -/
theorem freeWrapped_refuses_iff_shared_witness :
    freeWrappedAppAudioDeviceModule { ref_count_ := 3, destroyed := 0 } =
      (some activeReferencesMessage, { ref_count_ := 3, destroyed := 0 }) ∧
    freeWrappedAppAudioDeviceModule { ref_count_ := 1, destroyed := 0 } =
      (none, { ref_count_ := 1, destroyed := 1 }) :=
  ⟨(freeWrapped_refuses_iff_shared 3 (by decide)).1 (by decide),
   (freeWrapped_refuses_iff_shared 1 (by decide)).2.1 rfl⟩

/-! ## The reference count (C24) -/

theorem addRefs_eq (n : Nat) (m : RefCountImpl) :
    RefCountImpl.addRefs n m = { m with ref_count_ := m.ref_count_ + n } := by
  induction n generalizing m with
  | zero => simp [RefCountImpl.addRefs]
  | succ n ih =>
    simp only [RefCountImpl.addRefs, ih, RefCountImpl.AddRef]
    have : m.ref_count_ + 1 + (n : Int) = m.ref_count_ + ((n + 1 : Nat) : Int) := by
      push_cast; ring
    simp [this]

theorem releases_eq (n : Nat) (m : RefCountImpl) (h : (n : Int) < m.ref_count_) :
    RefCountImpl.releases n m = { m with ref_count_ := m.ref_count_ - n } := by
  induction n generalizing m with
  | zero => simp [RefCountImpl.releases]
  | succ n ih =>
    have h0 : ¬ (m.ref_count_ - 1 = 0) := by push_cast at h; omega
    have hm : (m.Release).2 = { m with ref_count_ := m.ref_count_ - 1 } := by
      simp [RefCountImpl.Release, h0]
    simp only [RefCountImpl.releases, hm]
    rw [ih _ (by push_cast at h; simp; omega)]
    have : m.ref_count_ - 1 - (n : Int) = m.ref_count_ - ((n + 1 : Nat) : Int) := by
      push_cast; ring
    simp [this]

theorem releases_succ (n : Nat) (m : RefCountImpl) :
    RefCountImpl.releases (n + 1) m = ((RefCountImpl.releases n m).Release).2 := by
  induction n generalizing m with
  | zero => rfl
  | succ n ih =>
    show RefCountImpl.releases (n + 1) (m.Release).2 = _
    rw [ih]
    rfl

/-- C24: for every N ≥ 1, on a new module (count 0, never destroyed), after N
AddRef calls none of the first N - 1 Release calls destroys the module, and
the Nth Release returns 0 and runs the destructive path, once; and a Release
made while other holders remain (count above 1) does not destroy the
module. -/
theorem reference_count_invariant (N : Nat) (hN : 1 ≤ N) (m : RefCountImpl) :
    (∀ k, k < N →
      (RefCountImpl.releases k
        (RefCountImpl.addRefs N { ref_count_ := 0, destroyed := 0 })).destroyed = 0) ∧
    RefCountImpl.Release (RefCountImpl.releases (N - 1)
        (RefCountImpl.addRefs N { ref_count_ := 0, destroyed := 0 })) =
      (0, { ref_count_ := 0, destroyed := 1 }) ∧
    RefCountImpl.releases N (RefCountImpl.addRefs N { ref_count_ := 0, destroyed := 0 }) =
      { ref_count_ := 0, destroyed := 1 } ∧
    (1 < m.ref_count_ → (m.Release).2.destroyed = m.destroyed) := by
  have hadd : RefCountImpl.addRefs N { ref_count_ := 0, destroyed := 0 } =
      { ref_count_ := (N : Int), destroyed := 0 } := by
    rw [addRefs_eq]
    simp
  have hrel : ∀ k, k < N →
      RefCountImpl.releases k { ref_count_ := (N : Int), destroyed := 0 } =
        { ref_count_ := (N : Int) - k, destroyed := 0 } := by
    intro k hk
    rw [releases_eq k _ (by simpa using hk)]
  have hlast : RefCountImpl.Release (RefCountImpl.releases (N - 1)
      { ref_count_ := (N : Int), destroyed := 0 }) = (0, { ref_count_ := 0, destroyed := 1 }) := by
    rw [hrel (N - 1) (by omega)]
    have h1 : (N : Int) - ((N - 1 : Nat) : Int) - 1 = 0 := by omega
    simp [RefCountImpl.Release, h1]
  rw [hadd]
  refine ⟨fun k hk => ?_, hlast, ?_, fun h => ?_⟩
  · rw [hrel k hk]
  · obtain ⟨n, rfl⟩ : ∃ n, N = n + 1 := ⟨N - 1, by omega⟩
    rw [releases_succ]
    have := hlast
    simp only [Nat.add_sub_cancel] at this
    rw [this]
  · have h0 : ¬ (m.ref_count_ - 1 = 0) := by omega
    simp [RefCountImpl.Release, h0]

/-- C24 at N = 3: two Release calls leave the module alive, the third
destroys it. -/
theorem reference_count_invariant_witness :
    (RefCountImpl.releases 2
        (RefCountImpl.addRefs 3 { ref_count_ := 0, destroyed := 0 })).destroyed = 0 ∧
    RefCountImpl.releases 3 (RefCountImpl.addRefs 3 { ref_count_ := 0, destroyed := 0 }) =
      { ref_count_ := 0, destroyed := 1 } :=
  ⟨(reference_count_invariant 3 (by decide) { ref_count_ := 0, destroyed := 0 }).1 2
      (by decide),
   (reference_count_invariant 3 (by decide) { ref_count_ := 0, destroyed := 0 }).2.2.1⟩

/-! ## No overflow in the sizing (C29) -/

/-- C29: for every unsigned 32-bit sample rate r and every channel count c in
{1, 2}, the `int bufferSize` that SetupBuffer computes, the product of
`bytesPerFrame` converted to unsigned and `*framesPerBuffer` taken modulo 2^32
and converted back to `int`, is the exact value (c * 2) * (r / 100); it is
non-negative and at most 171798688, and its conversion to `size_t` is the
same number. So SetupBuffer compares the recorded size with the true byte
size (equal sizes: nothing but frames-per-buffer is written) and, on a
direction without a buffer, asks the allocator for exactly that many bytes
(and completes when the allocator provides them). -/
theorem bufferSize_never_overflows (env : Env) (r c : Nat) (dataSize : SizeField)
    (data : DataField) (framesPerBuffer : FramesField) (bufferField : BufferField)
    (w : World) (hr : r < 2 ^ 32) (hc : c = 1 ∨ c = 2) :
    toInt32 (toUInt32 ((c : Int) * (BITS_PER_SAMPLE / 8)) *
        (r / toUInt32 BUFFERS_PER_SECOND % 2 ^ 32)) = (((c * 2) * (r / 100) : Nat) : Int) ∧
    (0 : Int) ≤ toInt32 (toUInt32 ((c : Int) * (BITS_PER_SAMPLE / 8)) *
        (r / toUInt32 BUFFERS_PER_SECOND % 2 ^ 32)) ∧
    toInt32 (toUInt32 ((c : Int) * (BITS_PER_SAMPLE / 8)) *
        (r / toUInt32 BUFFERS_PER_SECOND % 2 ^ 32)) ≤ 171798688 ∧
    toSizeT (toInt32 (toUInt32 ((c : Int) * (BITS_PER_SAMPLE / 8)) *
        (r / toUInt32 BUFFERS_PER_SECOND % 2 ^ 32))) = (c * 2) * (r / 100) ∧
    (w.adapter.loadSize dataSize = (c * 2) * (r / 100) →
      SetupBuffer env r c dataSize data framesPerBuffer bufferField w =
        .ok { w with adapter := w.adapter.storeFrames framesPerBuffer (r / 100) }) ∧
    (w.adapter.loadSize dataSize ≠ (c * 2) * (r / 100) → w.adapter.loadData data = none →
      ∃ w' rest, SetupBuffer env r c dataSize data framesPerBuffer bufferField w =
          (if (env.newArray ((c * 2) * (r / 100))).isSome then .ok w'
           else .error (.badAlloc w')) ∧
        w'.trace = w.trace ++
          .newArray ((c * 2) * (r / 100)) (env.newArray ((c * 2) * (r / 100))) :: rest) := by
  have hcomm : (c * 2) * (r / 100) = r / 100 * c * 2 := by ring
  have hexact := bufferSize_exact r c hr hc
  have hlt := byteSize_lt r c hr hc
  rw [toUInt32_BUFFERS_PER_SECOND, hexact, hcomm]
  refine ⟨rfl, by omega, ?_, toSizeT_natCast _ hlt, fun hsize => ?_, fun hne hnone => ?_⟩
  · have : r / 100 * c * 2 ≤ 171798688 := by
      rcases hc with rfl | rfl <;> omega
    exact_mod_cast this
  · rw [SetupBuffer_eq env r c dataSize data framesPerBuffer bufferField w hr hc]
    simp [hsize]
  · rw [SetupBuffer_eq env r c dataSize data framesPerBuffer bufferField w hr hc]
    cases hn : env.newArray (r / 100 * c * 2) with
    | none =>
      refine ⟨{ w with
          adapter := w.adapter.storeFrames framesPerBuffer (r / 100),
          trace := w.trace ++ [.newArray (r / 100 * c * 2) none] }, [], ?_, rfl⟩
      simp [hne, hnone]
    | some p =>
      refine ⟨SetObjectField bufferField p ((r / 100 * c * 2 : Nat) : Int)
          { w with
            adapter := ((w.adapter.storeFrames framesPerBuffer (r / 100)).storeData data
              (some p)).storeSize dataSize (r / 100 * c * 2),
            heap := w.heap ++ [{ addr := p, size := r / 100 * c * 2, contents := none }],
            trace := w.trace ++ [.newArray (r / 100 * c * 2) (some p)] },
        [.setObjectField bufferField p ((r / 100 * c * 2 : Nat) : Int)], ?_, ?_⟩
      · simp [hne, hnone]
      · cases bufferField <;> simp [SetObjectField]

/-- C29 at the largest rate, 4294967295 Hz in stereo: 171798688 bytes, and
the first configuration asks the allocator for that many. -/
theorem bufferSize_never_overflows_witness :
    toInt32 (toUInt32 ((2 : Nat) * (BITS_PER_SAMPLE / 8)) *
        (4294967295 / toUInt32 BUFFERS_PER_SECOND % 2 ^ 32)) = 171798688 ∧
    ∃ w' rest, SetupBuffer (Env.plentiful 1000 0 false) 4294967295 (2 : Nat)
        .playout_data_size_ .playout_data_ .play_frames_per_buffer_ .j_playout_buffer_id_
        World.recording16kMono = .ok w' ∧
      w'.trace = World.recording16kMono.trace ++
        .newArray 171798688 (some 171799688) :: rest := by
  have h := bufferSize_never_overflows (Env.plentiful 1000 0 false) 4294967295 2
    .playout_data_size_ .playout_data_ .play_frames_per_buffer_ .j_playout_buffer_id_
    World.recording16kMono (by decide) (by decide)
  obtain ⟨w', rest, hw, ht⟩ := h.2.2.2.2.2 (by decide) rfl
  exact ⟨h.1, w', rest, hw, ht⟩

/-! ## The data path and the guard (C21) -/

/-- What `DataIsRecorded` adds to the trace when a sink is attached. -/
theorem DataIsRecorded_eq (env : Env) (sinkEnv : SinkEnv) (w : World) (sink : Nat)
    (hs : w.adapter.audio_device_buffer_ = some sink) :
    DataIsRecorded env sinkEnv w =
      .ok { w with trace := w.trace ++
        (if env.CallIntMethod .j_playout_delay_id_ < 0 then
          [.sinkCall sink (.SetRecordedBuffer w.adapter.recording_data_
              w.adapter.rec_frames_per_buffer_),
           .deviceCall .j_playout_delay_id_]
         else if env.CallIntMethod .j_recording_delay_id_ < 0 then
          [.sinkCall sink (.SetRecordedBuffer w.adapter.recording_data_
              w.adapter.rec_frames_per_buffer_),
           .deviceCall .j_playout_delay_id_,
           .deviceCall .j_recording_delay_id_]
         else
          [.sinkCall sink (.SetRecordedBuffer w.adapter.recording_data_
              w.adapter.rec_frames_per_buffer_),
           .deviceCall .j_playout_delay_id_,
           .deviceCall .j_recording_delay_id_,
           .sinkCall sink (.SetVQEData
              (toUInt16 (Int.land (env.CallIntMethod .j_playout_delay_id_) 0xFFFF))
              (toUInt16 (Int.land (env.CallIntMethod .j_recording_delay_id_) 0xFFFF)) 0),
           .sinkCall sink .DeliverRecordedData]) } := by
  unfold DataIsRecorded
  by_cases hp : env.CallIntMethod .j_playout_delay_id_ < 0
  · simp [callSink, hs, PlayoutDelay, Delay, CallIntMethod, hp]
  · by_cases hq : env.CallIntMethod .j_recording_delay_id_ < 0
    · simp [callSink, hs, PlayoutDelay, RecordingDelay, Delay, CallIntMethod, hp, hq]
    · simp [callSink, hs, PlayoutDelay, RecordingDelay, Delay, CallIntMethod, hp, hq]

/-- The outcome of `GetPlayoutData` does not look at the guard. -/
theorem GetPlayoutData_withGuard (sinkEnv : SinkEnv) (w : World) (guard : ThreadChecker) :
    GetPlayoutData sinkEnv (w.withGuard guard) =
      (GetPlayoutData sinkEnv w).map (fun w' => w'.withGuard guard) := by
  unfold GetPlayoutData
  cases hs : w.adapter.audio_device_buffer_ with
  | none => simp [World.withGuard, hs, Except.map]
  | some sink =>
    by_cases h1 : sinkEnv.RequestPlayoutData w.adapter.play_frames_per_buffer_ ≤ 0
    · simp [World.withGuard, hs, callSink, h1, Except.map]
    · by_cases h2 : toSizeT (sinkEnv.RequestPlayoutData w.adapter.play_frames_per_buffer_) =
          w.adapter.play_frames_per_buffer_
      · cases hd : w.adapter.playout_data_ with
        | none =>
          by_cases h3 : sinkEnv.GetPlayoutData.2 = []
          · by_cases h4 : toSizeT sinkEnv.GetPlayoutData.1 = w.adapter.play_frames_per_buffer_
            · simp [World.withGuard, hs, callSink, h1, h2, hd, copyToBuffer, h3, h4, Except.map]
            · simp [World.withGuard, hs, callSink, h1, h2, hd, copyToBuffer, h3, h4, Except.map]
          · simp [World.withGuard, hs, callSink, h1, h2, hd, copyToBuffer, h3, Except.map]
        | some p =>
          by_cases h4 : toSizeT sinkEnv.GetPlayoutData.1 = w.adapter.play_frames_per_buffer_
          · simp [World.withGuard, hs, callSink, h1, h2, hd, copyToBuffer, h4, Except.map]
          · simp [World.withGuard, hs, callSink, h1, h2, hd, copyToBuffer, h4, Except.map]
      · simp [World.withGuard, hs, callSink, h1, h2, Except.map]

/-- The outcomes of `GetPlayoutData`: completion with the adapter as before,
the count assertion, or a copy through a null buffer pointer. -/
theorem GetPlayoutData_outcome (sinkEnv : SinkEnv) (w : World) :
    (∃ w', GetPlayoutData sinkEnv w = .ok w' ∧ w'.adapter = w.adapter) ∨
    GetPlayoutData sinkEnv w = .error .countMismatch ∨
    GetPlayoutData sinkEnv w = .error .nullDereference := by
  unfold GetPlayoutData
  cases hs : w.adapter.audio_device_buffer_ with
  | none => simp
  | some sink =>
    by_cases h1 : sinkEnv.RequestPlayoutData w.adapter.play_frames_per_buffer_ ≤ 0
    · simp [hs, callSink, h1]
    · by_cases h2 : toSizeT (sinkEnv.RequestPlayoutData w.adapter.play_frames_per_buffer_) =
          w.adapter.play_frames_per_buffer_
      · cases hd : w.adapter.playout_data_ with
        | none =>
          by_cases h3 : sinkEnv.GetPlayoutData.2 = []
          · by_cases h4 : toSizeT sinkEnv.GetPlayoutData.1 = w.adapter.play_frames_per_buffer_
            · simp [hs, callSink, h1, h2, hd, copyToBuffer, h3, h4]
            · simp [hs, callSink, h1, h2, hd, copyToBuffer, h3, h4]
          · simp [hs, callSink, h1, h2, hd, copyToBuffer, h3]
        | some p =>
          by_cases h4 : toSizeT sinkEnv.GetPlayoutData.1 = w.adapter.play_frames_per_buffer_
          · simp [hs, callSink, h1, h2, hd, copyToBuffer, h4]
          · simp [hs, callSink, h1, h2, hd, copyToBuffer, h4]
      · simp [hs, callSink, h1, h2]

/-- C21: DataIsRecorded and GetPlayoutData take no calling thread and make no
thread check. DataIsRecorded, the two delay queries it makes included, runs
to completion in every state, and so for every guard state; it only adds to
the trace. GetPlayoutData never ends in the affinity fault (it completes, or
stops at the sample-count assertion or at a copy through a null buffer
pointer), and when it completes the adapter, the guard's binding included, is
as before. For both, replacing the guard by any other guard state changes
nothing in the outcome but that guard. -/
theorem data_path_ignores_guard (env : Env) (sinkEnv : SinkEnv) (w : World)
    (guard : ThreadChecker) :
    (∃ events, DataIsRecorded env sinkEnv w = .ok { w with trace := w.trace ++ events }) ∧
    DataIsRecorded env sinkEnv (w.withGuard guard) =
      (DataIsRecorded env sinkEnv w).map (fun w' => w'.withGuard guard) ∧
    GetPlayoutData sinkEnv w ≠ .error .affinity ∧
    ((∃ w', GetPlayoutData sinkEnv w = .ok w' ∧ w'.adapter = w.adapter) ∨
      GetPlayoutData sinkEnv w = .error .countMismatch ∨
      GetPlayoutData sinkEnv w = .error .nullDereference) ∧
    GetPlayoutData sinkEnv (w.withGuard guard) =
      (GetPlayoutData sinkEnv w).map (fun w' => w'.withGuard guard) := by
  have hout := GetPlayoutData_outcome sinkEnv w
  refine ⟨?_, ?_, ?_, hout, GetPlayoutData_withGuard sinkEnv w guard⟩
  · cases hs : w.adapter.audio_device_buffer_ with
    | none => exact ⟨[], by rw [(data_path_null_sink env sinkEnv w hs).1]; simp⟩
    | some sink => exact ⟨_, DataIsRecorded_eq env sinkEnv w sink hs⟩
  · cases hs : w.adapter.audio_device_buffer_ with
    | none =>
      have hs' : (w.withGuard guard).adapter.audio_device_buffer_ = none := hs
      rw [(data_path_null_sink env sinkEnv w hs).1,
        (data_path_null_sink env sinkEnv _ hs').1]
      rfl
    | some sink =>
      have hs' : (w.withGuard guard).adapter.audio_device_buffer_ = some sink := hs
      rw [DataIsRecorded_eq env sinkEnv w sink hs, DataIsRecorded_eq env sinkEnv _ sink hs']
      rfl
  · rcases hout with ⟨w', h, _⟩ | h | h <;> rw [h] <;> simp

/-! ## What a call leaves alone -/

/-- A thread check that passes gives the world with the guard bound to the
caller. -/
theorem RTC_DCHECK_ok (current : Nat) (w w1 : World)
    (h : RTC_DCHECK_CalledOnValidThread current w = .ok w1) : w1 = w.boundTo current := by
  unfold RTC_DCHECK_CalledOnValidThread ThreadChecker.CalledOnValidThread at h
  unfold World.boundTo
  rcases w with ⟨⟨⟨_ | t⟩, _, _, _, _, _, _, _, _, _, _, _⟩, _, _, _, _⟩
  · simp at h
    exact h.symm
  · by_cases ht : t = current
    · subst ht
      simp at h
      exact h.symm
    · simp [ht] at h

/-- The recording call site of `SetupBuffer` leaves the playout side, the
channel counts, the guard, the sink pointer and the AGC flag alone. -/
theorem SetupBuffer_recording_frame (env : Env) (r : Nat) (c : Int) (w w' : World)
    (h : SetupBuffer env r c .recording_data_size_ .recording_data_ .rec_frames_per_buffer_
      .j_recording_buffer_id_ w = .ok w') :
    w'.adapter._recChannels = w.adapter._recChannels ∧
    w'.adapter._playChannels = w.adapter._playChannels ∧
    w'.adapter.play_frames_per_buffer_ = w.adapter.play_frames_per_buffer_ ∧
    w'.adapter.playout_data_ = w.adapter.playout_data_ ∧
    w'.adapter.playout_data_size_ = w.adapter.playout_data_size_ ∧
    w'.playoutBuffer = w.playoutBuffer ∧
    w'.adapter.thread_checker_ = w.adapter.thread_checker_ ∧
    w'.adapter.audio_device_buffer_ = w.adapter.audio_device_buffer_ ∧
    w'.adapter._AGC = w.adapter._AGC := by
  unfold SetupBuffer at h
  simp only [loadSize_storeFrames, loadData_storeFrames, loadFrames_storeFrames] at h
  generalize toSizeT (toInt32 (toUInt32 (c * (BITS_PER_SAMPLE / 8)) *
    (r / toUInt32 BUFFERS_PER_SECOND % 2 ^ 32))) = n at h
  generalize toInt32 (toUInt32 (c * (BITS_PER_SAMPLE / 8)) *
    (r / toUInt32 BUFFERS_PER_SECOND % 2 ^ 32)) = b at h
  by_cases hsz : w.adapter.loadSize .recording_data_size_ = n
  · simp [hsz] at h
    subst h
    simp [JavaAppAudioDevice.storeFrames]
  · cases hd : w.adapter.loadData .recording_data_ <;> cases hn : env.newArray n <;>
      simp [hsz, hd, hn, newArray, delete] at h
    subst h
    simp [JavaAppAudioDevice.storeFrames, JavaAppAudioDevice.storeData,
      JavaAppAudioDevice.storeSize, SetObjectField]

/-- The playout call site of `SetupBuffer` leaves the recording side, the
channel counts, the guard, the sink pointer and the AGC flag alone. -/
theorem SetupBuffer_playout_frame (env : Env) (r : Nat) (c : Int) (w w' : World)
    (h : SetupBuffer env r c .playout_data_size_ .playout_data_ .play_frames_per_buffer_
      .j_playout_buffer_id_ w = .ok w') :
    w'.adapter._playChannels = w.adapter._playChannels ∧
    w'.adapter._recChannels = w.adapter._recChannels ∧
    w'.adapter.rec_frames_per_buffer_ = w.adapter.rec_frames_per_buffer_ ∧
    w'.adapter.recording_data_ = w.adapter.recording_data_ ∧
    w'.adapter.recording_data_size_ = w.adapter.recording_data_size_ ∧
    w'.recordingBuffer = w.recordingBuffer ∧
    w'.adapter.thread_checker_ = w.adapter.thread_checker_ ∧
    w'.adapter.audio_device_buffer_ = w.adapter.audio_device_buffer_ ∧
    w'.adapter._AGC = w.adapter._AGC := by
  unfold SetupBuffer at h
  simp only [loadSize_storeFrames, loadData_storeFrames, loadFrames_storeFrames] at h
  generalize toSizeT (toInt32 (toUInt32 (c * (BITS_PER_SAMPLE / 8)) *
    (r / toUInt32 BUFFERS_PER_SECOND % 2 ^ 32))) = n at h
  generalize toInt32 (toUInt32 (c * (BITS_PER_SAMPLE / 8)) *
    (r / toUInt32 BUFFERS_PER_SECOND % 2 ^ 32)) = b at h
  by_cases hsz : w.adapter.loadSize .playout_data_size_ = n
  · simp [hsz] at h
    subst h
    simp [JavaAppAudioDevice.storeFrames]
  · cases hd : w.adapter.loadData .playout_data_ <;> cases hn : env.newArray n <;>
      simp [hsz, hd, hn, newArray, delete] at h
    subst h
    simp [JavaAppAudioDevice.storeFrames, JavaAppAudioDevice.storeData,
      JavaAppAudioDevice.storeSize, SetObjectField]

/-- A sink call that returns changes the trace only. -/
theorem callSink_ok (call : SinkCall) (w w1 : World) (h : callSink call w = .ok w1) :
    w1.adapter = w.adapter ∧ w1.heap = w.heap ∧ w1.recordingBuffer = w.recordingBuffer ∧
    w1.playoutBuffer = w.playoutBuffer := by
  unfold callSink at h
  cases hs : w.adapter.audio_device_buffer_ <;> simp [hs] at h
  subst h
  exact ⟨rfl, rfl, rfl, rfl⟩

/-- What a completed `SetRecordingSampleRate` leaves alone. -/
theorem SetRecordingSampleRate_frame (current : Nat) (env : Env) (r : Nat) (w : World)
    (s : Int) (w' : World) (h : SetRecordingSampleRate current env r w = .ok (s, w')) :
    w'.adapter._recChannels = w.adapter._recChannels ∧
    w'.adapter._playChannels = w.adapter._playChannels ∧
    w'.adapter.play_frames_per_buffer_ = w.adapter.play_frames_per_buffer_ ∧
    w'.adapter.playout_data_ = w.adapter.playout_data_ ∧
    w'.adapter.playout_data_size_ = w.adapter.playout_data_size_ ∧
    w'.playoutBuffer = w.playoutBuffer := by
  unfold SetRecordingSampleRate at h
  cases hD : RTC_DCHECK_CalledOnValidThread current w with
  | error f => simp [hD] at h
  | ok w1 =>
    have h1 := RTC_DCHECK_ok current w w1 hD
    cases hS : callSink (.SetRecordingSampleRate r) w1 with
    | error f => simp [hD, hS] at h
    | ok w2 =>
      obtain ⟨ha, _, _, hb⟩ := callSink_ok _ _ _ hS
      cases hB : SetupBuffer env r w2.adapter._recChannels .recording_data_size_
          .recording_data_ .rec_frames_per_buffer_ .j_recording_buffer_id_ w2 with
      | error f => simp [hD, hS, hB] at h
      | ok w3 =>
        simp [hD, hS, hB] at h
        obtain ⟨_, hw⟩ := h
        subst hw
        obtain ⟨f1, f2, f3, f4, f5, f6, _⟩ := SetupBuffer_recording_frame env r _ w2 w3 hB
        rw [f1, f2, f3, f4, f5, f6, ha, hb, h1]
        exact ⟨rfl, rfl, rfl, rfl, rfl, rfl⟩

/-- What a completed `SetPlayoutSampleRate` leaves alone. -/
theorem SetPlayoutSampleRate_frame (current : Nat) (env : Env) (r : Nat) (w : World)
    (s : Int) (w' : World) (h : SetPlayoutSampleRate current env r w = .ok (s, w')) :
    w'.adapter._playChannels = w.adapter._playChannels ∧
    w'.adapter._recChannels = w.adapter._recChannels ∧
    w'.adapter.rec_frames_per_buffer_ = w.adapter.rec_frames_per_buffer_ ∧
    w'.adapter.recording_data_ = w.adapter.recording_data_ ∧
    w'.adapter.recording_data_size_ = w.adapter.recording_data_size_ ∧
    w'.recordingBuffer = w.recordingBuffer := by
  unfold SetPlayoutSampleRate at h
  cases hD : RTC_DCHECK_CalledOnValidThread current w with
  | error f => simp [hD] at h
  | ok w1 =>
    have h1 := RTC_DCHECK_ok current w w1 hD
    cases hS : callSink (.SetPlayoutSampleRate r) w1 with
    | error f => simp [hD, hS] at h
    | ok w2 =>
      obtain ⟨ha, _, hb, _⟩ := callSink_ok _ _ _ hS
      cases hB : SetupBuffer env r w2.adapter._playChannels .playout_data_size_
          .playout_data_ .play_frames_per_buffer_ .j_playout_buffer_id_ w2 with
      | error f => simp [hD, hS, hB] at h
      | ok w3 =>
        simp [hD, hS, hB] at h
        obtain ⟨_, hw⟩ := h
        subst hw
        obtain ⟨f1, f2, f3, f4, f5, f6, _⟩ := SetupBuffer_playout_frame env r _ w2 w3 hB
        rw [f1, f2, f3, f4, f5, f6, ha, hb, h1]
        exact ⟨rfl, rfl, rfl, rfl, rfl, rfl⟩

/-! ## Independence of the two directions (C28) -/

/-- C28: a completed SetRecordingSampleRate and a completed SetStereoRecording
leave the playout channel count, playout frames-per-buffer, playout buffer
handle, recorded playout byte size and the device's playoutBuffer field
unchanged; a completed SetPlayoutSampleRate and SetStereoPlayout leave the
recording channel count, recording frames-per-buffer, recording buffer handle,
recorded recording byte size and the device's recordingBuffer field
unchanged. -/
theorem directions_are_independent (current : Nat) (env : Env) (r : Nat) (enable : Bool)
    (w : World) (s : Int) (w' : World) :
    (SetRecordingSampleRate current env r w = .ok (s, w') →
      w'.adapter._playChannels = w.adapter._playChannels ∧
      w'.adapter.play_frames_per_buffer_ = w.adapter.play_frames_per_buffer_ ∧
      w'.adapter.playout_data_ = w.adapter.playout_data_ ∧
      w'.adapter.playout_data_size_ = w.adapter.playout_data_size_ ∧
      w'.playoutBuffer = w.playoutBuffer) ∧
    (SetStereoRecording current enable w = .ok (s, w') →
      w'.adapter._playChannels = w.adapter._playChannels ∧
      w'.adapter.play_frames_per_buffer_ = w.adapter.play_frames_per_buffer_ ∧
      w'.adapter.playout_data_ = w.adapter.playout_data_ ∧
      w'.adapter.playout_data_size_ = w.adapter.playout_data_size_ ∧
      w'.playoutBuffer = w.playoutBuffer) ∧
    (SetPlayoutSampleRate current env r w = .ok (s, w') →
      w'.adapter._recChannels = w.adapter._recChannels ∧
      w'.adapter.rec_frames_per_buffer_ = w.adapter.rec_frames_per_buffer_ ∧
      w'.adapter.recording_data_ = w.adapter.recording_data_ ∧
      w'.adapter.recording_data_size_ = w.adapter.recording_data_size_ ∧
      w'.recordingBuffer = w.recordingBuffer) ∧
    (SetStereoPlayout enable w = (s, w') →
      w'.adapter._recChannels = w.adapter._recChannels ∧
      w'.adapter.rec_frames_per_buffer_ = w.adapter.rec_frames_per_buffer_ ∧
      w'.adapter.recording_data_ = w.adapter.recording_data_ ∧
      w'.adapter.recording_data_size_ = w.adapter.recording_data_size_ ∧
      w'.recordingBuffer = w.recordingBuffer) := by
  refine ⟨fun h => ?_, fun h => ?_, fun h => ?_, fun h => ?_⟩
  · exact (SetRecordingSampleRate_frame current env r w s w' h).2
  · unfold SetStereoRecording at h
    cases hD : RTC_DCHECK_CalledOnValidThread current w with
    | error f => simp [hD] at h
    | ok w1 =>
      have h1 := RTC_DCHECK_ok current w w1 hD
      subst h1
      cases enable <;> simp [hD] at h <;> obtain ⟨_, hw⟩ := h <;> subst hw <;>
        exact ⟨rfl, rfl, rfl, rfl, rfl⟩
  · exact (SetPlayoutSampleRate_frame current env r w s w' h).2
  · rw [SetStereoPlayout_eq] at h
    cases h
    exact ⟨rfl, rfl, rfl, rfl, rfl⟩

/-- C28 at concrete inputs: on the world that holds the 320-byte recording
buffer, SetPlayoutSampleRate(16000) gives the world with both directions
configured and SetStereoPlayout(true) completes, and the recording fields are
the same; SetRecordingSampleRate(16000) and SetStereoRecording(true) complete
on the world with both directions configured, and the playout fields are the
same. -/
theorem directions_are_independent_witness :
    (World.duplex16kMono.adapter._recChannels = World.recording16kMono.adapter._recChannels ∧
      World.duplex16kMono.adapter.rec_frames_per_buffer_ =
        World.recording16kMono.adapter.rec_frames_per_buffer_ ∧
      World.duplex16kMono.adapter.recording_data_ =
        World.recording16kMono.adapter.recording_data_ ∧
      World.duplex16kMono.adapter.recording_data_size_ =
        World.recording16kMono.adapter.recording_data_size_ ∧
      World.duplex16kMono.recordingBuffer = World.recording16kMono.recordingBuffer) ∧
    (∃ w', SetRecordingSampleRate 1 (Env.plentiful 3000 0 false) 16000 World.duplex16kMono =
        .ok (0, w') ∧
      w'.adapter._playChannels = 1 ∧ w'.adapter.play_frames_per_buffer_ = 160 ∧
      w'.adapter.playout_data_ = some 2320 ∧ w'.adapter.playout_data_size_ = 320 ∧
      w'.playoutBuffer = some (2320, 320)) ∧
    (∃ w', SetStereoRecording 1 true World.duplex16kMono = .ok (0, w') ∧
      w'.adapter._playChannels = 1 ∧ w'.adapter.play_frames_per_buffer_ = 160 ∧
      w'.adapter.playout_data_ = some 2320 ∧ w'.adapter.playout_data_size_ = 320 ∧
      w'.playoutBuffer = some (2320, 320)) ∧
    (∃ w', SetStereoPlayout true World.duplex16kMono = (0, w') ∧
      w'.adapter._recChannels = 1 ∧ w'.adapter.rec_frames_per_buffer_ = 160 ∧
      w'.adapter.recording_data_ = some 1320 ∧ w'.adapter.recording_data_size_ = 320 ∧
      w'.recordingBuffer = some (1320, 320)) :=
  ⟨(directions_are_independent 1 (Env.plentiful 2000 0 false) 16000 true
      World.recording16kMono 0 World.duplex16kMono).2.2.1 rfl,
   ⟨_, rfl, (directions_are_independent 1 (Env.plentiful 3000 0 false) 16000 true
      World.duplex16kMono 0 _).1 rfl⟩,
   ⟨_, rfl, (directions_are_independent 1 (Env.plentiful 3000 0 false) 16000 true
      World.duplex16kMono 0 _).2.1 rfl⟩,
   ⟨_, rfl, (directions_are_independent 1 (Env.plentiful 3000 0 false) 16000 true
      World.duplex16kMono 0 _).2.2.2 rfl⟩⟩

/-! ## The channel counts (C27) -/

/-- What one completed call does to the two channel counts: each is as it
was, or 1, or 2. -/
theorem run_channels (current : Nat) (env : Env) (sinkEnv : SinkEnv) (c : Call)
    (w w' : World) (h : c.run current env sinkEnv w = .ok w') :
    (w'.adapter._recChannels = w.adapter._recChannels ∨ w'.adapter._recChannels = 1 ∨
      w'.adapter._recChannels = 2) ∧
    (w'.adapter._playChannels = w.adapter._playChannels ∨ w'.adapter._playChannels = 1 ∨
      w'.adapter._playChannels = 2) := by
  cases c <;> simp only [Call.run] at h
  all_goals first
    | (cases hD : RTC_DCHECK_CalledOnValidThread current w with
        | error f =>
          simp [Init, Terminate, Initialized, PlayoutIsAvailable, InitPlayout, PlayoutIsInitialized,
            RecordingIsAvailable, InitRecording, RecordingIsInitialized, StartPlayout, StopPlayout,
            Playing, StartRecording, StopRecording, Recording, StereoPlayoutIsAvailable,
            StereoPlayout, StereoRecordingIsAvailable, SetStereoRecording, StereoRecording,
            hD, Except.map] at h
        | ok w1 =>
          have h1 := RTC_DCHECK_ok current w w1 hD
          subst h1
          simp [Init, Terminate, Initialized, PlayoutIsAvailable, InitPlayout, PlayoutIsInitialized,
            RecordingIsAvailable, InitRecording, RecordingIsInitialized, StartPlayout, StopPlayout,
            Playing, StartRecording, StopRecording, Recording, StereoPlayoutIsAvailable,
            StereoPlayout, StereoRecordingIsAvailable, SetStereoRecording, StereoRecording,
            hD, Except.map, CallIntMethod, CallBooleanMethod, Available] at h
          subst h
          simp [World.boundTo]
          done)
    | skip
  case PlayoutIsAvailable a =>
    cases hD : RTC_DCHECK_CalledOnValidThread current w with
    | error f => simp [PlayoutIsAvailable, hD, Except.map] at h
    | ok w1 =>
      have h1 := RTC_DCHECK_ok current w w1 hD
      subst h1
      simp only [PlayoutIsAvailable, hD, Except.map, Available, CallIntMethod] at h
      split at h <;> simp at h <;> subst h <;> simp [World.boundTo]
  case RecordingIsAvailable a =>
    cases hD : RTC_DCHECK_CalledOnValidThread current w with
    | error f => simp [RecordingIsAvailable, hD, Except.map] at h
    | ok w1 =>
      have h1 := RTC_DCHECK_ok current w w1 hD
      subst h1
      simp only [RecordingIsAvailable, hD, Except.map, Available, CallIntMethod] at h
      split at h <;> simp at h <;> subst h <;> simp [World.boundTo]
  case SetAGC e =>
    simp only [Except.ok.injEq] at h
    subst h
    simp [SetAGC]
  case SetStereoPlayout e =>
    simp only [Except.ok.injEq] at h
    subst h
    cases e <;> simp [SetStereoPlayout]
  case SetStereoRecording e =>
    cases hD : RTC_DCHECK_CalledOnValidThread current w with
    | error f => simp [SetStereoRecording, hD, Except.map] at h
    | ok w1 =>
      have h1 := RTC_DCHECK_ok current w w1 hD
      subst h1
      cases e <;> simp [SetStereoRecording, hD, Except.map] at h <;> subst h <;>
        simp [World.boundTo]
  case PlayoutDelay d =>
    simp only [Except.ok.injEq] at h
    subst h
    simp only [PlayoutDelay, Delay, CallIntMethod]
    split <;> simp
  case RecordingDelay d =>
    simp only [Except.ok.injEq] at h
    subst h
    simp only [RecordingDelay, Delay, CallIntMethod]
    split <;> simp
  case SetRecordingSampleRate r =>
    cases hR : SetRecordingSampleRate current env r w with
    | error f => simp [hR, Except.map] at h
    | ok p =>
      obtain ⟨s, w2⟩ := p
      simp [hR, Except.map] at h
      subst h
      obtain ⟨f1, f2, _⟩ := SetRecordingSampleRate_frame current env r w s w2 hR
      exact ⟨Or.inl f1, Or.inl f2⟩
  case SetPlayoutSampleRate r =>
    cases hR : SetPlayoutSampleRate current env r w with
    | error f => simp [hR, Except.map] at h
    | ok p =>
      obtain ⟨s, w2⟩ := p
      simp [hR, Except.map] at h
      subst h
      obtain ⟨f1, f2, _⟩ := SetPlayoutSampleRate_frame current env r w s w2 hR
      exact ⟨Or.inl f2, Or.inl f1⟩
  case PlayoutWarning =>
    simp only [Except.ok.injEq] at h
    subst h
    simp [PlayoutWarning, CallBooleanMethod]
  case PlayoutError =>
    simp only [Except.ok.injEq] at h
    subst h
    simp [PlayoutError, CallBooleanMethod]
  case RecordingWarning =>
    simp only [Except.ok.injEq] at h
    subst h
    simp [RecordingWarning, CallBooleanMethod]
  case RecordingError =>
    simp only [Except.ok.injEq] at h
    subst h
    simp [RecordingError, CallBooleanMethod]
  case ClearPlayoutWarning =>
    simp only [Except.ok.injEq] at h
    subst h
    simp [ClearPlayoutWarning, CallVoidMethod]
  case ClearPlayoutError =>
    simp only [Except.ok.injEq] at h
    subst h
    simp [ClearPlayoutError, CallVoidMethod]
  case ClearRecordingWarning =>
    simp only [Except.ok.injEq] at h
    subst h
    simp [ClearRecordingWarning, CallVoidMethod]
  case ClearRecordingError =>
    simp only [Except.ok.injEq] at h
    subst h
    simp [ClearRecordingError, CallVoidMethod]
  case AttachAudioBuffer b =>
    cases b with
    | none => simp [AttachAudioBuffer, callSink] at h
    | some sink =>
      simp [AttachAudioBuffer, callSink] at h
      subst h
      simp
  case DataIsRecorded =>
    cases hs : w.adapter.audio_device_buffer_ with
    | none =>
      have hn := (data_path_null_sink env sinkEnv w hs).1
      rw [hn] at h
      simp only [Except.ok.injEq] at h
      subst h
      simp
    | some sink =>
      rw [DataIsRecorded_eq env sinkEnv w sink hs] at h
      simp only [Except.ok.injEq] at h
      subst h
      simp
  case GetPlayoutData =>
    rcases GetPlayoutData_outcome sinkEnv w with ⟨w2, h2, ha⟩ | h2 | h2
    · rw [h2] at h
      simp only [Except.ok.injEq] at h
      subst h
      rw [ha]
      simp
    · rw [h2] at h
      simp at h
    · rw [h2] at h
      simp at h

/-- A sequence of completed calls keeps each channel count at 1 or 2. -/
theorem runCalls_channels (calls : List Invocation) (w0 w : World)
    (h0 : (w0.adapter._recChannels = 1 ∨ w0.adapter._recChannels = 2) ∧
      (w0.adapter._playChannels = 1 ∨ w0.adapter._playChannels = 2))
    (h : runCalls calls w0 = .ok w) :
    (w.adapter._recChannels = 1 ∨ w.adapter._recChannels = 2) ∧
    (w.adapter._playChannels = 1 ∨ w.adapter._playChannels = 2) := by
  induction calls generalizing w0 with
  | nil =>
    simp only [runCalls, Except.ok.injEq] at h
    subst h
    exact h0
  | cons i rest ih =>
    simp only [runCalls] at h
    cases hr : i.call.run i.current i.env i.sinkEnv w0 with
    | error f => simp [hr] at h
    | ok w1 =>
      simp only [hr] at h
      obtain ⟨hrec, hplay⟩ := run_channels i.current i.env i.sinkEnv i.call w0 w1 hr
      refine ih w1 ⟨?_, ?_⟩ h
      · rcases hrec with e | e | e
        · rw [e]; exact h0.1
        · exact Or.inl e
        · exact Or.inr e
      · rcases hplay with e | e | e
        · rw [e]; exact h0.2
        · exact Or.inl e
        · exact Or.inr e

/-- The getter `StereoRecording` on the thread the guard accepts. -/
theorem StereoRecording_eq (current : Nat) (enabled : Bool) (w : World)
    (hvalid : (w.adapter.thread_checker_.CalledOnValidThread current).1 = true) :
    StereoRecording current enabled w =
      .ok (0, decide (w.adapter._recChannels = 2), w.boundTo current) := by
  unfold StereoRecording
  rw [RTC_DCHECK_passes current w hvalid]
  rfl

/-- The getter `StereoPlayout` on the thread the guard accepts. -/
theorem StereoPlayout_eq (current : Nat) (enabled : Bool) (w : World)
    (hvalid : (w.adapter.thread_checker_.CalledOnValidThread current).1 = true) :
    StereoPlayout current enabled w =
      .ok (0, decide (w.adapter._playChannels = 2), w.boundTo current) := by
  unfold StereoPlayout
  rw [RTC_DCHECK_passes current w hvalid]
  rfl

/-- C27: the constructed adapter has both channel counts at 1; in every world
reached from construction by a sequence of completed calls, the recording and
the playout channel count are each 1 or 2; and there, on a thread the guard
accepts, for every boolean e, SetStereoRecording(e) returns 0 and sets the
recording count to 2 if e and to 1 otherwise, and a following StereoRecording
returns 0 with enabled = e whatever its argument held; SetStereoPlayout(e)
returns 0 and sets the playout count likewise, and a following StereoPlayout
returns 0 with enabled = e. -/
theorem channel_configuration_invariant (creator : Nat) (id : Int) (junk : Indeterminate)
    (calls : List Invocation) (w : World) (current : Nat)
    (hreach : runCalls calls (World.constructed creator id junk) = .ok w)
    (hvalid : (w.adapter.thread_checker_.CalledOnValidThread current).1 = true) :
    ((World.constructed creator id junk).adapter._recChannels = 1 ∧
      (World.constructed creator id junk).adapter._playChannels = 1) ∧
    ((w.adapter._recChannels = 1 ∨ w.adapter._recChannels = 2) ∧
      (w.adapter._playChannels = 1 ∨ w.adapter._playChannels = 2)) ∧
    (∀ e enabled : Bool, ∃ w1 w2,
      SetStereoRecording current e w = .ok (0, w1) ∧
      w1.adapter._recChannels = (if e then 2 else 1) ∧
      w1.adapter._playChannels = w.adapter._playChannels ∧
      StereoRecording current enabled w1 = .ok (0, e, w2) ∧
      w2.adapter._recChannels = (if e then 2 else 1)) ∧
    (∀ e enabled : Bool, ∃ w1 w2,
      SetStereoPlayout e w = (0, w1) ∧
      w1.adapter._playChannels = (if e then 2 else 1) ∧
      w1.adapter._recChannels = w.adapter._recChannels ∧
      StereoPlayout current enabled w1 = .ok (0, e, w2) ∧
      w2.adapter._playChannels = (if e then 2 else 1)) := by
  refine ⟨⟨rfl, rfl⟩, runCalls_channels calls _ w ⟨Or.inl rfl, Or.inl rfl⟩ hreach,
    fun e enabled => ?_, fun e enabled => ?_⟩
  · have hv : (({ w.boundTo current with
          adapter := { (w.boundTo current).adapter with
                       _recChannels := if e then 2 else 1 } } :
        World).adapter.thread_checker_.CalledOnValidThread current).1 = true :=
      boundTo_valid current w
    refine ⟨{ w.boundTo current with
        adapter := { (w.boundTo current).adapter with _recChannels := if e then 2 else 1 } },
      World.boundTo { w.boundTo current with
        adapter := { (w.boundTo current).adapter with _recChannels := if e then 2 else 1 } }
        current,
      SetStereoRecording_eq current e w hvalid, rfl, rfl, ?_, rfl⟩
    rw [StereoRecording_eq current enabled _ hv]
    cases e <;> rfl
  · have hv : (({ w with adapter := { w.adapter with _playChannels := if e then 2 else 1 } } :
        World).adapter.thread_checker_.CalledOnValidThread current).1 = true := hvalid
    refine ⟨{ w with adapter := { w.adapter with _playChannels := if e then 2 else 1 } },
      World.boundTo { w with adapter := { w.adapter with _playChannels := if e then 2 else 1 } }
        current,
      SetStereoPlayout_eq e w, rfl, rfl, ?_, rfl⟩
    rw [StereoPlayout_eq current enabled _ hv]
    cases e <;> rfl

/-- C27 at concrete inputs: from the constructed adapter, attaching sink 7,
SetStereoRecording(true) and SetRecordingSampleRate(48000) on thread 1, then
SetStereoPlayout(true) and SetStereoPlayout(false) complete and reach a world
with two recording channels and one playout channel whose guard accepts
thread 1, where the statement of C27 holds. -/
theorem channel_configuration_invariant_witness :
    ∃ w, runCalls
        [⟨.AttachAudioBuffer (some 7), 1, Env.plentiful 1000 0 false, SinkEnv.offering 0 0 []⟩,
         ⟨.SetStereoRecording true, 1, Env.plentiful 1000 0 false, SinkEnv.offering 0 0 []⟩,
         ⟨.SetRecordingSampleRate 48000, 1, Env.plentiful 1000 0 false,
           SinkEnv.offering 0 0 []⟩,
         ⟨.SetStereoPlayout true, 2, Env.plentiful 1000 0 false, SinkEnv.offering 0 0 []⟩,
         ⟨.SetStereoPlayout false, 3, Env.plentiful 1000 0 false, SinkEnv.offering 0 0 []⟩]
        (World.constructed 9 0 ⟨0, 0, none⟩) = .ok w ∧
      (w.adapter.thread_checker_.CalledOnValidThread 1).1 = true ∧
      w.adapter._recChannels = 2 ∧ w.adapter._playChannels = 1 ∧
      w.adapter.recording_data_size_ = 1920 ∧
      (((World.constructed 9 0 ⟨0, 0, none⟩).adapter._recChannels = 1 ∧
        (World.constructed 9 0 ⟨0, 0, none⟩).adapter._playChannels = 1) ∧
      ((w.adapter._recChannels = 1 ∨ w.adapter._recChannels = 2) ∧
        (w.adapter._playChannels = 1 ∨ w.adapter._playChannels = 2)) ∧
      (∀ e enabled : Bool, ∃ w1 w2,
        SetStereoRecording 1 e w = .ok (0, w1) ∧
        w1.adapter._recChannels = (if e then 2 else 1) ∧
        w1.adapter._playChannels = w.adapter._playChannels ∧
        StereoRecording 1 enabled w1 = .ok (0, e, w2) ∧
        w2.adapter._recChannels = (if e then 2 else 1)) ∧
      (∀ e enabled : Bool, ∃ w1 w2,
        SetStereoPlayout e w = (0, w1) ∧
        w1.adapter._playChannels = (if e then 2 else 1) ∧
        w1.adapter._recChannels = w.adapter._recChannels ∧
        StereoPlayout 1 enabled w1 = .ok (0, e, w2) ∧
        w2.adapter._playChannels = (if e then 2 else 1))) :=
  ⟨_, rfl, rfl, rfl, rfl, rfl,
    channel_configuration_invariant 9 0 ⟨0, 0, none⟩
      [⟨.AttachAudioBuffer (some 7), 1, Env.plentiful 1000 0 false, SinkEnv.offering 0 0 []⟩,
       ⟨.SetStereoRecording true, 1, Env.plentiful 1000 0 false, SinkEnv.offering 0 0 []⟩,
       ⟨.SetRecordingSampleRate 48000, 1, Env.plentiful 1000 0 false,
         SinkEnv.offering 0 0 []⟩,
       ⟨.SetStereoPlayout true, 2, Env.plentiful 1000 0 false, SinkEnv.offering 0 0 []⟩,
       ⟨.SetStereoPlayout false, 3, Env.plentiful 1000 0 false, SinkEnv.offering 0 0 []⟩]
      _ 1 rfl rfl⟩

end webrtc_jni
